import Mathlib

/-!
# uvc-gadget: the bridge between a capture node and a UVC gadget node, embedded from `uvc-gadget.c`

The development follows the C source function by function: the control plane
(Probe/Commit negotiation and camera controls), the buffer shuttle with its
STREAMON and STREAMOFF handlers, the opening of a node and the format
inventory read from configfs.

* `unsigned int` and `__u32` values are natural numbers; a store into a
  narrower field reduces modulo the field width, and `int` arithmetic that
  ends in an unsigned result is reduced modulo `2^32`.
* `int` values are integers; `toInt32` is the cast `(int) x` of an unsigned
  value.
* Global tables (`uvc_frame_format`, `control_mapping`, `streaming_maxpacket`)
  and the two endpoints are fields of one `Bridge` state.
* A function that dereferences a pointer it never initialised, divides by
  zero or reads or writes outside an array returns `none`.
* Kernel calls are answered by a `Kernel` function and recorded in the
  `calls` log of the state. Each endpoint carries, next to the fields of the
  C record, the number `queued` of buffers its driver holds: a dequeue fails
  when it is zero.
* The counters `qbuf_count` and `dqbuf_count` are natural numbers; the wrap
  after `2^32` queue operations is not modelled.
* C strings are lists of characters without a NUL; `strncmp` against a
  literal over the length of the literal is a prefix test.
-/

namespace UvcGadget

/-! ## Constants of the system headers -/

/-- Request code `UVC_SET_CUR` of `linux/usb/video.h`. -/
def UVC_SET_CUR : Nat := 0x01
/-- Request code `UVC_GET_CUR`. -/
def UVC_GET_CUR : Nat := 0x81
/-- Request code `UVC_GET_MIN`. -/
def UVC_GET_MIN : Nat := 0x82
/-- Request code `UVC_GET_MAX`. -/
def UVC_GET_MAX : Nat := 0x83
/-- Request code `UVC_GET_RES`. -/
def UVC_GET_RES : Nat := 0x84
/-- Request code `UVC_GET_LEN`. -/
def UVC_GET_LEN : Nat := 0x85
/-- Request code `UVC_GET_INFO`. -/
def UVC_GET_INFO : Nat := 0x86
/-- Request code `UVC_GET_DEF`. -/
def UVC_GET_DEF : Nat := 0x87

/-- Streaming selector `UVC_VS_CONTROL_UNDEFINED`. -/
def UVC_VS_CONTROL_UNDEFINED : Nat := 0x00
/-- Streaming selector `UVC_VS_PROBE_CONTROL`. -/
def UVC_VS_PROBE_CONTROL : Nat := 0x01
/-- Streaming selector `UVC_VS_COMMIT_CONTROL`. -/
def UVC_VS_COMMIT_CONTROL : Nat := 0x02

/-- Video-control selector `UVC_VC_REQUEST_ERROR_CODE_CONTROL`. -/
def UVC_VC_REQUEST_ERROR_CODE_CONTROL : Nat := 0x02
/-- Descriptor subtype `UVC_VC_INPUT_TERMINAL`, used as the interface kind. -/
def UVC_VC_INPUT_TERMINAL : Nat := 0x02
/-- Descriptor subtype `UVC_VC_PROCESSING_UNIT`, used as the interface kind. -/
def UVC_VC_PROCESSING_UNIT : Nat := 0x05

/-- Capability bit `UVC_CONTROL_CAP_GET`. -/
def UVC_CONTROL_CAP_GET : Nat := 1
/-- Capability bit `UVC_CONTROL_CAP_SET`. -/
def UVC_CONTROL_CAP_SET : Nat := 2

/-- Mask `USB_TYPE_MASK` of `linux/usb/ch9.h`. -/
def USB_TYPE_MASK : Nat := 0x60
/-- Request type `USB_TYPE_CLASS`. -/
def USB_TYPE_CLASS : Nat := 0x20
/-- Mask `USB_RECIP_MASK`. -/
def USB_RECIP_MASK : Nat := 0x1f
/-- Recipient `USB_RECIP_INTERFACE`. -/
def USB_RECIP_INTERFACE : Nat := 0x01

/-- Pixel format `V4L2_PIX_FMT_YUYV`, the fourcc of `YUYV`. -/
def V4L2_PIX_FMT_YUYV : Nat := 0x56595559
/-- Pixel format `V4L2_PIX_FMT_MJPEG`, the fourcc of `MJPG`. -/
def V4L2_PIX_FMT_MJPEG : Nat := 0x47504A4D

/-- Control flag `V4L2_CTRL_FLAG_DISABLED` of `linux/videodev2.h`. -/
def V4L2_CTRL_FLAG_DISABLED : Nat := 0x0001
/-- Control id `V4L2_CID_RED_BALANCE`. -/
def V4L2_CID_RED_BALANCE : Nat := 0x00980900 + 14
/-- Control id `V4L2_CID_BLUE_BALANCE`. -/
def V4L2_CID_BLUE_BALANCE : Nat := 0x00980900 + 15

/-- Errno `EINVAL` of Linux. -/
def EINVAL : Int := 22
/-- Errno `EL2HLT` of Linux. -/
def EL2HLT : Int := 51
/-- Errno `ENOTSUP` of Linux (the value of `EOPNOTSUPP`). -/
def ENOTSUP : Int := 95
/-- Error number `ENODEV`. -/
def ENODEV : Int := 19

/-- Memory mode `V4L2_MEMORY_MMAP` of `linux/videodev2.h`. -/
def V4L2_MEMORY_MMAP : Nat := 1
/-- Memory mode `V4L2_MEMORY_USERPTR`. -/
def V4L2_MEMORY_USERPTR : Nat := 2
/-- Buffer type `V4L2_BUF_TYPE_VIDEO_CAPTURE`. -/
def V4L2_BUF_TYPE_VIDEO_CAPTURE : Nat := 1
/-- Buffer type `V4L2_BUF_TYPE_VIDEO_OUTPUT`. -/
def V4L2_BUF_TYPE_VIDEO_OUTPUT : Nat := 2
/-- Buffer flag `V4L2_BUF_FLAG_ERROR`. -/
def V4L2_BUF_FLAG_ERROR : Nat := 0x00000040
/-- Capability `V4L2_CAP_VIDEO_CAPTURE`. -/
def V4L2_CAP_VIDEO_CAPTURE : Nat := 0x00000001
/-- Capability `V4L2_CAP_VIDEO_OUTPUT`. -/
def V4L2_CAP_VIDEO_OUTPUT : Nat := 0x00000002
/-- Capability `V4L2_CAP_STREAMING`. -/
def V4L2_CAP_STREAMING : Nat := 0x04000000

/-! ## Constants of the header `uvc-gadget.h` -/

/-- Modelled from the spec: the macro `UVC_INTF_CONTROL` of the header
`uvc-gadget.h`, the low byte of `wIndex` that addresses the video-control
interface. -/
def UVC_INTF_CONTROL : Nat := 0
/-- Modelled from the spec: the macro `UVC_INTF_STREAMING` of the header
`uvc-gadget.h`, the low byte of `wIndex` that addresses the video-streaming
interface. -/
def UVC_INTF_STREAMING : Nat := 1

/-- Modelled from the spec: the request error code `NO_ERROR` of the header
`uvc-gadget.h`. -/
def REQEC_NO_ERROR : Nat := 0x00
/-- Modelled from the spec: the request error code `INVALID_CONTROL`. -/
def REQEC_INVALID_CONTROL : Nat := 0x06
/-- Modelled from the spec: the request error code `INVALID_REQUEST`. -/
def REQEC_INVALID_REQUEST : Nat := 0x07

/-- Modelled from the spec: the macro `clamp(val, min, max)` of the header
`uvc-gadget.h`: raise `val` to `min`, then lower the result to `max`. -/
def clamp (val min max : Int) : Int :=
  let v := if val < min then min else val
  if v > max then max else v

/-! ## Machine integers -/

/-- The cast `(int) x` of an `unsigned int`. -/
def toInt32 (n : Nat) : Int :=
  if n % 2 ^ 32 < 2 ^ 31 then ((n % 2 ^ 32 : Nat) : Int)
  else ((n % 2 ^ 32 : Nat) : Int) - 2 ^ 32

/-- The conversion of an `int` to an unsigned integer of `w` bits. -/
def toUnsigned (w : Nat) (i : Int) : Nat :=
  (i % (2 ^ w : Nat)).toNat

/-- The `k` bytes that hold `n` in memory, least significant first. -/
def le_bytes (n : Nat) : Nat → List Nat
  | 0 => []
  | k + 1 => n % 256 :: le_bytes (n / 256) k

/-- The little-endian value of a run of bytes. -/
def le_value : List Nat → Nat
  | [] => 0
  | b :: bs => b + 256 * le_value bs

/-- The little-endian value of the `len` bytes at offset `off`. -/
def le_field (data : List Nat) (off len : Nat) : Nat :=
  le_value ((data.drop off).take len)

/-! ## Data model -/

/-- Modelled from the spec: one row of the table `uvc_frame_format`, whose
struct is declared in the header `uvc-gadget.h`; `video_format` is an `int`,
the other numbers are `unsigned int`. -/
structure uvc_frame_format where
  defined : Bool := false
  usb_speed : Nat := 0
  video_format : Nat := 0
  format_name : String := ""
  bFormatIndex : Nat := 0
  bFrameIndex : Nat := 0
  dwDefaultFrameInterval : Nat := 0
  dwMaxVideoFrameBufferSize : Nat := 0
  dwMaxBitRate : Nat := 0
  dwMinBitRate : Nat := 0
  wHeight : Nat := 0
  wWidth : Nat := 0
  bmCapabilities : Nat := 0
deriving DecidableEq, Repr

/-- The packed struct `uvc_streaming_control` of `linux/usb/video.h`. -/
structure uvc_streaming_control where
  bmHint : Nat := 0
  bFormatIndex : Nat := 0
  bFrameIndex : Nat := 0
  dwFrameInterval : Nat := 0
  wKeyFrameRate : Nat := 0
  wPFrameRate : Nat := 0
  wCompQuality : Nat := 0
  wCompWindowSize : Nat := 0
  wDelay : Nat := 0
  dwMaxVideoFrameSize : Nat := 0
  dwMaxPayloadTransferSize : Nat := 0
  dwClockFrequency : Nat := 0
  bmFramingInfo : Nat := 0
  bPreferedVersion : Nat := 0
  bMinVersion : Nat := 0
  bMaxVersion : Nat := 0
deriving DecidableEq, Repr

/-- The value of `sizeof (struct uvc_streaming_control)`. -/
def ctrl_length : Nat := 34

/-- The 34 bytes of a streaming control block in memory. -/
def uvc_streaming_control.bytes (c : uvc_streaming_control) : List Nat :=
  le_bytes c.bmHint 2 ++ le_bytes c.bFormatIndex 1 ++ le_bytes c.bFrameIndex 1 ++
  le_bytes c.dwFrameInterval 4 ++ le_bytes c.wKeyFrameRate 2 ++
  le_bytes c.wPFrameRate 2 ++ le_bytes c.wCompQuality 2 ++
  le_bytes c.wCompWindowSize 2 ++ le_bytes c.wDelay 2 ++
  le_bytes c.dwMaxVideoFrameSize 4 ++ le_bytes c.dwMaxPayloadTransferSize 4 ++
  le_bytes c.dwClockFrequency 4 ++ le_bytes c.bmFramingInfo 1 ++
  le_bytes c.bPreferedVersion 1 ++ le_bytes c.bMinVersion 1 ++
  le_bytes c.bMaxVersion 1

/-- The struct `uvc_request_data`: a signed length and 60 payload bytes. -/
structure uvc_request_data where
  length : Int := 0
  data : List Nat := List.replicate 60 0
deriving DecidableEq, Repr

/-- The byte `data[i]` of a request buffer. -/
def uvc_request_data.byte (d : uvc_request_data) (i : Nat) : Nat :=
  d.data.getD i 0 % 256

/-- The struct `usb_ctrlrequest` of a SETUP packet. -/
structure usb_ctrlrequest where
  bRequestType : Nat := 0
  bRequest : Nat := 0
  wValue : Nat := 0
  wIndex : Nat := 0
  wLength : Nat := 0
deriving DecidableEq, Repr

/-- Modelled from the spec: one row of the table `control_mapping`, whose
struct is declared in the header `uvc-gadget.h`. The UVC-side numbers are the
unsigned values of their 32-bit fields. -/
structure control_mapping_pair where
  type : Nat := 0
  uvc : Nat := 0
  v4l2 : Nat := 0
  enabled : Bool := false
  control_type : Nat := 0
  value : Nat := 0
  length : Nat := 0
  minimum : Nat := 0
  maximum : Nat := 0
  step : Nat := 0
  default_value : Nat := 0
  v4l2_minimum : Int := 0
  v4l2_maximum : Int := 0
deriving DecidableEq, Repr

/-- The enum `device_type`: which of the two endpoints. -/
inductive device_type where
  | DEVICE_TYPE_UVC
  | DEVICE_TYPE_V4L2
deriving DecidableEq, Repr

/-- The enum `stream_control_action`. -/
inductive stream_control_action where
  | STREAM_CONTROL_INIT
  | STREAM_CONTROL_MIN
  | STREAM_CONTROL_MAX
  | STREAM_CONTROL_SET
deriving DecidableEq, Repr

/-- The enum `uvc_frame_format_getter`. -/
inductive uvc_frame_format_getter where
  | FORMAT_INDEX_MIN
  | FORMAT_INDEX_MAX
  | FRAME_INDEX_MIN
  | FRAME_INDEX_MAX
deriving DecidableEq, Repr

/-- A request handed to a kernel video node. -/
inductive Ioctl where
  | VIDIOC_S_FMT (dev : device_type) (pixelformat width height sizeimage : Nat)
  | VIDIOC_G_FMT (dev : device_type)
  | VIDIOC_QUERYCTRL (dev : device_type) (id : Nat)
  | VIDIOC_S_CTRL (dev : device_type) (id : Nat) (value : Int)
  | VIDIOC_REQBUFS (dev : device_type) (count memory : Nat)
  | VIDIOC_QUERYBUF (dev : device_type) (index : Nat)
  | VIDIOC_QBUF (dev : device_type) (index bytesused : Nat)
  | VIDIOC_DQBUF (dev : device_type)
  | VIDIOC_STREAMON (dev : device_type)
  | VIDIOC_STREAMOFF (dev : device_type)
deriving DecidableEq, Repr

/-- The kernel: the return value of each request and the `errno` it leaves,
the `flags` a `VIDIOC_QUERYCTRL` reports for a control id, the `count` a
`VIDIOC_REQBUFS` writes back for a requested count, the `index`, `bytesused`
and `flags` of the buffer a `VIDIOC_DQBUF` hands out, whether the `mmap` of
buffer `i` fails, and the return value of the `munmap` of buffer `i`. -/
structure Kernel where
  ret : Ioctl → Int
  queryctrl_flags : device_type → Nat → Nat := fun _ _ => 0
  errno : Ioctl → Int := fun _ => 0
  reqbufs_count : device_type → Nat → Nat := fun _ count => count
  dqbuf_index : device_type → Nat := fun _ => 0
  dqbuf_bytesused : device_type → Nat := fun _ => 0
  dqbuf_flags : device_type → Nat := fun _ => 0
  mmap_failed : device_type → Nat → Bool := fun _ _ => false
  munmap : device_type → Nat → Int := fun _ _ => 0

/-- An entry of the call log. -/
inductive Call where
  | v4l2_apply_format (dev : device_type) (pixelformat width height : Nat)
  | ioctl (req : Ioctl)
deriving DecidableEq, Repr

/-- The pointer `mem` of `struct v4l2_device`: `NULL`, an array of `n` buffer
records, or the address of an array that was freed. -/
inductive buffer_array where
  | null
  | mapped (n : Nat)
  | freed
deriving DecidableEq, Repr

/-- The record `struct v4l2_device`, without the file descriptor and the
names. The field `queued` is not a field of the C record: it is the number of
buffers the driver of the node holds, queued and not yet dequeued. -/
structure v4l2_device where
  is_streaming : Bool := false
  control : Nat := 0
  control_interface : Nat := 0
  control_type : Nat := 0
  request_error_code : Nat := 0
  probe : uvc_streaming_control := {}
  commit : uvc_streaming_control := {}
  nbufs : Nat := 0
  qbuf_count : Nat := 0
  dqbuf_count : Nat := 0
  buffer_type : Nat := 0
  memory_type : Nat := 0
  mem : buffer_array := .null
  buffers_processed : Nat := 0
  queued : Nat := 0
deriving DecidableEq, Repr

/-- The program state: both endpoints, the global tables, the setting
`settings.show_fps` and the call log. `uvc_frame_format` holds the rows
`0 .. last_format_index`. -/
structure Bridge where
  udev : v4l2_device := {}
  vdev : v4l2_device := {}
  uvc_frame_format : List uvc_frame_format := []
  streaming_maxpacket : Nat := 1023
  control_mapping : List control_mapping_pair := []
  uvc_shutdown_requested : Bool := false
  show_fps : Bool := false
  calls : List Call := []
deriving Repr

/-- The endpoint of a state named by a `device_type`. -/
def Bridge.dev (s : Bridge) : device_type → v4l2_device
  | .DEVICE_TYPE_UVC => s.udev
  | .DEVICE_TYPE_V4L2 => s.vdev

/-! ## Format inventory lookups -/

/-- The function `get_frame_size`: the product is formed in `int` and returned
as `unsigned int`. -/
def get_frame_size (pixelformat width height : Nat) : Nat :=
  if pixelformat = V4L2_PIX_FMT_YUYV then (width * height * 2) % 2 ^ 32
  else if pixelformat = V4L2_PIX_FMT_MJPEG then (width * height) % 2 ^ 32
  else (width * height) % 2 ^ 32

/-- One turn of the loop of `uvc_get_frame_format_index`. -/
def frame_format_index_step (format_index : Int) (getter : uvc_frame_format_getter)
    (index : Int) (row : uvc_frame_format) : Int :=
  if format_index = -1 ∨ format_index = toInt32 row.bFormatIndex then
    let value : Int :=
      match getter with
      | .FORMAT_INDEX_MIN | .FORMAT_INDEX_MAX => toInt32 row.bFormatIndex
      | .FRAME_INDEX_MIN | .FRAME_INDEX_MAX => toInt32 row.bFrameIndex
    if index = -1 then value
    else
      match getter with
      | .FORMAT_INDEX_MIN | .FRAME_INDEX_MIN => if value < index then value else index
      | .FORMAT_INDEX_MAX | .FRAME_INDEX_MAX => if value > index then value else index
  else index

/-- The function `uvc_get_frame_format_index` over the rows
`0 .. last_format_index`. -/
def uvc_get_frame_format_index (inv : List uvc_frame_format) (format_index : Int)
    (getter : uvc_frame_format_getter) : Int :=
  inv.foldl (frame_format_index_step format_index getter) (-1)

/-- The function `uvc_get_frame_format`: the first row with both indices, or
`none` for the return value `-1`. -/
def uvc_get_frame_format (inv : List uvc_frame_format) (iFormat iFrame : Nat) :
    Option uvc_frame_format :=
  inv.find? (fun row => row.bFormatIndex = iFormat ∧ row.bFrameIndex = iFrame)

/-! ## Format and control writes on the capture side -/

/-- The function `v4l2_apply_format`, with `v4l2_set_format` and
`v4l2_get_format` unfolded: nothing is sent to a streaming endpoint. -/
def v4l2_apply_format (k : Kernel) (s : Bridge) (dev : device_type)
    (pixelformat width height : Nat) : Int × Bridge :=
  let s0 : Bridge :=
    { s with calls := s.calls ++ [Call.v4l2_apply_format dev pixelformat width height] }
  if (s0.dev dev).is_streaming then (-EINVAL, s0)
  else
    let set := Ioctl.VIDIOC_S_FMT dev pixelformat width height
      (get_frame_size pixelformat width height)
    let s1 : Bridge := { s0 with calls := s0.calls ++ [Call.ioctl set] }
    if k.ret set < 0 then (k.ret set, s1)
    else
      let get := Ioctl.VIDIOC_G_FMT dev
      let s2 : Bridge := { s1 with calls := s1.calls ++ [Call.ioctl get] }
      if k.ret get < 0 then (k.ret get, s2) else (0, s2)

/-- The function `v4l2_set_ctrl_value`: the control is queried under
`ctrl_v4l2` and, when it is there and enabled, set under `ctrl.v4l2`. -/
def v4l2_set_ctrl_value (k : Kernel) (s : Bridge) (dev : device_type)
    (ctrl : control_mapping_pair) (ctrl_v4l2 : Nat) (v4l2_ctrl_value : Int) : Bridge :=
  let query := Ioctl.VIDIOC_QUERYCTRL dev ctrl_v4l2
  let s1 : Bridge := { s with calls := s.calls ++ [Call.ioctl query] }
  if k.ret query = -1 then s1
  else if k.queryctrl_flags dev ctrl_v4l2 &&& V4L2_CTRL_FLAG_DISABLED ≠ 0 then s1
  else
    { s1 with calls := s1.calls ++ [Call.ioctl (Ioctl.VIDIOC_S_CTRL dev ctrl.v4l2 v4l2_ctrl_value)] }

/-- The value `v4l2_set_ctrl` computes for the V4L2 side, in the 32-bit
arithmetic of the expression
`(value - minimum) * v4l2_diff / ctrl_diff + v4l2_minimum`: the first operand
is unsigned, so every step is unsigned and the result is converted to `int`.
It is `none` when the divisor is zero. -/
def v4l2_ctrl_value (ctrl : control_mapping_pair) : Option Int :=
  let v4l2_diff : Int := toInt32 (toUnsigned 32 (ctrl.v4l2_maximum - ctrl.v4l2_minimum))
  let ctrl_diff : Int := toInt32 (toUnsigned 32 ((ctrl.maximum : Int) - ctrl.minimum))
  let value1 : Nat := if ctrl.value < ctrl.minimum then ctrl.minimum else ctrl.value
  let value2 : Nat := if value1 > ctrl.maximum then ctrl.maximum else value1
  if toUnsigned 32 ctrl_diff = 0 then none
  else
    let diff : Nat := toUnsigned 32 ((value2 : Int) - ctrl.minimum)
    let prod : Nat := (diff * toUnsigned 32 v4l2_diff) % 2 ^ 32
    let quot : Nat := prod / toUnsigned 32 ctrl_diff
    some (toInt32 ((quot + toUnsigned 32 ctrl.v4l2_minimum) % 2 ^ 32))

/-- The function `v4l2_set_ctrl`; `ctrl` is a copy of the mapping row. -/
def v4l2_set_ctrl (k : Kernel) (s : Bridge) (dev : device_type)
    (ctrl : control_mapping_pair) : Option Bridge :=
  match v4l2_ctrl_value ctrl with
  | none => none
  | some value =>
    let value1 : Nat := if ctrl.value < ctrl.minimum then ctrl.minimum else ctrl.value
    let value2 : Nat := if value1 > ctrl.maximum then ctrl.maximum else value1
    let copy : control_mapping_pair := { ctrl with value := value2 }
    let s1 := v4l2_set_ctrl_value k s dev copy copy.v4l2 value
    if copy.v4l2 = V4L2_CID_RED_BALANCE then
      some (v4l2_set_ctrl_value k s1 dev copy V4L2_CID_BLUE_BALANCE value)
    else some s1

/-! ## The Probe/Commit builder -/

/-- The indices `uvc_fill_streaming_control` settles on before the lookup. -/
def streaming_control_indices (inv : List uvc_frame_format)
    (action : stream_control_action) (iformat iframe : Int) : Int × Int :=
  let format_first := uvc_get_frame_format_index inv (-1) .FORMAT_INDEX_MIN
  let format_last := uvc_get_frame_format_index inv (-1) .FORMAT_INDEX_MAX
  let frame_first := uvc_get_frame_format_index inv (-1) .FRAME_INDEX_MIN
  let frame_last := uvc_get_frame_format_index inv (-1) .FRAME_INDEX_MAX
  if action = .STREAM_CONTROL_MIN then (format_first, frame_first)
  else if action = .STREAM_CONTROL_MAX then (format_last, frame_last)
  else
    let iformat1 := clamp iformat format_first format_last
    let format_frame_first := uvc_get_frame_format_index inv iformat1 .FRAME_INDEX_MIN
    let format_frame_last := uvc_get_frame_format_index inv iformat1 .FRAME_INDEX_MAX
    (iformat1, clamp iframe format_frame_first format_frame_last)

/-- The function `uvc_fill_streaming_control` called on the UVC endpoint: the
block written through `ctrl` and the state after the Commit side effect.
The result of `uvc_get_frame_format` is not checked by the source, so a
failed lookup leaves `frame_format` uninitialised and the function undefined. -/
def uvc_fill_streaming_control (k : Kernel) (s : Bridge)
    (action : stream_control_action) (iformat iframe : Int) :
    Option (uvc_streaming_control × Bridge) :=
  let inv := s.uvc_frame_format
  let format_first := uvc_get_frame_format_index inv (-1) .FORMAT_INDEX_MIN
  let format_last := uvc_get_frame_format_index inv (-1) .FORMAT_INDEX_MAX
  let idx := streaming_control_indices inv action iformat iframe
  match uvc_get_frame_format inv (toUnsigned 32 idx.1) (toUnsigned 32 idx.2) with
  | none => none
  | some frame_format =>
    let frame_interval : Nat :=
      if frame_format.dwDefaultFrameInterval ≥ 100000 then
        frame_format.dwDefaultFrameInterval
      else 400000
    let ctrl : uvc_streaming_control :=
      { bmHint := 1
        bFormatIndex := toUnsigned 8 idx.1
        bFrameIndex := toUnsigned 8 idx.2
        dwMaxVideoFrameSize :=
          get_frame_size frame_format.video_format frame_format.wWidth frame_format.wHeight
        dwMaxPayloadTransferSize := s.streaming_maxpacket
        dwFrameInterval := frame_interval
        bmFramingInfo := 3
        bMinVersion := toUnsigned 8 format_first
        bMaxVersion := toUnsigned 8 format_last
        bPreferedVersion := toUnsigned 8 format_last }
    if s.udev.control = UVC_VS_COMMIT_CONTROL ∧ action = .STREAM_CONTROL_SET then
      let s1 := (v4l2_apply_format k s .DEVICE_TYPE_V4L2 frame_format.video_format
        frame_format.wWidth frame_format.wHeight).2
      let s2 := (v4l2_apply_format k s1 .DEVICE_TYPE_UVC frame_format.video_format
        frame_format.wWidth frame_format.wHeight).2
      some (ctrl, s2)
    else some (ctrl, s)

/-! ## SETUP and DATA handlers -/

/-- A `memcpy` of `bs` to the start of a byte buffer; a store to `data[0]` is
the case of one byte, stores to `data[0]` and `data[1]` the case of two. -/
def write_bytes (data bs : List Nat) : List Nat :=
  bs ++ data.drop bs.length

/-- The function `uvc_interface_control`, called on the UVC endpoint. -/
def uvc_interface_control (interface : Nat) (s : Bridge) (req cs len : Nat)
    (resp : uvc_request_data) : Bridge × uvc_request_data :=
  let error (code : Nat) : Bridge × uvc_request_data :=
    ({ s with udev := { s.udev with request_error_code := code } },
     { resp with length := -EL2HLT })
  let served (r : uvc_request_data) : Bridge × uvc_request_data :=
    ({ s with udev := { s.udev with request_error_code := REQEC_NO_ERROR } }, r)
  match s.control_mapping.find? (fun m => m.type = interface ∧ m.uvc = cs) with
  | none => error REQEC_INVALID_CONTROL
  | some m =>
    if !m.enabled then error REQEC_INVALID_CONTROL
    else if req = UVC_SET_CUR then
      ({ s with udev := { s.udev with
            control_interface := interface
            control_type := cs
            request_error_code := REQEC_NO_ERROR } },
       { length := len, data := write_bytes resp.data [0x0] })
    else if req = UVC_GET_MIN then
      served { length := 4, data := write_bytes resp.data (le_bytes m.minimum 4) }
    else if req = UVC_GET_MAX then
      served { length := 4, data := write_bytes resp.data (le_bytes m.maximum 4) }
    else if req = UVC_GET_CUR then
      served { length := 4, data := write_bytes resp.data (le_bytes m.value 4) }
    else if req = UVC_GET_INFO then
      served { length := 1,
               data := write_bytes resp.data
                 [(UVC_CONTROL_CAP_GET ||| UVC_CONTROL_CAP_SET) % 256] }
    else if req = UVC_GET_DEF then
      served { length := 4, data := write_bytes resp.data (le_bytes m.default_value 4) }
    else if req = UVC_GET_RES then
      served { length := 4, data := write_bytes resp.data (le_bytes m.step 4) }
    else error REQEC_INVALID_REQUEST

/-- The function `uvc_events_process_streaming`. The macro `CLEAR(x)` of the
header `uvc-gadget.h` zeroes the object `x` itself, as its uses on local
structs show; in the GET_RES case `x` is the local pointer `ctrl`, so only
that pointer is cleared and the reply data stay as they were. -/
def uvc_events_process_streaming (k : Kernel) (s : Bridge) (req cs : Nat)
    (resp : uvc_request_data) : Option (Bridge × uvc_request_data) :=
  if cs ≠ UVC_VS_PROBE_CONTROL ∧ cs ≠ UVC_VS_COMMIT_CONTROL then some (s, resp)
  else
    let target := if cs = UVC_VS_PROBE_CONTROL then s.udev.probe else s.udev.commit
    let resp1 : uvc_request_data := { resp with length := ctrl_length }
    if req = UVC_SET_CUR then
      some ({ s with udev := { s.udev with control := cs } }, resp1)
    else if req = UVC_GET_MAX then
      match uvc_fill_streaming_control k s .STREAM_CONTROL_MAX 0 0 with
      | none => none
      | some (ctrl, s1) => some (s1, { resp1 with data := write_bytes resp1.data ctrl.bytes })
    else if req = UVC_GET_CUR then
      some (s, { resp1 with data := write_bytes resp1.data target.bytes })
    else if req = UVC_GET_MIN ∨ req = UVC_GET_DEF then
      match uvc_fill_streaming_control k s .STREAM_CONTROL_MIN 0 0 with
      | none => none
      | some (ctrl, s1) => some (s1, { resp1 with data := write_bytes resp1.data ctrl.bytes })
    else if req = UVC_GET_RES then some (s, resp1)
    else if req = UVC_GET_LEN then
      some (s, { length := 2, data := write_bytes resp1.data [0x00, ctrl_length % 256] })
    else if req = UVC_GET_INFO then
      some (s, { length := 1,
                 data := write_bytes resp1.data
                   [(UVC_CONTROL_CAP_GET ||| UVC_CONTROL_CAP_SET) % 256] })
    else some (s, resp1)

/-- The local `type` of `uvc_events_process_class`: `wIndex & 0xff`. -/
def usb_ctrlrequest.type (ctrl : usb_ctrlrequest) : Nat :=
  (ctrl.wIndex &&& 0xff) % 256

/-- The local `interface` of `uvc_events_process_class`: `wIndex >> 8`. -/
def usb_ctrlrequest.interface (ctrl : usb_ctrlrequest) : Nat :=
  (ctrl.wIndex >>> 8) % 256

/-- The local `control` of `uvc_events_process_class`: `wValue >> 8`. -/
def usb_ctrlrequest.control (ctrl : usb_ctrlrequest) : Nat :=
  (ctrl.wValue >>> 8) % 256

/-- The local `length` of `uvc_events_process_class`: `wLength` as a byte. -/
def usb_ctrlrequest.length (ctrl : usb_ctrlrequest) : Nat :=
  ctrl.wLength % 256

/-- The function `uvc_events_process_class`. -/
def uvc_events_process_class (k : Kernel) (s : Bridge) (ctrl : usb_ctrlrequest)
    (resp : uvc_request_data) : Option (Bridge × uvc_request_data) :=
  if ctrl.bRequestType &&& USB_RECIP_MASK ≠ USB_RECIP_INTERFACE then some (s, resp)
  else if ctrl.type = UVC_INTF_CONTROL then
    if ctrl.interface = 0 then
      if ctrl.control = UVC_VC_REQUEST_ERROR_CODE_CONTROL then
        some (s, { length := 1,
                   data := write_bytes resp.data [s.udev.request_error_code % 256] })
      else some (s, resp)
    else if ctrl.interface = 1 then
      some (uvc_interface_control UVC_VC_INPUT_TERMINAL s ctrl.bRequest ctrl.control
        ctrl.length resp)
    else if ctrl.interface = 2 then
      some (uvc_interface_control UVC_VC_PROCESSING_UNIT s ctrl.bRequest ctrl.control
        ctrl.length resp)
    else some (s, resp)
  else if ctrl.type = UVC_INTF_STREAMING then
    uvc_events_process_streaming k s ctrl.bRequest ctrl.control resp
  else some (s, resp)

/-- The function `uvc_events_process_setup`. -/
def uvc_events_process_setup (k : Kernel) (s : Bridge) (ctrl : usb_ctrlrequest)
    (resp : uvc_request_data) : Option (Bridge × uvc_request_data) :=
  let s0 : Bridge := { s with udev := { s.udev with control := 0 } }
  if ctrl.bRequestType &&& USB_TYPE_MASK = USB_TYPE_CLASS then
    uvc_events_process_class k s0 ctrl resp
  else some (s0, resp)

/-- The function `uvc_events_process_data_control`: the block for the indices
of the payload, and the state after the call. -/
def uvc_events_process_data_control (k : Kernel) (s : Bridge) (data : uvc_request_data) :
    Option (uvc_streaming_control × Bridge) :=
  uvc_fill_streaming_control k s .STREAM_CONTROL_SET (data.byte 2) (data.byte 3)

/-- The loop of the camera-control branch of `uvc_events_process_data` over
the rows from position `done.length` on. -/
def uvc_events_process_data_rows (k : Kernel) (data : uvc_request_data) :
    Bridge → List control_mapping_pair → List control_mapping_pair → Option Bridge
  | s, done, [] => some { s with control_mapping := done }
  | s, done, m :: rest =>
    if m.type = s.udev.control_interface ∧ m.uvc = s.udev.control_type ∧ m.enabled then
      let m1 : control_mapping_pair :=
        { m with
          value := le_value ((data.data.take data.length.toNat).map (· % 256))
          length := data.length.toNat }
      match v4l2_set_ctrl k s .DEVICE_TYPE_V4L2 m1 with
      | none => none
      | some s1 => uvc_events_process_data_rows k data s1 (done ++ [m1]) rest
    else uvc_events_process_data_rows k data s (done ++ [m]) rest

/-- The function `uvc_events_process_data`. -/
def uvc_events_process_data (k : Kernel) (s : Bridge) (data : uvc_request_data) :
    Option Bridge :=
  if s.udev.control = UVC_VS_PROBE_CONTROL then
    match uvc_events_process_data_control k s data with
    | none => none
    | some (ctrl, s1) => some { s1 with udev := { s1.udev with probe := ctrl } }
  else if s.udev.control = UVC_VS_COMMIT_CONTROL then
    match uvc_events_process_data_control k s data with
    | none => none
    | some (ctrl, s1) => some { s1 with udev := { s1.udev with commit := ctrl } }
  else if s.udev.control = UVC_VS_CONTROL_UNDEFINED then
    if data.length > 0 ∧ data.length ≤ 4 then
      uvc_events_process_data_rows k data s [] s.control_mapping
    else some s
  else some s

/-! ## Vocabulary of the statements -/

/-- The update of `index` by a value under a `_MIN` getter. -/
def index_min (index value : Int) : Int :=
  if index = -1 then value else if value < index then value else index

/-- The update of `index` by a value under a `_MAX` getter. -/
def index_max (index value : Int) : Int :=
  if index = -1 then value else if value > index then value else index

/-- The field a getter reads, cast to `int`. -/
def getter_value (getter : uvc_frame_format_getter) (row : uvc_frame_format) : Int :=
  match getter with
  | .FORMAT_INDEX_MIN | .FORMAT_INDEX_MAX => toInt32 row.bFormatIndex
  | .FRAME_INDEX_MIN | .FRAME_INDEX_MAX => toInt32 row.bFrameIndex

/-- The update a getter applies. -/
def getter_update (getter : uvc_frame_format_getter) : Int → Int → Int :=
  match getter with
  | .FORMAT_INDEX_MIN | .FRAME_INDEX_MIN => index_min
  | .FORMAT_INDEX_MAX | .FRAME_INDEX_MAX => index_max

/-- The number `lo` is the least member of a list of numbers. -/
def is_least (l : List Nat) (lo : Nat) : Prop :=
  lo ∈ l ∧ ∀ v ∈ l, lo ≤ v

/-- The number `hi` is the greatest member of a list of numbers. -/
def is_greatest (l : List Nat) (hi : Nat) : Prop :=
  hi ∈ l ∧ ∀ v ∈ l, v ≤ hi

instance (l : List Nat) (lo : Nat) : Decidable (is_least l lo) := by
  unfold is_least; infer_instance

instance (l : List Nat) (hi : Nat) : Decidable (is_greatest l hi) := by
  unfold is_greatest; infer_instance

/-- The format indices of all inventory rows. -/
def format_indices (inv : List uvc_frame_format) : List Nat :=
  inv.map (·.bFormatIndex)

/-- The frame indices of all inventory rows. -/
def frame_indices (inv : List uvc_frame_format) : List Nat :=
  inv.map (·.bFrameIndex)

/-- The frame indices of the inventory rows with format index `f`. -/
def frame_indices_of (inv : List uvc_frame_format) (f : Nat) : List Nat :=
  (inv.filter (fun row => decide (row.bFormatIndex = f))).map (·.bFrameIndex)

/-- Every index of the inventory is a value of `int`, as the values the
configuration reader stores are. -/
def int_indices (inv : List uvc_frame_format) : Prop :=
  ∀ row ∈ inv, row.bFormatIndex < 2 ^ 31 ∧ row.bFrameIndex < 2 ^ 31

/-- Every index of the inventory is a byte, as the index fields of the
streaming control block are. -/
def byte_indices (inv : List uvc_frame_format) : Prop :=
  ∀ row ∈ inv, row.bFormatIndex < 256 ∧ row.bFrameIndex < 256

instance (inv : List uvc_frame_format) : Decidable (int_indices inv) := by
  unfold int_indices; infer_instance

instance (inv : List uvc_frame_format) : Decidable (byte_indices inv) := by
  unfold byte_indices; infer_instance

/-- The state after the Commit side effect of `uvc_fill_streaming_control` for
the descriptor `row`. -/
def commit_side_effect (k : Kernel) (s : Bridge) (row : uvc_frame_format) : Bridge :=
  (v4l2_apply_format k
    (v4l2_apply_format k s .DEVICE_TYPE_V4L2 row.video_format row.wWidth row.wHeight).2
    .DEVICE_TYPE_UVC row.video_format row.wWidth row.wHeight).2

/-- A SETUP packet is a class request addressed to an interface. -/
def class_interface_request (ctrl : usb_ctrlrequest) : Prop :=
  ctrl.bRequestType &&& USB_TYPE_MASK = USB_TYPE_CLASS ∧
    ctrl.bRequestType &&& USB_RECIP_MASK = USB_RECIP_INTERFACE

/-- A SETUP packet carries request `req` for selector `cs` of the
video-streaming interface. -/
def streaming_setup (ctrl : usb_ctrlrequest) (req cs : Nat) : Prop :=
  class_interface_request ctrl ∧ ctrl.type = UVC_INTF_STREAMING ∧ ctrl.bRequest = req ∧
    ctrl.control = cs

/-- A SETUP packet carries request `req` for selector `cs` of entity `entity`
of the video-control interface. -/
def control_setup (ctrl : usb_ctrlrequest) (entity req cs : Nat) : Prop :=
  class_interface_request ctrl ∧ ctrl.type = UVC_INTF_CONTROL ∧ ctrl.interface = entity ∧
    ctrl.bRequest = req ∧ ctrl.control = cs

instance (ctrl : usb_ctrlrequest) : Decidable (class_interface_request ctrl) := by
  unfold class_interface_request; infer_instance

instance (ctrl : usb_ctrlrequest) (req cs : Nat) : Decidable (streaming_setup ctrl req cs) := by
  unfold streaming_setup; infer_instance

instance (ctrl : usb_ctrlrequest) (entity req cs : Nat) :
    Decidable (control_setup ctrl entity req cs) := by
  unfold control_setup; infer_instance

/-- The state a SETUP handler starts from: `dev->control = 0`. -/
def Bridge.clear_control (s : Bridge) : Bridge :=
  { s with udev := { s.udev with control := 0 } }

/-! ## Sample inputs -/

/-- The inventory of scenario 2: MJPEG (1,1) 640x480 and YUYV (2,1) 1280x720. -/
def sample_inventory : List uvc_frame_format :=
  [ { defined := true, video_format := V4L2_PIX_FMT_MJPEG, bFormatIndex := 1, bFrameIndex := 1,
      wWidth := 640, wHeight := 480 },
    { defined := true, video_format := V4L2_PIX_FMT_YUYV, bFormatIndex := 2, bFrameIndex := 1,
      wWidth := 1280, wHeight := 720 } ]

/-- A kernel in which every request succeeds. -/
def sample_kernel : Kernel :=
  { ret := fun _ => 0 }

/-- A control mapping with an enabled brightness row of the processing unit
(selector 2) and a disabled contrast row (selector 3). -/
def sample_mapping : List control_mapping_pair :=
  [ { type := UVC_VC_PROCESSING_UNIT, uvc := 2, v4l2 := 0x00980900, enabled := true,
      value := 150, length := 2, minimum := 0, maximum := 200, step := 1,
      default_value := 100, v4l2_minimum := -100, v4l2_maximum := 100 },
    { type := UVC_VC_PROCESSING_UNIT, uvc := 3, v4l2 := 0x00980901, enabled := false } ]

/-- A state with the sample inventory and mapping and idle endpoints. -/
def sample_state : Bridge :=
  { uvc_frame_format := sample_inventory, control_mapping := sample_mapping }

/-- A class SETUP packet to an interface: `type` and `entity` are the two
bytes of `wIndex`, `cs` is the high byte of `wValue`. -/
def sample_setup (type entity req cs len : Nat) : usb_ctrlrequest :=
  { bRequestType := 0x21, bRequest := req, wValue := cs * 256, wIndex := entity * 256 + type,
    wLength := len }

/-- A DATA payload whose bytes 2 and 3 are the indices `f` and `r`. -/
def sample_payload (f r : Nat) : uvc_request_data :=
  { length := 34, data := [0, 0, f, r] ++ List.replicate 56 0 }

/-- The interface kind `uvc_events_process_class` passes for an entity:
entity 1 is the input terminal, entity 2 the processing unit. -/
def entity_kind (entity : Nat) : Nat :=
  if entity = 1 then UVC_VC_INPUT_TERMINAL else UVC_VC_PROCESSING_UNIT

/-- No row of the control mapping has interface kind `kind` and selector `cs`. -/
def no_row (mapping : List control_mapping_pair) (kind cs : Nat) : Prop :=
  ∀ x ∈ mapping, ¬ (x.type = kind ∧ x.uvc = cs)

/-- The row `m` is the first row of the control mapping with interface kind
`kind` and selector `cs`. -/
def first_row (mapping : List control_mapping_pair) (kind cs : Nat)
    (m : control_mapping_pair) : Prop :=
  ∃ pre post, mapping = pre ++ m :: post ∧ (∀ x ∈ pre, ¬ (x.type = kind ∧ x.uvc = cs)) ∧
    m.type = kind ∧ m.uvc = cs

/-- The requests `uvc_interface_control` serves on an enabled row. -/
def served_request (req : Nat) : Prop :=
  req = UVC_SET_CUR ∨ req = UVC_GET_MIN ∨ req = UVC_GET_MAX ∨ req = UVC_GET_CUR ∨
    req = UVC_GET_INFO ∨ req = UVC_GET_DEF ∨ req = UVC_GET_RES

instance (req : Nat) : Decidable (served_request req) := by
  unfold served_request; infer_instance

instance (mapping : List control_mapping_pair) (kind cs : Nat) :
    Decidable (no_row mapping kind cs) := by
  unfold no_row; infer_instance

/-- The kernel requests one call of `v4l2_apply_format` sends: none to a
streaming endpoint, else `VIDIOC_S_FMT` and, when that succeeds,
`VIDIOC_G_FMT`. -/
def format_ioctls (k : Kernel) (streaming : Bool) (dev : device_type)
    (pixelformat width height : Nat) : List Call :=
  if streaming then []
  else
    Call.ioctl (Ioctl.VIDIOC_S_FMT dev pixelformat width height
      (get_frame_size pixelformat width height)) ::
    (if k.ret (Ioctl.VIDIOC_S_FMT dev pixelformat width height
        (get_frame_size pixelformat width height)) < 0 then []
     else [Call.ioctl (Ioctl.VIDIOC_G_FMT dev)])

/-! ## Control enumeration -/

/-- The struct `v4l2_queryctrl` of `linux/videodev2.h`: `minimum`, `maximum`,
`step` and `default_value` are `__s32`. -/
structure v4l2_queryctrl where
  id : Nat := 0
  type : Nat := 0
  minimum : Int := 0
  maximum : Int := 0
  step : Int := 0
  default_value : Int := 0
  flags : Nat := 0
deriving DecidableEq, Repr

/-- The struct `v4l2_control` of `linux/videodev2.h`: `value` is `__s32`. -/
structure v4l2_control where
  id : Nat := 0
  value : Int := 0
deriving DecidableEq, Repr

/-- The function `v4l2_apply_camera_control`: the row `mapping` points to
after the call. The sums are formed in `int` and stored in the unsigned
fields of the row. -/
def v4l2_apply_camera_control (mapping : control_mapping_pair) (queryctrl : v4l2_queryctrl)
    (control : v4l2_control) : control_mapping_pair :=
  { mapping with
    enabled := true
    control_type := queryctrl.type
    v4l2_minimum := queryctrl.minimum
    v4l2_maximum := queryctrl.maximum
    minimum := 0
    maximum := toUnsigned 32 ((0 - queryctrl.minimum) + queryctrl.maximum)
    step := toUnsigned 32 queryctrl.step
    default_value := toUnsigned 32 ((0 - queryctrl.minimum) + queryctrl.default_value)
    value := toUnsigned 32 ((0 - queryctrl.minimum) + control.value) }

/-- A value of the type `__s32`. -/
def int32 (i : Int) : Prop :=
  -2 ^ 31 ≤ i ∧ i < 2 ^ 31

instance (i : Int) : Decidable (int32 i) := by
  unfold int32; infer_instance

/-- The kernel requests one call of `v4l2_set_ctrl_value` sends: the query
under `ctrl_v4l2` and, unless the query fails or reports the control
disabled, a `VIDIOC_S_CTRL` under `set_id`, the row's `ctrl.v4l2`. -/
def set_ctrl_value_calls (k : Kernel) (dev : device_type) (set_id ctrl_v4l2 : Nat)
    (value : Int) : List Call :=
  Call.ioctl (Ioctl.VIDIOC_QUERYCTRL dev ctrl_v4l2) ::
    (if k.ret (Ioctl.VIDIOC_QUERYCTRL dev ctrl_v4l2) = -1 then []
     else if k.queryctrl_flags dev ctrl_v4l2 &&& V4L2_CTRL_FLAG_DISABLED ≠ 0 then []
     else [Call.ioctl (Ioctl.VIDIOC_S_CTRL dev set_id value)])

/-- The kernel requests one call of `v4l2_set_ctrl` sends for the computed
value `value`. -/
def set_ctrl_calls (k : Kernel) (dev : device_type) (ctrl : control_mapping_pair)
    (value : Int) : List Call :=
  set_ctrl_value_calls k dev ctrl.v4l2 ctrl.v4l2 value ++
    (if ctrl.v4l2 = V4L2_CID_RED_BALANCE then
      set_ctrl_value_calls k dev ctrl.v4l2 V4L2_CID_BLUE_BALANCE value
     else [])

/-- The kernel knows the control `id` of an endpoint and reports it enabled. -/
def control_available (k : Kernel) (dev : device_type) (id : Nat) : Prop :=
  k.ret (Ioctl.VIDIOC_QUERYCTRL dev id) ≠ -1 ∧
    k.queryctrl_flags dev id &&& V4L2_CTRL_FLAG_DISABLED = 0

instance (k : Kernel) (dev : device_type) (id : Nat) : Decidable (control_available k dev id) := by
  unfold control_available; infer_instance

/-- The number a camera-control DATA stage delivers: the little-endian value
of the first `length` payload bytes. -/
def received_value (data : uvc_request_data) : Nat :=
  le_value ((data.data.take data.length.toNat).map (· % 256))

/-- The row `m` is a target of the camera-control DATA stage: it is enabled
and has the remembered interface kind and selector of the endpoint. -/
def control_target (udev : v4l2_device) (m : control_mapping_pair) : Prop :=
  m.type = udev.control_interface ∧ m.uvc = udev.control_type ∧ m.enabled = true

instance (udev : v4l2_device) (m : control_mapping_pair) : Decidable (control_target udev m) := by
  unfold control_target; infer_instance

/-- The row `m` after the DATA stage has stored the payload in it. -/
def write_row (data : uvc_request_data) (m : control_mapping_pair) : control_mapping_pair :=
  { m with value := received_value data, length := data.length.toNat }

/-- The kernel requests the DATA stage sends for the target row `m`. -/
def row_calls (k : Kernel) (data : uvc_request_data) (m : control_mapping_pair) : List Call :=
  match v4l2_ctrl_value (write_row data m) with
  | some value => set_ctrl_calls k .DEVICE_TYPE_V4L2 (write_row data m) value
  | none => []

/-- The divisor `ctrl_diff = maximum - minimum` of `v4l2_set_ctrl` is not zero
for the row `m`. -/
def nonzero_divisor (m : control_mapping_pair) : Prop :=
  ((m.maximum : Int) - m.minimum) % 2 ^ 32 ≠ 0

instance (m : control_mapping_pair) : Decidable (nonzero_divisor m) := by
  unfold nonzero_divisor; infer_instance

/-- A SETUP packet the handlers reject or ignore: it is not a class request
to an interface, or it addresses a streaming selector other than Probe and
Commit, or it addresses a selector of entity 1 or 2 that has no mapping row or
whose first mapping row is disabled. -/
def setup_without_effect (s : Bridge) (ctrl : usb_ctrlrequest) : Prop :=
  ctrl.bRequestType &&& USB_TYPE_MASK ≠ USB_TYPE_CLASS ∨
  ctrl.bRequestType &&& USB_RECIP_MASK ≠ USB_RECIP_INTERFACE ∨
  (∃ req cs, streaming_setup ctrl req cs ∧ cs ≠ UVC_VS_PROBE_CONTROL ∧
    cs ≠ UVC_VS_COMMIT_CONTROL) ∨
  (∃ entity req cs, (entity = 1 ∨ entity = 2) ∧ control_setup ctrl entity req cs ∧
    (no_row s.control_mapping (entity_kind entity) cs ∨
      ∃ m, first_row s.control_mapping (entity_kind entity) cs m ∧ m.enabled = false))

/-! ## Buffer streaming -/

/-- The enum `video_stream_action`. -/
inductive video_stream_action where
  | STREAM_OFF
  | STREAM_ON
deriving DecidableEq, Repr

/-- A state with one endpoint replaced. -/
def Bridge.set_dev (s : Bridge) (dev : device_type) (d : v4l2_device) : Bridge :=
  match dev with
  | .DEVICE_TYPE_UVC => { s with udev := d }
  | .DEVICE_TYPE_V4L2 => { s with vdev := d }

/-- The return value of a request in a state: that of the kernel, except that
a `VIDIOC_DQBUF` fails on a node whose driver holds no buffer. -/
def driver_ret (k : Kernel) (s : Bridge) (req : Ioctl) : Int :=
  match req with
  | .VIDIOC_DQBUF dev => if (s.dev dev).queued = 0 then -1 else k.ret req
  | _ => k.ret req

/-- The buffers the drivers hold after a request that succeeded: one more
after `VIDIOC_QBUF`, one less after `VIDIOC_DQBUF`, none after `VIDIOC_REQBUFS`
and `VIDIOC_STREAMOFF`. -/
def driver_queued (s : Bridge) (req : Ioctl) : Bridge :=
  match req with
  | .VIDIOC_QBUF dev _ _ => s.set_dev dev { s.dev dev with queued := (s.dev dev).queued + 1 }
  | .VIDIOC_DQBUF dev => s.set_dev dev { s.dev dev with queued := (s.dev dev).queued - 1 }
  | .VIDIOC_REQBUFS dev _ _ => s.set_dev dev { s.dev dev with queued := 0 }
  | .VIDIOC_STREAMOFF dev => s.set_dev dev { s.dev dev with queued := 0 }
  | _ => s

/-- The call `ioctl(dev->fd, req, ...)` of the streaming functions: the
request is logged and answered, and a request that succeeded moves the
buffers of the driver. -/
def ioctl (k : Kernel) (s : Bridge) (req : Ioctl) : Int × Bridge :=
  let s1 : Bridge := { s with calls := s.calls ++ [Call.ioctl req] }
  if driver_ret k s req < 0 then (driver_ret k s req, s1)
  else (driver_ret k s req, driver_queued s1 req)

/-- The function `v4l2_video_stream`. -/
def v4l2_video_stream (k : Kernel) (s : Bridge) (dev : device_type)
    (action : video_stream_action) : Int × Bridge :=
  if action = .STREAM_ON then
    let r := ioctl k s (.VIDIOC_STREAMON dev)
    if r.1 < 0 then r
    else
      (0, { r.2.set_dev dev { r.2.dev dev with is_streaming := true } with
            uvc_shutdown_requested := false })
  else if (s.dev dev).is_streaming then
    let r := ioctl k s (.VIDIOC_STREAMOFF dev)
    if r.1 < 0 then r
    else (0, r.2.set_dev dev { r.2.dev dev with is_streaming := false })
  else (0, s)

/-- The function `v4l2_init_buffers`: the return value, the field `req->count`
after the call, and the state. A request that succeeded returns `count` as
`int`. -/
def v4l2_init_buffers (k : Kernel) (s : Bridge) (dev : device_type) (count : Nat) :
    Int × Nat × Bridge :=
  let r := ioctl k s (.VIDIOC_REQBUFS dev count (s.dev dev).memory_type)
  if r.1 < 0 then (r.1, count, r.2)
  else (toInt32 count, k.reqbufs_count dev count, r.2)

/-- The loop of `v4l2_reqbufs_mmap` from buffer `i` on, with `n` turns left:
the first `VIDIOC_QUERYBUF` or `mmap` that fails frees the array and ends the
loop with `-EINVAL`. -/
def v4l2_reqbufs_mmap_loop (k : Kernel) (dev : device_type) :
    Nat → Nat → Bridge → Int × Bridge
  | 0, _, s => (0, s)
  | n + 1, i, s =>
    let r := ioctl k s (.VIDIOC_QUERYBUF dev i)
    if r.1 < 0 then (-EINVAL, r.2.set_dev dev { r.2.dev dev with mem := .freed })
    else if k.mmap_failed dev i then
      (-EINVAL, r.2.set_dev dev { r.2.dev dev with mem := .freed })
    else v4l2_reqbufs_mmap_loop k dev n (i + 1) r.2

/-- The function `v4l2_reqbufs_mmap` for `req.count = count`; the `calloc` of
the array succeeds. -/
def v4l2_reqbufs_mmap (k : Kernel) (s : Bridge) (dev : device_type) (count : Nat) :
    Int × Bridge :=
  v4l2_reqbufs_mmap_loop k dev count 0 (s.set_dev dev { s.dev dev with mem := .mapped count })

/-- The function `v4l2_reqbufs`: both counters are cleared before the
request is made. -/
def v4l2_reqbufs (k : Kernel) (s : Bridge) (dev : device_type) (nbufs : Nat) :
    Int × Bridge :=
  let s0 := s.set_dev dev { s.dev dev with dqbuf_count := 0, qbuf_count := 0 }
  let r := v4l2_init_buffers k s0 dev nbufs
  if r.1 < 1 then (r.1, r.2.2)
  else if r.2.1 = 0 then (0, r.2.2)
  else if (r.2.2.dev dev).memory_type = V4L2_MEMORY_MMAP then
    if r.2.1 < 2 then (-EINVAL, r.2.2)
    else
      let m := v4l2_reqbufs_mmap k r.2.2 dev r.2.1
      if m.1 < 0 then (-EINVAL, m.2)
      else (m.1, m.2.set_dev dev { m.2.dev dev with nbufs := r.2.1 })
  else (r.1, r.2.2.set_dev dev { r.2.2.dev dev with nbufs := r.2.1 })

/-- Whether the record `dev->mem[i]` exists. -/
def buffer_array.has (m : buffer_array) (i : Nat) : Bool :=
  match m with
  | .mapped n => decide (i < n)
  | _ => false

/-- The loop of `v4l2_qbuf_mmap` from buffer `i` on, with `n` turns left; it
is undefined when `dev->mem[i]` does not exist. -/
def v4l2_qbuf_mmap_loop (k : Kernel) (dev : device_type) :
    Nat → Nat → Bridge → Option (Int × Bridge)
  | 0, _, s => some (0, s)
  | n + 1, i, s =>
    if (s.dev dev).mem.has i then
      let r := ioctl k s (.VIDIOC_QBUF dev i 0)
      if r.1 < 0 then some r
      else
        v4l2_qbuf_mmap_loop k dev n (i + 1)
          (r.2.set_dev dev { r.2.dev dev with qbuf_count := (r.2.dev dev).qbuf_count + 1 })
    else none

/-- The function `v4l2_qbuf_mmap`. -/
def v4l2_qbuf_mmap (k : Kernel) (s : Bridge) (dev : device_type) : Option (Int × Bridge) :=
  v4l2_qbuf_mmap_loop k dev (s.dev dev).nbufs 0 s

/-- The loop of `v4l2_uninit_device` from buffer `i` on, with `n` turns left:
`true` when every `munmap` succeeded, `false` when one failed, undefined when
`dev->mem[i]` does not exist. -/
def v4l2_uninit_device_loop (k : Kernel) (dev : device_type) (m : buffer_array) :
    Nat → Nat → Option Bool
  | 0, _ => some true
  | n + 1, i =>
    if m.has i then
      if k.munmap dev i < 0 then some false
      else v4l2_uninit_device_loop k dev m n (i + 1)
    else none

/-- The function `v4l2_uninit_device`: the array is freed and the pointer
`dev->mem` keeps its address; the function is undefined on an array that was
freed before. -/
def v4l2_uninit_device (k : Kernel) (s : Bridge) (dev : device_type) : Option Bridge :=
  if (s.dev dev).memory_type = V4L2_MEMORY_MMAP then
    match (s.dev dev).mem with
    | .null => some s
    | .freed => none
    | .mapped n =>
      match v4l2_uninit_device_loop k dev (.mapped n) (s.dev dev).nbufs 0 with
      | none => none
      | some false => some s
      | some true => some (s.set_dev dev { s.dev dev with mem := .freed })
  else some s

/-- The function `v4l2_process_data` on the capture endpoint; the writes of
`streaming_status_value` to the GPIO and LED files are left out. It is
undefined when the dequeued index names no record of `dev->mem`. -/
def v4l2_process_data (k : Kernel) (s : Bridge) : Option Bridge :=
  if s.udev.is_streaming = true ∧ s.vdev.dqbuf_count ≥ s.vdev.qbuf_count then some s
  else
    let r := ioctl k s (.VIDIOC_DQBUF .DEVICE_TYPE_V4L2)
    if r.1 < 0 then some r.2
    else
      let s1 : Bridge :=
        { r.2 with vdev := { r.2.vdev with dqbuf_count := r.2.vdev.dqbuf_count + 1 } }
      if s1.vdev.mem.has (k.dqbuf_index .DEVICE_TYPE_V4L2) then
        let q := Ioctl.VIDIOC_QBUF .DEVICE_TYPE_UVC (k.dqbuf_index .DEVICE_TYPE_V4L2)
          (k.dqbuf_bytesused .DEVICE_TYPE_V4L2)
        let r2 := ioctl k s1 q
        if r2.1 < 0 then
          if k.errno q = ENODEV then some { r2.2 with uvc_shutdown_requested := true }
          else some r2.2
        else
          let s2 : Bridge :=
            { r2.2 with udev := { r2.2.udev with qbuf_count := r2.2.udev.qbuf_count + 1 } }
          if s2.udev.is_streaming then some s2
          else some (v4l2_video_stream k s2 .DEVICE_TYPE_UVC .STREAM_ON).2
      else none

/-- The function `uvc_video_process` on the UVC endpoint. -/
def uvc_video_process (k : Kernel) (s : Bridge) : Bridge :=
  if s.uvc_shutdown_requested = false ∧ s.udev.dqbuf_count + 1 ≥ s.udev.qbuf_count then s
  else
    let r := ioctl k s (.VIDIOC_DQBUF .DEVICE_TYPE_UVC)
    if r.1 < 0 then r.2
    else
      let s1 : Bridge :=
        { r.2 with udev := { r.2.udev with dqbuf_count := r.2.udev.dqbuf_count + 1 } }
      if k.dqbuf_flags .DEVICE_TYPE_UVC &&& V4L2_BUF_FLAG_ERROR ≠ 0 then
        { s1 with uvc_shutdown_requested := true }
      else
        let r2 := ioctl k s1 (.VIDIOC_QBUF .DEVICE_TYPE_V4L2 (k.dqbuf_index .DEVICE_TYPE_UVC) 0)
        if r2.1 < 0 then r2.2
        else
          let s2 : Bridge :=
            { r2.2 with vdev := { r2.2.vdev with qbuf_count := r2.2.vdev.qbuf_count + 1 } }
          if s2.show_fps then
            { s2 with udev := { s2.udev with buffers_processed := s2.udev.buffers_processed + 1 } }
          else s2

/-- The function `uvc_handle_streamon_event`. -/
def uvc_handle_streamon_event (k : Kernel) (s : Bridge) : Option Bridge :=
  let r1 := v4l2_reqbufs k s .DEVICE_TYPE_V4L2 s.vdev.nbufs
  if r1.1 < 0 then some r1.2
  else
    let r2 := v4l2_reqbufs k r1.2 .DEVICE_TYPE_UVC r1.2.udev.nbufs
    if r2.1 < 0 then some r2.2
    else
      match v4l2_qbuf_mmap k r2.2 .DEVICE_TYPE_V4L2 with
      | none => none
      | some r3 =>
        if r3.1 < 0 then some r3.2
        else some (v4l2_video_stream k r3.2 .DEVICE_TYPE_V4L2 .STREAM_ON).2

/-- The function `v4l2_device_stream_off`. -/
def v4l2_device_stream_off (k : Kernel) (s : Bridge) (dev : device_type) : Option Bridge :=
  let s1 : Bridge :=
    if (s.dev dev).is_streaming then (v4l2_video_stream k s dev .STREAM_OFF).2 else s
  match v4l2_uninit_device k s1 dev with
  | none => none
  | some s2 => some (v4l2_reqbufs k s2 dev 0).2

/-- The function `uvc_handle_streamoff_event`; the writes of
`streaming_status_value` are left out. -/
def uvc_handle_streamoff_event (k : Kernel) (s : Bridge) : Option Bridge :=
  match v4l2_device_stream_off k s .DEVICE_TYPE_V4L2 with
  | none => none
  | some s1 => v4l2_device_stream_off k s1 .DEVICE_TYPE_UVC
/-- The throttle of `uvc_video_process` is open: a shutdown is in progress or
at least two buffers are outstanding on the UVC endpoint. -/
def uvc_dequeue_due (s : Bridge) : Prop :=
  s.uvc_shutdown_requested = true ∨ s.udev.dqbuf_count + 2 ≤ s.udev.qbuf_count

instance (s : Bridge) : Decidable (uvc_dequeue_due s) := by
  unfold uvc_dequeue_due; infer_instance

/-- The gate of `v4l2_process_data` is closed: the UVC endpoint is streaming
and the capture endpoint has no buffer outstanding. -/
def capture_idle (s : Bridge) : Prop :=
  s.udev.is_streaming = true ∧ s.vdev.dqbuf_count ≥ s.vdev.qbuf_count

instance (s : Bridge) : Decidable (capture_idle s) := by
  unfold capture_idle; infer_instance

/-- Two idle endpoints as `init` sets them up, with four buffers each. -/
def sample_idle : Bridge :=
  { udev := { nbufs := 4, buffer_type := V4L2_BUF_TYPE_VIDEO_OUTPUT,
              memory_type := V4L2_MEMORY_USERPTR },
    vdev := { nbufs := 4, buffer_type := V4L2_BUF_TYPE_VIDEO_CAPTURE,
              memory_type := V4L2_MEMORY_MMAP } }

/-- A kernel whose UVC node refuses every `VIDIOC_QBUF` with `ENODEV`. -/
def enodev_kernel : Kernel :=
  { ret := fun req =>
      match req with
      | .VIDIOC_QBUF .DEVICE_TYPE_UVC _ _ => -1
      | _ => 0,
    errno := fun _ => ENODEV }

/-- A kernel whose capture node refuses every `VIDIOC_REQBUFS`. -/
def busy_kernel : Kernel :=
  { ret := fun req =>
      match req with
      | .VIDIOC_REQBUFS .DEVICE_TYPE_V4L2 _ _ => -1
      | _ => 0 }

/-- The counters of an endpoint agree with its driver: the buffers queued and
not yet dequeued are the buffers the driver holds. -/
def counts_match (d : v4l2_device) : Prop :=
  d.dqbuf_count + d.queued = d.qbuf_count

instance (d : v4l2_device) : Decidable (counts_match d) := by
  unfold counts_match; infer_instance

/-- Every request, `mmap` and `munmap` of the kernel succeeds. -/
def kernel_succeeds (k : Kernel) : Prop :=
  (∀ req, 0 ≤ k.ret req) ∧ (∀ dev i, k.mmap_failed dev i = false) ∧
    (∀ dev i, 0 ≤ k.munmap dev i)

/-! ## Opening a video node -/

/-- The function `v4l2_open`: `fd` is the result of `open`, `querycap` the
return value of `VIDIOC_QUERYCAP` and `capabilities` the bitset it reports.
The handle is `none` for `NULL`; the `calloc` of the record succeeds and
leaves every field zero. -/
def v4l2_open (fd querycap : Int) (capabilities : Nat) (type : device_type) :
    Option v4l2_device :=
  if fd = -1 then none
  else if querycap < 0 then none
  else
    match type with
    | .DEVICE_TYPE_V4L2 =>
      if capabilities &&& V4L2_CAP_VIDEO_CAPTURE = 0 then none
      else if capabilities &&& V4L2_CAP_STREAMING = 0 then none
      else some { buffer_type := V4L2_BUF_TYPE_VIDEO_CAPTURE }
    | .DEVICE_TYPE_UVC =>
      if capabilities &&& V4L2_CAP_VIDEO_OUTPUT = 0 then none
      else some { buffer_type := V4L2_BUF_TYPE_VIDEO_OUTPUT }

/-! ## The format inventory read from configfs -/

/-- Error number `ENOENT`. -/
def ENOENT : Int := 2
/-- Error number `ENODATA`. -/
def ENODATA : Int := 61
/-- Speed `USB_SPEED_UNKNOWN` of `linux/usb/ch9.h`. -/
def USB_SPEED_UNKNOWN : Nat := 0
/-- Speed `USB_SPEED_FULL`. -/
def USB_SPEED_FULL : Nat := 2
/-- Speed `USB_SPEED_HIGH`. -/
def USB_SPEED_HIGH : Nat := 3
/-- Speed `USB_SPEED_SUPER`. -/
def USB_SPEED_SUPER : Nat := 5

/-- Modelled from the spec: the array `uvc_frame_format` declared in the
header `uvc-gadget.h` has 30 rows (the code stops at index 29). -/
def uvc_frame_format_size : Nat := 30

/-- The global array `uvc_frame_format` with the global `last_format_index`,
both zero when the program starts. -/
structure format_table where
  uvc_frame_format : List uvc_frame_format := List.replicate uvc_frame_format_size {}
  last_format_index : Nat := 0
deriving DecidableEq, Repr

/-- The rows `0 .. last_format_index` of the table, the rows every later
lookup walks. -/
def format_table.inventory (t : format_table) : List UvcGadget.uvc_frame_format :=
  t.uvc_frame_format.take (t.last_format_index + 1)

/-- The test `!strncmp(s, lit, strlen(lit))` on strings without a NUL. -/
def starts_with (s lit : List Char) : Bool :=
  lit.isPrefixOf s

/-- The tokens `strtok` cuts out of a string at the delimiter `/`: the
non-empty runs of other characters; `cur` is the run read so far. -/
def strtok : List Char → List Char → List (List Char)
  | cur, [] => if cur.isEmpty then [] else [cur]
  | cur, c :: cs =>
    if c = Char.ofNat 47 then
      if cur.isEmpty then strtok [] cs else cur :: strtok [] cs
    else strtok (cur ++ [c]) cs

/-- The test `isspace` of the C locale. -/
def isspace (c : Char) : Bool :=
  c.toNat = 32 ∨ (9 ≤ c.toNat ∧ c.toNat ≤ 13)

/-- The value of the leading decimal digits of a string, after `acc`. -/
def strtol_digits : Nat → List Char → Nat
  | acc, [] => acc
  | acc, c :: cs =>
    if 48 ≤ c.toNat ∧ c.toNat ≤ 57 then strtol_digits (acc * 10 + (c.toNat - 48)) cs
    else acc

/-- The call `strtol(buf, NULL, 10)` on a string of at most ten characters,
which cannot overflow a `long` of 64 bits: white space, an optional sign, the
leading digits; 0 when there is no digit. -/
def strtol (buf : List Char) : Int :=
  match buf.dropWhile isspace with
  | [] => 0
  | c :: cs =>
    if c.toNat = 45 then -((strtol_digits 0 cs : Nat) : Int)
    else if c.toNat = 43 then ((strtol_digits 0 cs : Nat) : Int)
    else ((strtol_digits 0 (c :: cs) : Nat) : Int)

/-- The function `configfs_read_value` on the content of the file, `none`
when the file cannot be opened. `read` hands out at most 20 bytes; the
string ends at the first NUL; the `long` is converted to `int`. -/
def configfs_read_value (file : Option (List Char)) : Int :=
  match file with
  | none => -ENOENT
  | some content =>
    let ret := min content.length 20
    if ret > 10 then -ENODATA
    else
      toInt32 (toUnsigned 32 (strtol ((content.take ret).takeWhile (fun c => c.toNat ≠ 0))))

/-- The function `set_uvc_format_index`; it is undefined when
`last_format_index` is outside the array. -/
def set_uvc_format_index (t : format_table) (usb_speed video_format bFormatIndex : Nat) :
    Option format_table :=
  if t.last_format_index < t.uvc_frame_format.length then
    some { t with
      uvc_frame_format :=
        (t.uvc_frame_format.take (t.last_format_index + 1)).map (fun row =>
          if row.usb_speed = usb_speed ∧ row.video_format = video_format then
            { row with bFormatIndex := bFormatIndex }
          else row) ++ t.uvc_frame_format.drop (t.last_format_index + 1) }
  else none

/-- The function `set_uvc_format_value` on one row. -/
def set_uvc_format_value (key_word : List Char) (row : uvc_frame_format) (value : Nat) :
    uvc_frame_format :=
  if starts_with key_word "dwDefaultFrameInterval".data then
    { row with dwDefaultFrameInterval := value }
  else if starts_with key_word "dwMaxVideoFrameBufferSize".data then
    { row with dwMaxVideoFrameBufferSize := value }
  else if starts_with key_word "dwMaxBitRate".data then { row with dwMaxBitRate := value }
  else if starts_with key_word "dwMinBitRate".data then { row with dwMinBitRate := value }
  else if starts_with key_word "wHeight".data then { row with wHeight := value }
  else if starts_with key_word "wWidth".data then { row with wWidth := value }
  else if starts_with key_word "bmCapabilities".data then { row with bmCapabilities := value }
  else if starts_with key_word "bFrameIndex".data then { row with bFrameIndex := value }
  else row

/-- The function `configfs_usb_speed`. -/
def configfs_usb_speed (speed : List Char) : Nat :=
  if starts_with speed "fs".data then USB_SPEED_FULL
  else if starts_with speed "hs".data then USB_SPEED_HIGH
  else if starts_with speed "ss".data then USB_SPEED_SUPER
  else USB_SPEED_UNKNOWN

/-- The function `configfs_video_format`. -/
def configfs_video_format (format : List Char) : Nat :=
  if starts_with format "m".data then V4L2_PIX_FMT_MJPEG
  else if starts_with format "u".data then V4L2_PIX_FMT_YUYV
  else 0

/-- The function `configfs_fill_formats` for the file with content `file`
whose path continues with `part` after `streaming/class/`. It is undefined
when the path has more than ten tokens (the array `array[10]`) and when it
reads or writes the row `last_format_index` outside the table. -/
def configfs_fill_formats (t : format_table) (file : Option (List Char))
    (part : List Char) : Option format_table :=
  let array := strtok [] part
  let index := array.length
  if index > 10 then none
  else if index > 3 then
    let format_name := array.getD 3 []
    let usb_speed := configfs_usb_speed (array.getD 0 [])
    if usb_speed = USB_SPEED_UNKNOWN then some t
    else
      let video_format := configfs_video_format (array.getD 2 [])
      if video_format = 0 then some t
      else
        let value := configfs_read_value file
        if value < 0 then some t
        else if starts_with (array.getD (index - 1) []) "bFormatIndex".data then
          set_uvc_format_index t usb_speed video_format value.toNat
        else if index ≠ 5 then some t
        else
          match t.uvc_frame_format.get? t.last_format_index with
          | none => none
          | some last =>
            if last.usb_speed ≠ usb_speed ∨ last.video_format ≠ video_format ∨
                ¬ starts_with last.format_name.data format_name then
              let last_format_index :=
                if last.defined then t.last_format_index + 1 else t.last_format_index
              if last.defined = true ∧ last_format_index > 29 then
                some { t with last_format_index := last_format_index }
              else
                match t.uvc_frame_format.get? last_format_index with
                | none => none
                | some row =>
                  some
                    { uvc_frame_format :=
                        t.uvc_frame_format.set last_format_index
                          (set_uvc_format_value (array.getD (index - 1) [])
                            { row with usb_speed := usb_speed, video_format := video_format,
                                       format_name := String.mk format_name,
                                       defined := true }
                            value.toNat),
                      last_format_index := last_format_index }
            else
              some
                { t with
                  uvc_frame_format :=
                    t.uvc_frame_format.set t.last_format_index
                      (set_uvc_format_value (array.getD (index - 1) []) last value.toNat) }
  else some t

/-- A file of the walk: the part of its path after `streaming/class/` and its
content. -/
structure configfs_file where
  part : String
  content : Option String

/-- The walk over a list of files, from the table `t`. -/
def configfs_walk : format_table → List configfs_file → Option format_table
  | t, [] => some t
  | t, f :: fs =>
    match configfs_fill_formats t (f.content.map String.data) f.part.data with
    | none => none
    | some t1 => configfs_walk t1 fs
/-- The name of the sample frame group `i`: `i + 1` letters `g`, so that no
name is a prefix of the one before it. -/
def sample_group (i : Nat) : String :=
  String.mk (List.replicate (i + 1) (Char.ofNat 103))

/-- The file `wWidth` of the sample frame group `i`, content `640`. -/
def sample_group_file (i : Nat) : configfs_file :=
  ⟨"fs/h/m/" ++ sample_group i ++ "/wWidth", some "640\n"⟩

/-- The table after the walk over the `wWidth` files of the sample groups
`0 .. 29`: thirty defined rows. -/
def full_table : format_table :=
  { uvc_frame_format :=
      (List.range 30).map (fun i =>
        { defined := true, usb_speed := USB_SPEED_FULL, video_format := V4L2_PIX_FMT_MJPEG,
          format_name := sample_group i, wWidth := 640 }),
    last_format_index := 29 }

/-- The block `uvc_fill_streaming_control` writes for the index pair `(f, r)`
and the inventory row `row` found for it, `lo` and `hi` being the least and
the greatest format index of the inventory. -/
def streaming_block (s : Bridge) (row : uvc_frame_format) (f r lo hi : Nat) :
    uvc_streaming_control :=
  { bmHint := 1
    bFormatIndex := f
    bFrameIndex := r
    dwMaxVideoFrameSize := get_frame_size row.video_format row.wWidth row.wHeight
    dwMaxPayloadTransferSize := s.streaming_maxpacket
    dwFrameInterval :=
      if row.dwDefaultFrameInterval ≥ 100000 then row.dwDefaultFrameInterval else 400000
    bmFramingInfo := 3
    bMinVersion := lo
    bMaxVersion := hi
    bPreferedVersion := hi }

/-! ## Machine-integer lemmas -/

theorem toInt32_of_lt {n : Nat} (h : n < 2 ^ 31) : toInt32 n = (n : Int) := by
  have h1 : n % 2 ^ 32 = n := Nat.mod_eq_of_lt (by omega)
  unfold toInt32
  rw [h1, if_pos h]

theorem toUnsigned_natCast {w n : Nat} (h : n < 2 ^ w) : toUnsigned w (n : Int) = n := by
  unfold toUnsigned
  rw [← Int.natCast_mod, Nat.mod_eq_of_lt h]
  simp

/-! ## The sentinel folds of `uvc_get_frame_format_index` -/

theorem frame_format_index_step_eq (fi : Int) (g : uvc_frame_format_getter) (acc : Int)
    (row : uvc_frame_format) :
    frame_format_index_step fi g acc row =
      if fi = -1 ∨ fi = toInt32 row.bFormatIndex then
        getter_update g acc (getter_value g row)
      else acc := by
  cases g <;> simp only [frame_format_index_step, getter_update, getter_value, index_min, index_max]

theorem foldl_step_eq (fi : Int) (g : uvc_frame_format_getter) (inv : List uvc_frame_format)
    (acc : Int) :
    inv.foldl (frame_format_index_step fi g) acc =
      ((inv.filter (fun row => decide (fi = -1 ∨ fi = toInt32 row.bFormatIndex))).map
        (getter_value g)).foldl (getter_update g) acc := by
  induction inv generalizing acc with
  | nil => rfl
  | cons row rest ih =>
    rw [List.foldl_cons, ih, frame_format_index_step_eq]
    by_cases h : fi = -1 ∨ fi = toInt32 row.bFormatIndex
    · rw [if_pos h, List.filter_cons_of_pos (by simpa using h)]
      rfl
    · rw [if_neg h, List.filter_cons_of_neg (by simpa using h)]

theorem foldl_index_min_acc (vs : List Int) (acc : Int) (hacc : acc ≠ -1)
    (hvs : ∀ v ∈ vs, 0 ≤ v) :
    vs.foldl index_min acc ≠ -1 ∧ vs.foldl index_min acc ≤ acc ∧
      (∀ v ∈ vs, vs.foldl index_min acc ≤ v) ∧
      (vs.foldl index_min acc = acc ∨ vs.foldl index_min acc ∈ vs) := by
  induction vs generalizing acc with
  | nil => simp [hacc]
  | cons v rest ih =>
    have hv : 0 ≤ v := hvs v (List.mem_cons_self _ _)
    have hrest : ∀ w ∈ rest, 0 ≤ w := fun w hw => hvs w (List.mem_cons_of_mem _ hw)
    have hstep : index_min acc v = if v < acc then v else acc := by
      unfold index_min; rw [if_neg hacc]
    rw [List.foldl_cons, hstep]
    by_cases hlt : v < acc
    · rw [if_pos hlt]
      obtain ⟨h1, h2, h3, h4⟩ := ih v (by omega) hrest
      refine ⟨h1, by omega, ?_, ?_⟩
      · intro w hw
        rcases List.mem_cons.mp hw with rfl | hw
        · exact h2
        · exact h3 w hw
      · rcases h4 with h4 | h4
        · exact Or.inr (by rw [h4]; exact List.mem_cons_self _ _)
        · exact Or.inr (List.mem_cons_of_mem _ h4)
    · rw [if_neg hlt]
      obtain ⟨h1, h2, h3, h4⟩ := ih acc hacc hrest
      refine ⟨h1, h2, ?_, ?_⟩
      · intro w hw
        rcases List.mem_cons.mp hw with rfl | hw
        · omega
        · exact h3 w hw
      · rcases h4 with h4 | h4
        · exact Or.inl h4
        · exact Or.inr (List.mem_cons_of_mem _ h4)

theorem foldl_index_max_acc (vs : List Int) (acc : Int) (hacc : acc ≠ -1)
    (hvs : ∀ v ∈ vs, 0 ≤ v) :
    vs.foldl index_max acc ≠ -1 ∧ acc ≤ vs.foldl index_max acc ∧
      (∀ v ∈ vs, v ≤ vs.foldl index_max acc) ∧
      (vs.foldl index_max acc = acc ∨ vs.foldl index_max acc ∈ vs) := by
  induction vs generalizing acc with
  | nil => simp [hacc]
  | cons v rest ih =>
    have hv : 0 ≤ v := hvs v (List.mem_cons_self _ _)
    have hrest : ∀ w ∈ rest, 0 ≤ w := fun w hw => hvs w (List.mem_cons_of_mem _ hw)
    have hstep : index_max acc v = if v > acc then v else acc := by
      unfold index_max; rw [if_neg hacc]
    rw [List.foldl_cons, hstep]
    by_cases hlt : v > acc
    · rw [if_pos hlt]
      obtain ⟨h1, h2, h3, h4⟩ := ih v (by omega) hrest
      refine ⟨h1, by omega, ?_, ?_⟩
      · intro w hw
        rcases List.mem_cons.mp hw with rfl | hw
        · exact h2
        · exact h3 w hw
      · rcases h4 with h4 | h4
        · exact Or.inr (by rw [h4]; exact List.mem_cons_self _ _)
        · exact Or.inr (List.mem_cons_of_mem _ h4)
    · rw [if_neg hlt]
      obtain ⟨h1, h2, h3, h4⟩ := ih acc hacc hrest
      refine ⟨h1, h2, ?_, ?_⟩
      · intro w hw
        rcases List.mem_cons.mp hw with rfl | hw
        · omega
        · exact h3 w hw
      · rcases h4 with h4 | h4
        · exact Or.inl h4
        · exact Or.inr (List.mem_cons_of_mem _ h4)

theorem foldl_index_min_least (vs : List Int) (hne : vs ≠ []) (hvs : ∀ v ∈ vs, 0 ≤ v) :
    vs.foldl index_min (-1) ∈ vs ∧ ∀ v ∈ vs, vs.foldl index_min (-1) ≤ v := by
  cases vs with
  | nil => exact absurd rfl hne
  | cons v rest =>
    have hv : 0 ≤ v := hvs v (List.mem_cons_self _ _)
    have hrest : ∀ w ∈ rest, 0 ≤ w := fun w hw => hvs w (List.mem_cons_of_mem _ hw)
    have hstep : index_min (-1) v = v := by simp [index_min]
    rw [List.foldl_cons, hstep]
    obtain ⟨_, h2, h3, h4⟩ := foldl_index_min_acc rest v (by omega) hrest
    refine ⟨?_, ?_⟩
    · rcases h4 with h4 | h4
      · rw [h4]; exact List.mem_cons_self _ _
      · exact List.mem_cons_of_mem _ h4
    · intro w hw
      rcases List.mem_cons.mp hw with rfl | hw
      · exact h2
      · exact h3 w hw

theorem foldl_index_max_greatest (vs : List Int) (hne : vs ≠ []) (hvs : ∀ v ∈ vs, 0 ≤ v) :
    vs.foldl index_max (-1) ∈ vs ∧ ∀ v ∈ vs, v ≤ vs.foldl index_max (-1) := by
  cases vs with
  | nil => exact absurd rfl hne
  | cons v rest =>
    have hv : 0 ≤ v := hvs v (List.mem_cons_self _ _)
    have hrest : ∀ w ∈ rest, 0 ≤ w := fun w hw => hvs w (List.mem_cons_of_mem _ hw)
    have hstep : index_max (-1) v = v := by simp [index_max]
    rw [List.foldl_cons, hstep]
    obtain ⟨_, h2, h3, h4⟩ := foldl_index_max_acc rest v (by omega) hrest
    refine ⟨?_, ?_⟩
    · rcases h4 with h4 | h4
      · rw [h4]; exact List.mem_cons_self _ _
      · exact List.mem_cons_of_mem _ h4
    · intro w hw
      rcases List.mem_cons.mp hw with rfl | hw
      · exact h2
      · exact h3 w hw

theorem byte_indices.int {inv : List uvc_frame_format} (h : byte_indices inv) :
    int_indices inv := by
  intro row hrow
  have := h row hrow
  constructor <;> omega

theorem index_eq_fold (inv : List uvc_frame_format) (fi : Int) (g : uvc_frame_format_getter)
    (P : uvc_frame_format → Bool) (sel : uvc_frame_format → Nat)
    (hP : ∀ row ∈ inv, (fi = -1 ∨ fi = toInt32 row.bFormatIndex) ↔ P row = true)
    (hsel : ∀ row ∈ inv, getter_value g row = (sel row : Int)) :
    uvc_get_frame_format_index inv fi g =
      (((inv.filter P).map sel).map (fun n : Nat => (n : Int))).foldl (getter_update g) (-1) := by
  unfold uvc_get_frame_format_index
  rw [foldl_step_eq]
  congr 1
  rw [List.map_map]
  have hfilter : inv.filter (fun row => decide (fi = -1 ∨ fi = toInt32 row.bFormatIndex)) =
      inv.filter P := by
    apply List.filter_congr
    intro row hrow
    have := hP row hrow
    by_cases hp : P row = true
    · rw [hp]; simpa using this.mpr hp
    · have hq : ¬ (fi = -1 ∨ fi = toInt32 row.bFormatIndex) := fun hq => hp (this.mp hq)
      simp only [Bool.not_eq_true] at hp
      rw [hp]; simpa using hq
  rw [hfilter]
  apply List.map_congr_left
  intro row hrow
  exact hsel row (List.mem_of_mem_filter hrow)

theorem fold_min_of_least (l : List Nat) (lo : Nat) (h : is_least l lo) :
    (l.map (fun n : Nat => (n : Int))).foldl index_min (-1) = (lo : Int) := by
  have hne : l.map (fun n : Nat => (n : Int)) ≠ [] := by
    intro hnil
    have := List.map_eq_nil_iff.mp hnil
    rw [this] at h
    exact absurd h.1 (List.not_mem_nil _)
  have hpos : ∀ v ∈ l.map (fun n : Nat => (n : Int)), 0 ≤ v := by
    intro v hv
    obtain ⟨n, _, rfl⟩ := List.mem_map.mp hv
    exact Int.natCast_nonneg n
  obtain ⟨hmem, hle⟩ := foldl_index_min_least _ hne hpos
  obtain ⟨n, hn, hn2⟩ := List.mem_map.mp hmem
  have h1 : lo ≤ n := h.2 n hn
  have h2 := hle (lo : Int) (List.mem_map.mpr ⟨lo, h.1, rfl⟩)
  rw [← hn2] at h2 ⊢
  have : n ≤ lo := by exact_mod_cast h2
  have : n = lo := by omega
  rw [this]

theorem fold_max_of_greatest (l : List Nat) (hi : Nat) (h : is_greatest l hi) :
    (l.map (fun n : Nat => (n : Int))).foldl index_max (-1) = (hi : Int) := by
  have hne : l.map (fun n : Nat => (n : Int)) ≠ [] := by
    intro hnil
    have := List.map_eq_nil_iff.mp hnil
    rw [this] at h
    exact absurd h.1 (List.not_mem_nil _)
  have hpos : ∀ v ∈ l.map (fun n : Nat => (n : Int)), 0 ≤ v := by
    intro v hv
    obtain ⟨n, _, rfl⟩ := List.mem_map.mp hv
    exact Int.natCast_nonneg n
  obtain ⟨hmem, hle⟩ := foldl_index_max_greatest _ hne hpos
  obtain ⟨n, hn, hn2⟩ := List.mem_map.mp hmem
  have h1 : n ≤ hi := h.2 n hn
  have h2 := hle (hi : Int) (List.mem_map.mpr ⟨hi, h.1, rfl⟩)
  rw [← hn2] at h2 ⊢
  have : hi ≤ n := by exact_mod_cast h2
  have : n = hi := by omega
  rw [this]

theorem filter_all (inv : List uvc_frame_format) :
    inv.filter (fun _ => true) = inv := by
  simp

theorem format_first_eq (inv : List uvc_frame_format) (hint : int_indices inv) (lo : Nat)
    (h : is_least (format_indices inv) lo) :
    uvc_get_frame_format_index inv (-1) .FORMAT_INDEX_MIN = (lo : Int) := by
  rw [index_eq_fold inv (-1) .FORMAT_INDEX_MIN (fun _ => true) (·.bFormatIndex)
    (fun _ _ => by simp) (fun row hrow => toInt32_of_lt (hint row hrow).1), filter_all]
  exact fold_min_of_least _ lo h

theorem format_last_eq (inv : List uvc_frame_format) (hint : int_indices inv) (hi : Nat)
    (h : is_greatest (format_indices inv) hi) :
    uvc_get_frame_format_index inv (-1) .FORMAT_INDEX_MAX = (hi : Int) := by
  rw [index_eq_fold inv (-1) .FORMAT_INDEX_MAX (fun _ => true) (·.bFormatIndex)
    (fun _ _ => by simp) (fun row hrow => toInt32_of_lt (hint row hrow).1), filter_all]
  exact fold_max_of_greatest _ hi h

theorem frame_first_eq (inv : List uvc_frame_format) (hint : int_indices inv) (lo : Nat)
    (h : is_least (frame_indices inv) lo) :
    uvc_get_frame_format_index inv (-1) .FRAME_INDEX_MIN = (lo : Int) := by
  rw [index_eq_fold inv (-1) .FRAME_INDEX_MIN (fun _ => true) (·.bFrameIndex)
    (fun _ _ => by simp) (fun row hrow => toInt32_of_lt (hint row hrow).2), filter_all]
  exact fold_min_of_least _ lo h

theorem frame_last_eq (inv : List uvc_frame_format) (hint : int_indices inv) (hi : Nat)
    (h : is_greatest (frame_indices inv) hi) :
    uvc_get_frame_format_index inv (-1) .FRAME_INDEX_MAX = (hi : Int) := by
  rw [index_eq_fold inv (-1) .FRAME_INDEX_MAX (fun _ => true) (·.bFrameIndex)
    (fun _ _ => by simp) (fun row hrow => toInt32_of_lt (hint row hrow).2), filter_all]
  exact fold_max_of_greatest _ hi h

theorem format_match_iff (inv : List uvc_frame_format) (hint : int_indices inv) (f : Nat) :
    ∀ row ∈ inv, (((f : Int) = -1 ∨ (f : Int) = toInt32 row.bFormatIndex) ↔
      decide (row.bFormatIndex = f) = true) := by
  intro row hrow
  rw [toInt32_of_lt (hint row hrow).1]
  constructor
  · rintro (h | h)
    · omega
    · simp only [decide_eq_true_eq]; exact_mod_cast h.symm
  · intro h
    simp only [decide_eq_true_eq] at h
    exact Or.inr (by rw [h])

theorem format_frame_first_eq (inv : List uvc_frame_format) (hint : int_indices inv)
    (f lo : Nat) (h : is_least (frame_indices_of inv f) lo) :
    uvc_get_frame_format_index inv (f : Int) .FRAME_INDEX_MIN = (lo : Int) := by
  rw [index_eq_fold inv (f : Int) .FRAME_INDEX_MIN (fun row => decide (row.bFormatIndex = f))
    (·.bFrameIndex) (format_match_iff inv hint f)
    (fun row hrow => toInt32_of_lt (hint row hrow).2)]
  exact fold_min_of_least _ lo h

theorem format_frame_last_eq (inv : List uvc_frame_format) (hint : int_indices inv)
    (f hi : Nat) (h : is_greatest (frame_indices_of inv f) hi) :
    uvc_get_frame_format_index inv (f : Int) .FRAME_INDEX_MAX = (hi : Int) := by
  rw [index_eq_fold inv (f : Int) .FRAME_INDEX_MAX (fun row => decide (row.bFormatIndex = f))
    (·.bFrameIndex) (format_match_iff inv hint f)
    (fun row hrow => toInt32_of_lt (hint row hrow).2)]
  exact fold_max_of_greatest _ hi h

theorem exists_least (l : List Nat) (h : l ≠ []) : ∃ lo, is_least l lo := by
  induction l with
  | nil => exact absurd rfl h
  | cons a rest ih =>
    by_cases hrest : rest = []
    · subst hrest
      exact ⟨a, List.mem_cons_self _ _, by simp⟩
    · obtain ⟨lo, hmem, hle⟩ := ih hrest
      by_cases hlt : a ≤ lo
      · refine ⟨a, List.mem_cons_self _ _, ?_⟩
        intro v hv
        rcases List.mem_cons.mp hv with rfl | hv
        · exact le_refl _
        · exact le_trans hlt (hle v hv)
      · refine ⟨lo, List.mem_cons_of_mem _ hmem, ?_⟩
        intro v hv
        rcases List.mem_cons.mp hv with rfl | hv
        · omega
        · exact hle v hv

theorem exists_greatest (l : List Nat) (h : l ≠ []) : ∃ hi, is_greatest l hi := by
  induction l with
  | nil => exact absurd rfl h
  | cons a rest ih =>
    by_cases hrest : rest = []
    · subst hrest
      exact ⟨a, List.mem_cons_self _ _, by simp⟩
    · obtain ⟨hi, hmem, hle⟩ := ih hrest
      by_cases hlt : hi ≤ a
      · refine ⟨a, List.mem_cons_self _ _, ?_⟩
        intro v hv
        rcases List.mem_cons.mp hv with rfl | hv
        · exact le_refl _
        · exact le_trans (hle v hv) hlt
      · refine ⟨hi, List.mem_cons_of_mem _ hmem, ?_⟩
        intro v hv
        rcases List.mem_cons.mp hv with rfl | hv
        · omega
        · exact hle v hv

theorem clamp_eq_max_min (v lo hi : Int) (h : lo ≤ hi) : clamp v lo hi = max lo (min v hi) := by
  unfold clamp
  simp only []
  split_ifs <;> omega

theorem clamp_eq_self (v lo hi : Int) (h1 : lo ≤ v) (h2 : v ≤ hi) : clamp v lo hi = v := by
  unfold clamp
  simp only []
  split_ifs <;> omega

theorem fill_spec (k : Kernel) (s : Bridge) (action : stream_control_action)
    (iformat iframe : Int) (row : uvc_frame_format)
    (h : uvc_get_frame_format s.uvc_frame_format
      (toUnsigned 32 (streaming_control_indices s.uvc_frame_format action iformat iframe).1)
      (toUnsigned 32 (streaming_control_indices s.uvc_frame_format action iformat iframe).2)
        = some row) :
    uvc_fill_streaming_control k s action iformat iframe =
      some
        ({ bmHint := 1
           bFormatIndex :=
             toUnsigned 8 (streaming_control_indices s.uvc_frame_format action iformat iframe).1
           bFrameIndex :=
             toUnsigned 8 (streaming_control_indices s.uvc_frame_format action iformat iframe).2
           dwMaxVideoFrameSize := get_frame_size row.video_format row.wWidth row.wHeight
           dwMaxPayloadTransferSize := s.streaming_maxpacket
           dwFrameInterval :=
             if row.dwDefaultFrameInterval ≥ 100000 then row.dwDefaultFrameInterval else 400000
           bmFramingInfo := 3
           bMinVersion :=
             toUnsigned 8 (uvc_get_frame_format_index s.uvc_frame_format (-1) .FORMAT_INDEX_MIN)
           bMaxVersion :=
             toUnsigned 8 (uvc_get_frame_format_index s.uvc_frame_format (-1) .FORMAT_INDEX_MAX)
           bPreferedVersion :=
             toUnsigned 8 (uvc_get_frame_format_index s.uvc_frame_format (-1) .FORMAT_INDEX_MAX) },
         if s.udev.control = UVC_VS_COMMIT_CONTROL ∧ action = .STREAM_CONTROL_SET then
           commit_side_effect k s row
         else s) := by
  unfold uvc_fill_streaming_control
  simp only [h, commit_side_effect]
  split_ifs <;> rfl

theorem least_le_greatest {l : List Nat} {lo hi : Nat} (hlo : is_least l lo)
    (hhi : is_greatest l hi) : lo ≤ hi :=
  hlo.2 hi hhi.1

theorem indices_clamped (inv : List uvc_frame_format) (action : stream_control_action)
    (iformat iframe : Int) (lo hi flo fhi F : Nat)
    (hmin : action ≠ .STREAM_CONTROL_MIN) (hmax : action ≠ .STREAM_CONTROL_MAX)
    (hint : int_indices inv)
    (hlo : is_least (format_indices inv) lo) (hhi : is_greatest (format_indices inv) hi)
    (hF : (F : Int) = max (lo : Int) (min iformat hi))
    (hflo : is_least (frame_indices_of inv F) flo)
    (hfhi : is_greatest (frame_indices_of inv F) fhi) :
    streaming_control_indices inv action iformat iframe =
      ((F : Int), max (flo : Int) (min iframe fhi)) := by
  have h1 : lo ≤ hi := least_le_greatest hlo hhi
  have h2 : flo ≤ fhi := least_le_greatest hflo hfhi
  unfold streaming_control_indices
  simp only [if_neg hmin, if_neg hmax]
  rw [format_first_eq inv hint lo hlo, format_last_eq inv hint hi hhi,
    clamp_eq_max_min _ _ _ (by exact_mod_cast h1), ← hF,
    format_frame_first_eq inv hint F flo hflo, format_frame_last_eq inv hint F fhi hfhi,
    clamp_eq_max_min _ _ _ (by exact_mod_cast h2)]

theorem lookup_of_mem (inv : List uvc_frame_format) (row : uvc_frame_format)
    (hrow : row ∈ inv) :
    ∃ found, uvc_get_frame_format inv row.bFormatIndex row.bFrameIndex = some found ∧
      found ∈ inv ∧ found.bFormatIndex = row.bFormatIndex ∧
      found.bFrameIndex = row.bFrameIndex := by
  unfold uvc_get_frame_format
  cases h : inv.find? (fun r => decide (r.bFormatIndex = row.bFormatIndex ∧
      r.bFrameIndex = row.bFrameIndex)) with
  | none =>
    have := List.find?_eq_none.mp h row hrow
    simp at this
  | some found =>
    have hp := List.find?_some h
    have hm := List.mem_of_find?_eq_some h
    simp only [decide_eq_true_eq] at hp
    exact ⟨found, rfl, hm, hp.1, hp.2⟩

theorem lookup_first (pre post : List uvc_frame_format) (row : uvc_frame_format) (f r : Nat)
    (hfirst : ∀ x ∈ pre, ¬ (x.bFormatIndex = f ∧ x.bFrameIndex = r))
    (hf : row.bFormatIndex = f) (hr : row.bFrameIndex = r) :
    uvc_get_frame_format (pre ++ row :: post) f r = some row := by
  unfold uvc_get_frame_format
  induction pre with
  | nil => simp [List.find?, hf, hr]
  | cons x rest ih =>
    have hx := hfirst x (List.mem_cons_self _ _)
    rw [List.cons_append, List.find?_cons_of_neg _ (by simpa using hx)]
    exact ih (fun y hy => hfirst y (List.mem_cons_of_mem _ hy))

/-- C2: for the actions INIT and SET, over an inventory whose indices are
bytes, `uvc_fill_streaming_control` writes a block whose `bFormatIndex` is the
requested format index clamped between the least and the greatest format
index of the inventory, and whose `bFrameIndex` is the requested frame index
clamped between the least and the greatest frame index among the rows of that
format, whenever the inventory has a row for the clamped pair. -/
theorem fill_streaming_control_clamps (k : Kernel) (s : Bridge)
    (action : stream_control_action) (iformat iframe : Int) (lo hi flo fhi : Nat)
    (row : uvc_frame_format)
    (haction : action = .STREAM_CONTROL_INIT ∨ action = .STREAM_CONTROL_SET)
    (hbytes : byte_indices s.uvc_frame_format)
    (hlo : is_least (format_indices s.uvc_frame_format) lo)
    (hhi : is_greatest (format_indices s.uvc_frame_format) hi)
    (hflo : is_least (frame_indices_of s.uvc_frame_format
      (max (lo : Int) (min iformat hi)).toNat) flo)
    (hfhi : is_greatest (frame_indices_of s.uvc_frame_format
      (max (lo : Int) (min iformat hi)).toNat) fhi)
    (hrow : row ∈ s.uvc_frame_format)
    (hrowf : (row.bFormatIndex : Int) = max (lo : Int) (min iformat hi))
    (hrowr : (row.bFrameIndex : Int) = max (flo : Int) (min iframe fhi)) :
    ∃ blk s1, uvc_fill_streaming_control k s action iformat iframe = some (blk, s1) ∧
      (blk.bFormatIndex : Int) = max (lo : Int) (min iformat hi) ∧
      (blk.bFrameIndex : Int) = max (flo : Int) (min iframe fhi) := by
  have hmin : action ≠ .STREAM_CONTROL_MIN := by rcases haction with h | h <;> simp [h]
  have hmax : action ≠ .STREAM_CONTROL_MAX := by rcases haction with h | h <;> simp [h]
  have hb := hbytes row hrow
  have hnat : (max (lo : Int) (min iformat hi)).toNat = row.bFormatIndex := by
    rw [← hrowf]; simp
  rw [hnat] at hflo hfhi
  have hidx := indices_clamped s.uvc_frame_format action iformat iframe lo hi flo fhi
    row.bFormatIndex hmin hmax hbytes.int hlo hhi hrowf hflo hfhi
  rw [← hrowr] at hidx
  obtain ⟨found, hfound, -, -, -⟩ := lookup_of_mem s.uvc_frame_format row hrow
  have hlookup : uvc_get_frame_format s.uvc_frame_format
      (toUnsigned 32 (streaming_control_indices s.uvc_frame_format action iformat iframe).1)
      (toUnsigned 32 (streaming_control_indices s.uvc_frame_format action iformat iframe).2)
        = some found := by
    rw [hidx]
    simp only []
    rw [toUnsigned_natCast (by omega), toUnsigned_natCast (by omega)]
    exact hfound
  refine ⟨_, _, fill_spec k s action iformat iframe found hlookup, ?_, ?_⟩
  · simp only [hidx]
    rw [toUnsigned_natCast (by omega), hrowf]
  · simp only [hidx]
    rw [toUnsigned_natCast (by omega), hrowr]

/-- Witness of C2 on the inventory MJPEG (1,1), YUYV (2,1): the request (5, 0)
is clamped to (2, 1). -/
theorem fill_streaming_control_clamps_witness :
    ∃ blk s1, uvc_fill_streaming_control { ret := fun _ => 0 }
        { uvc_frame_format :=
            [ { video_format := V4L2_PIX_FMT_MJPEG, bFormatIndex := 1, bFrameIndex := 1,
                wWidth := 640, wHeight := 480 },
              { video_format := V4L2_PIX_FMT_YUYV, bFormatIndex := 2, bFrameIndex := 1,
                wWidth := 1280, wHeight := 720 } ] }
        .STREAM_CONTROL_SET 5 0 = some (blk, s1) ∧
      (blk.bFormatIndex : Int) = max ((1 : Nat) : Int) (min 5 ((2 : Nat) : Int)) ∧
      (blk.bFrameIndex : Int) = max ((1 : Nat) : Int) (min 0 ((1 : Nat) : Int)) :=
  fill_streaming_control_clamps { ret := fun _ => 0 }
    { uvc_frame_format :=
        [ { video_format := V4L2_PIX_FMT_MJPEG, bFormatIndex := 1, bFrameIndex := 1,
            wWidth := 640, wHeight := 480 },
          { video_format := V4L2_PIX_FMT_YUYV, bFormatIndex := 2, bFrameIndex := 1,
            wWidth := 1280, wHeight := 720 } ] }
    .STREAM_CONTROL_SET 5 0 1 2 1 1
    { video_format := V4L2_PIX_FMT_YUYV, bFormatIndex := 2, bFrameIndex := 1,
      wWidth := 1280, wHeight := 720 }
    (Or.inr rfl) (by decide) (by decide) (by decide) (by decide) (by decide) (by decide)
    (by decide) (by decide)

theorem le_bytes_one (n : Nat) : le_bytes n 1 = [n % 256] := rfl

theorem le_bytes_two (n : Nat) : le_bytes n 2 = [n % 256, n / 256 % 256] := rfl

theorem le_bytes_four (n : Nat) :
    le_bytes n 4 = [n % 256, n / 256 % 256, n / 256 / 256 % 256, n / 256 / 256 / 256 % 256] :=
  rfl

theorem bytes_eq (c : uvc_streaming_control) :
    c.bytes =
      [c.bmHint % 256, c.bmHint / 256 % 256, c.bFormatIndex % 256, c.bFrameIndex % 256,
       c.dwFrameInterval % 256, c.dwFrameInterval / 256 % 256,
       c.dwFrameInterval / 256 / 256 % 256, c.dwFrameInterval / 256 / 256 / 256 % 256,
       c.wKeyFrameRate % 256, c.wKeyFrameRate / 256 % 256,
       c.wPFrameRate % 256, c.wPFrameRate / 256 % 256,
       c.wCompQuality % 256, c.wCompQuality / 256 % 256,
       c.wCompWindowSize % 256, c.wCompWindowSize / 256 % 256,
       c.wDelay % 256, c.wDelay / 256 % 256,
       c.dwMaxVideoFrameSize % 256, c.dwMaxVideoFrameSize / 256 % 256,
       c.dwMaxVideoFrameSize / 256 / 256 % 256, c.dwMaxVideoFrameSize / 256 / 256 / 256 % 256,
       c.dwMaxPayloadTransferSize % 256, c.dwMaxPayloadTransferSize / 256 % 256,
       c.dwMaxPayloadTransferSize / 256 / 256 % 256,
       c.dwMaxPayloadTransferSize / 256 / 256 / 256 % 256,
       c.dwClockFrequency % 256, c.dwClockFrequency / 256 % 256,
       c.dwClockFrequency / 256 / 256 % 256, c.dwClockFrequency / 256 / 256 / 256 % 256,
       c.bmFramingInfo % 256, c.bPreferedVersion % 256, c.bMinVersion % 256,
       c.bMaxVersion % 256] := by
  unfold uvc_streaming_control.bytes
  rw [le_bytes_one, le_bytes_one, le_bytes_one, le_bytes_one, le_bytes_one, le_bytes_one,
    le_bytes_two, le_bytes_two, le_bytes_two, le_bytes_two, le_bytes_two, le_bytes_two,
    le_bytes_four, le_bytes_four, le_bytes_four, le_bytes_four]
  rfl

theorem field_bFormatIndex (data : List Nat) (c : uvc_streaming_control) :
    le_field (write_bytes data c.bytes) 2 1 = c.bFormatIndex % 256 := by
  rw [bytes_eq]
  simp only [le_field, write_bytes, List.cons_append, List.drop_succ_cons, List.drop_zero,
    List.take_succ_cons, List.take_zero, le_value, Nat.mul_zero, Nat.add_zero]

theorem field_bFrameIndex (data : List Nat) (c : uvc_streaming_control) :
    le_field (write_bytes data c.bytes) 3 1 = c.bFrameIndex % 256 := by
  rw [bytes_eq]
  simp only [le_field, write_bytes, List.cons_append, List.drop_succ_cons, List.drop_zero,
    List.take_succ_cons, List.take_zero, le_value, Nat.mul_zero, Nat.add_zero]

theorem field_dwFrameInterval (data : List Nat) (c : uvc_streaming_control) :
    le_field (write_bytes data c.bytes) 4 4 = c.dwFrameInterval % 2 ^ 32 := by
  rw [bytes_eq]
  simp only [le_field, write_bytes, List.cons_append, List.drop_succ_cons, List.drop_zero,
    List.take_succ_cons, List.take_zero, le_value, Nat.mul_zero, Nat.add_zero]
  omega

theorem field_dwMaxVideoFrameSize (data : List Nat) (c : uvc_streaming_control) :
    le_field (write_bytes data c.bytes) 18 4 = c.dwMaxVideoFrameSize % 2 ^ 32 := by
  rw [bytes_eq]
  simp only [le_field, write_bytes, List.cons_append, List.drop_succ_cons, List.drop_zero,
    List.take_succ_cons, List.take_zero, le_value, Nat.mul_zero, Nat.add_zero]
  omega

theorem get_frame_size_yuyv (w h : Nat) :
    get_frame_size V4L2_PIX_FMT_YUYV w h = (w * h * 2) % 2 ^ 32 := by
  simp [get_frame_size]

theorem get_frame_size_mjpeg (w h : Nat) :
    get_frame_size V4L2_PIX_FMT_MJPEG w h = (w * h) % 2 ^ 32 := by
  simp [get_frame_size, V4L2_PIX_FMT_MJPEG, V4L2_PIX_FMT_YUYV]

theorem indices_min (inv : List uvc_frame_format) (iformat iframe : Int) (lo flo : Nat)
    (hint : int_indices inv) (hlo : is_least (format_indices inv) lo)
    (hflo : is_least (frame_indices inv) flo) :
    streaming_control_indices inv .STREAM_CONTROL_MIN iformat iframe =
      ((lo : Int), (flo : Int)) := by
  unfold streaming_control_indices
  simp only [if_true]
  rw [format_first_eq inv hint lo hlo, frame_first_eq inv hint flo hflo]

theorem indices_max (inv : List uvc_frame_format) (iformat iframe : Int) (hi fhi : Nat)
    (hint : int_indices inv) (hhi : is_greatest (format_indices inv) hi)
    (hfhi : is_greatest (frame_indices inv) fhi) :
    streaming_control_indices inv .STREAM_CONTROL_MAX iformat iframe =
      ((hi : Int), (fhi : Int)) := by
  unfold streaming_control_indices
  rw [if_neg (by decide), if_pos rfl]
  rw [format_last_eq inv hint hi hhi, frame_last_eq inv hint fhi hfhi]

theorem fill_of_indices (k : Kernel) (s : Bridge) (action : stream_control_action)
    (iformat iframe : Int) (f r : Nat) (row : uvc_frame_format)
    (hidx : streaming_control_indices s.uvc_frame_format action iformat iframe =
      ((f : Int), (r : Int)))
    (hf : f < 256) (hr : r < 256)
    (hlookup : uvc_get_frame_format s.uvc_frame_format f r = some row) :
    ∃ blk, uvc_fill_streaming_control k s action iformat iframe =
        some (blk,
          if s.udev.control = UVC_VS_COMMIT_CONTROL ∧ action = .STREAM_CONTROL_SET then
            commit_side_effect k s row
          else s) ∧
      blk.bFormatIndex = f ∧ blk.bFrameIndex = r ∧
      blk.dwMaxVideoFrameSize = get_frame_size row.video_format row.wWidth row.wHeight ∧
      blk.dwFrameInterval =
        (if row.dwDefaultFrameInterval ≥ 100000 then row.dwDefaultFrameInterval else 400000) := by
  have h : uvc_get_frame_format s.uvc_frame_format
      (toUnsigned 32 (streaming_control_indices s.uvc_frame_format action iformat iframe).1)
      (toUnsigned 32 (streaming_control_indices s.uvc_frame_format action iformat iframe).2)
        = some row := by
    rw [hidx]
    simp only []
    rw [toUnsigned_natCast (by omega), toUnsigned_natCast (by omega)]
    exact hlookup
  refine ⟨_, fill_spec k s action iformat iframe row h, ?_, ?_, rfl, rfl⟩
  · simp only [hidx]
    exact toUnsigned_natCast (by omega)
  · simp only [hidx]
    exact toUnsigned_natCast (by omega)

theorem setup_streaming (k : Kernel) (s : Bridge) (ctrl : usb_ctrlrequest)
    (resp : uvc_request_data) (req cs : Nat) (h : streaming_setup ctrl req cs) :
    uvc_events_process_setup k s ctrl resp =
      uvc_events_process_streaming k s.clear_control req cs resp := by
  obtain ⟨⟨h1, h2⟩, h3, h4, h5⟩ := h
  unfold uvc_events_process_setup uvc_events_process_class
  simp only [h1, h2, h3, h4, h5, if_true, ne_eq, not_true_eq_false, if_false,
    Bridge.clear_control]
  rw [if_neg (by decide)]

theorem streaming_get_max (k : Kernel) (s : Bridge) (resp : uvc_request_data) :
    uvc_events_process_streaming k s UVC_GET_MAX UVC_VS_PROBE_CONTROL resp =
      match uvc_fill_streaming_control k s .STREAM_CONTROL_MAX 0 0 with
      | none => none
      | some (ctrl, s1) =>
        some (s1, { length := ctrl_length, data := write_bytes resp.data ctrl.bytes }) := by
  unfold uvc_events_process_streaming
  rw [if_neg (by decide), if_neg (by decide), if_pos rfl]

theorem mem_indices_byte (inv : List uvc_frame_format) (hbytes : byte_indices inv) (v : Nat) :
    (v ∈ format_indices inv → v < 256) ∧ (v ∈ frame_indices inv → v < 256) := by
  constructor
  · intro h
    unfold format_indices at h
    obtain ⟨row, hrow, rfl⟩ := List.mem_map.mp h
    exact (hbytes row hrow).1
  · intro h
    unfold frame_indices at h
    obtain ⟨row, hrow, rfl⟩ := List.mem_map.mp h
    exact (hbytes row hrow).2

theorem fill_of_extremes (k : Kernel) (s : Bridge) (action : stream_control_action)
    (iformat iframe : Int) (f r lo hi : Nat)
    (hact : action ≠ .STREAM_CONTROL_SET)
    (hidx : streaming_control_indices s.uvc_frame_format action iformat iframe =
      ((f : Int), (r : Int)))
    (hfirst : uvc_get_frame_format_index s.uvc_frame_format (-1) .FORMAT_INDEX_MIN = (lo : Int))
    (hlast : uvc_get_frame_format_index s.uvc_frame_format (-1) .FORMAT_INDEX_MAX = (hi : Int))
    (hf : f < 256) (hr : r < 256) (hlo : lo < 256) (hhi : hi < 256) :
    uvc_fill_streaming_control k s action iformat iframe =
      (uvc_get_frame_format s.uvc_frame_format f r).map
        (fun row => (streaming_block s row f r lo hi, s)) := by
  have e1 : toUnsigned 32 (f : Int) = f := toUnsigned_natCast (by omega)
  have e2 : toUnsigned 32 (r : Int) = r := toUnsigned_natCast (by omega)
  have e3 : toUnsigned 8 (f : Int) = f := toUnsigned_natCast (by omega)
  have e4 : toUnsigned 8 (r : Int) = r := toUnsigned_natCast (by omega)
  have e5 : toUnsigned 8 (lo : Int) = lo := toUnsigned_natCast (by omega)
  have e6 : toUnsigned 8 (hi : Int) = hi := toUnsigned_natCast (by omega)
  have hn : ¬ (s.udev.control = UVC_VS_COMMIT_CONTROL ∧ action = .STREAM_CONTROL_SET) :=
    fun h => hact h.2
  unfold uvc_fill_streaming_control
  simp only [hidx, hfirst, hlast, e1, e2, e3, e4, e5, e6, if_neg hn]
  cases uvc_get_frame_format s.uvc_frame_format f r with
  | none => rfl
  | some row => rfl

/-- C3: for the actions MIN and MAX `uvc_fill_streaming_control` ignores the
requested indices: over an inventory whose indices are bytes, with `lo`, `hi`
the least and greatest format index and `flo`, `fhi` the least and greatest
frame index of all rows, the pair it uses is `(lo, flo)` for MIN and
`(hi, fhi)` for MAX whatever was requested; the lookup is made with exactly
this pair, and the function is the block of the row found (with these
indices, state unchanged) and is undefined when no row has the pair. With the
inventory MJPEG (1,1) 640x480, YUYV (2,1) 1280x720 and default intervals below
100000, a Probe GET_MAX replies `bFormatIndex = 2`, `bFrameIndex = 1`,
`dwMaxVideoFrameSize = 1843200` and `dwFrameInterval = 400000`. -/
theorem fill_streaming_control_extremes (k : Kernel) (s : Bridge) (iformat iframe : Int)
    (lo hi flo fhi : Nat)
    (hbytes : byte_indices s.uvc_frame_format)
    (hlo : is_least (format_indices s.uvc_frame_format) lo)
    (hhi : is_greatest (format_indices s.uvc_frame_format) hi)
    (hflo : is_least (frame_indices s.uvc_frame_format) flo)
    (hfhi : is_greatest (frame_indices s.uvc_frame_format) fhi) :
    streaming_control_indices s.uvc_frame_format .STREAM_CONTROL_MIN iformat iframe =
      ((lo : Int), (flo : Int)) ∧
    streaming_control_indices s.uvc_frame_format .STREAM_CONTROL_MAX iformat iframe =
      ((hi : Int), (fhi : Int)) ∧
    uvc_fill_streaming_control k s .STREAM_CONTROL_MIN iformat iframe =
      (uvc_get_frame_format s.uvc_frame_format lo flo).map
        (fun row => (streaming_block s row lo flo lo hi, s)) ∧
    uvc_fill_streaming_control k s .STREAM_CONTROL_MAX iformat iframe =
      (uvc_get_frame_format s.uvc_frame_format hi fhi).map
        (fun row => (streaming_block s row hi fhi lo hi, s)) ∧
    (∀ (s2 : Bridge) (ctrl : usb_ctrlrequest) (resp : uvc_request_data)
        (r1 r2 : uvc_frame_format),
      s2.uvc_frame_format =
        [ { r1 with video_format := V4L2_PIX_FMT_MJPEG, bFormatIndex := 1, bFrameIndex := 1,
                    wWidth := 640, wHeight := 480 },
          { r2 with video_format := V4L2_PIX_FMT_YUYV, bFormatIndex := 2, bFrameIndex := 1,
                    wWidth := 1280, wHeight := 720 } ] →
      r1.dwDefaultFrameInterval < 100000 → r2.dwDefaultFrameInterval < 100000 →
      streaming_setup ctrl UVC_GET_MAX UVC_VS_PROBE_CONTROL →
      ∃ s3 reply, uvc_events_process_setup k s2 ctrl resp = some (s3, reply) ∧
        reply.length = 34 ∧ le_field reply.data 2 1 = 2 ∧ le_field reply.data 3 1 = 1 ∧
        le_field reply.data 18 4 = 1843200 ∧ le_field reply.data 4 4 = 400000) := by
  have hmin := indices_min s.uvc_frame_format iformat iframe lo flo hbytes.int hlo hflo
  have hmax := indices_max s.uvc_frame_format iformat iframe hi fhi hbytes.int hhi hfhi
  have hfirst := format_first_eq s.uvc_frame_format hbytes.int lo hlo
  have hlast := format_last_eq s.uvc_frame_format hbytes.int hi hhi
  have blo := (mem_indices_byte s.uvc_frame_format hbytes lo).1 hlo.1
  have bhi := (mem_indices_byte s.uvc_frame_format hbytes hi).1 hhi.1
  have bflo := (mem_indices_byte s.uvc_frame_format hbytes flo).2 hflo.1
  have bfhi := (mem_indices_byte s.uvc_frame_format hbytes fhi).2 hfhi.1
  refine ⟨hmin, hmax, ?_, ?_, ?_⟩
  · exact fill_of_extremes k s .STREAM_CONTROL_MIN iformat iframe lo flo lo hi (by decide)
      hmin hfirst hlast blo bflo blo bhi
  · exact fill_of_extremes k s .STREAM_CONTROL_MAX iformat iframe hi fhi lo hi (by decide)
      hmax hfirst hlast bhi bfhi blo bhi
  · intro s2 ctrl resp r1 r2 hinv hi1 hi2 hsetup
    have hinv2 : s2.clear_control.uvc_frame_format = s2.uvc_frame_format := rfl
    have hint : int_indices s2.clear_control.uvc_frame_format := by
      rw [hinv2, hinv]; intro row hrow
      simp only [List.mem_cons, List.mem_singleton, List.not_mem_nil, or_false] at hrow
      rcases hrow with rfl | rfl <;> simp
    have hhi2 : is_greatest (format_indices s2.clear_control.uvc_frame_format) 2 := by
      rw [hinv2, hinv]; simp [is_greatest, format_indices]
    have hfhi2 : is_greatest (frame_indices s2.clear_control.uvc_frame_format) 1 := by
      rw [hinv2, hinv]; simp [is_greatest, frame_indices]
    have hlookup : uvc_get_frame_format s2.clear_control.uvc_frame_format 2 1 =
        some { r2 with video_format := V4L2_PIX_FMT_YUYV, bFormatIndex := 2, bFrameIndex := 1,
                       wWidth := 1280, wHeight := 720 } := by
      rw [hinv2, hinv]; simp [uvc_get_frame_format, List.find?]
    obtain ⟨blk, h1, h2, h3, h4, h5⟩ := fill_of_indices k s2.clear_control
      .STREAM_CONTROL_MAX 0 0 2 1 _
      (indices_max _ 0 0 2 1 hint hhi2 hfhi2) (by omega) (by omega) hlookup
    rw [setup_streaming k s2 ctrl resp _ _ hsetup, streaming_get_max, h1]
    refine ⟨_, _, rfl, rfl, ?_, ?_, ?_, ?_⟩
    · simp only []; rw [field_bFormatIndex, h2]
    · simp only []; rw [field_bFrameIndex, h3]
    · simp only []; rw [field_dwMaxVideoFrameSize, h4, get_frame_size_yuyv]
      norm_num
    · simp only []; rw [field_dwFrameInterval, h5]
      simp only [ge_iff_le]
      rw [if_neg (by omega)]
      norm_num

/-- Witness of C3 on the inventory MJPEG (1,1), MJPEG (1,2), YUYV (2,1):
whatever is requested, here (7, 9), MIN uses the pair (1, 1) and MAX the pair
(2, 2). -/
theorem fill_streaming_control_extremes_witness :
    streaming_control_indices
      [ { video_format := V4L2_PIX_FMT_MJPEG, bFormatIndex := 1, bFrameIndex := 1,
          wWidth := 640, wHeight := 480 },
        { video_format := V4L2_PIX_FMT_MJPEG, bFormatIndex := 1, bFrameIndex := 2,
          wWidth := 1280, wHeight := 720 },
        { video_format := V4L2_PIX_FMT_YUYV, bFormatIndex := 2, bFrameIndex := 1,
          wWidth := 640, wHeight := 480 } ]
      .STREAM_CONTROL_MIN 7 9 = (1, 1) ∧
    streaming_control_indices
      [ { video_format := V4L2_PIX_FMT_MJPEG, bFormatIndex := 1, bFrameIndex := 1,
          wWidth := 640, wHeight := 480 },
        { video_format := V4L2_PIX_FMT_MJPEG, bFormatIndex := 1, bFrameIndex := 2,
          wWidth := 1280, wHeight := 720 },
        { video_format := V4L2_PIX_FMT_YUYV, bFormatIndex := 2, bFrameIndex := 1,
          wWidth := 640, wHeight := 480 } ]
      .STREAM_CONTROL_MAX 7 9 = (2, 2) :=
  ⟨(fill_streaming_control_extremes { ret := fun _ => 0 }
    { uvc_frame_format :=
        [ { video_format := V4L2_PIX_FMT_MJPEG, bFormatIndex := 1, bFrameIndex := 1,
            wWidth := 640, wHeight := 480 },
          { video_format := V4L2_PIX_FMT_MJPEG, bFormatIndex := 1, bFrameIndex := 2,
            wWidth := 1280, wHeight := 720 },
          { video_format := V4L2_PIX_FMT_YUYV, bFormatIndex := 2, bFrameIndex := 1,
            wWidth := 640, wHeight := 480 } ] }
    7 9 1 2 1 2 (by decide) (by decide) (by decide) (by decide) (by decide)).1,
   (fill_streaming_control_extremes { ret := fun _ => 0 }
    { uvc_frame_format :=
        [ { video_format := V4L2_PIX_FMT_MJPEG, bFormatIndex := 1, bFrameIndex := 1,
            wWidth := 640, wHeight := 480 },
          { video_format := V4L2_PIX_FMT_MJPEG, bFormatIndex := 1, bFrameIndex := 2,
            wWidth := 1280, wHeight := 720 },
          { video_format := V4L2_PIX_FMT_YUYV, bFormatIndex := 2, bFrameIndex := 1,
            wWidth := 640, wHeight := 480 } ] }
    7 9 1 2 1 2 (by decide) (by decide) (by decide) (by decide) (by decide)).2.1⟩

/-- C4: for every action, when the lookup of `uvc_fill_streaming_control`
selects the inventory row `row`, the block written has `bmHint = 1`,
`dwMaxVideoFrameSize` equal to the 32-bit value of `W*H*2` for a YUYV row and
of `W*H` for an MJPEG row (the products themselves when they fit 32 bits),
`dwMaxPayloadTransferSize = streaming_maxpacket`, `bmFramingInfo = 3`,
`bMinVersion` the least and `bMaxVersion = bPreferedVersion` the greatest
format index of the inventory, and zero in every field the builder does not
populate. -/
theorem fill_streaming_control_fields (k : Kernel) (s : Bridge)
    (action : stream_control_action) (iformat iframe : Int) (row : uvc_frame_format)
    (lo hi : Nat)
    (hsel : uvc_get_frame_format s.uvc_frame_format
      (toUnsigned 32 (streaming_control_indices s.uvc_frame_format action iformat iframe).1)
      (toUnsigned 32 (streaming_control_indices s.uvc_frame_format action iformat iframe).2)
        = some row)
    (hbytes : byte_indices s.uvc_frame_format)
    (hlo : is_least (format_indices s.uvc_frame_format) lo)
    (hhi : is_greatest (format_indices s.uvc_frame_format) hi) :
    ∃ blk s1, uvc_fill_streaming_control k s action iformat iframe = some (blk, s1) ∧
      blk.bmHint = 1 ∧
      (row.video_format = V4L2_PIX_FMT_YUYV →
        blk.dwMaxVideoFrameSize = (row.wWidth * row.wHeight * 2) % 2 ^ 32) ∧
      (row.video_format = V4L2_PIX_FMT_MJPEG →
        blk.dwMaxVideoFrameSize = (row.wWidth * row.wHeight) % 2 ^ 32) ∧
      (row.wWidth * row.wHeight * 2 < 2 ^ 32 →
        (row.video_format = V4L2_PIX_FMT_YUYV →
          blk.dwMaxVideoFrameSize = row.wWidth * row.wHeight * 2) ∧
        (row.video_format = V4L2_PIX_FMT_MJPEG →
          blk.dwMaxVideoFrameSize = row.wWidth * row.wHeight)) ∧
      blk.dwMaxPayloadTransferSize = s.streaming_maxpacket ∧
      blk.bmFramingInfo = 3 ∧
      blk.bMinVersion = lo ∧ blk.bMaxVersion = hi ∧ blk.bPreferedVersion = hi ∧
      blk.wKeyFrameRate = 0 ∧ blk.wPFrameRate = 0 ∧ blk.wCompQuality = 0 ∧
      blk.wCompWindowSize = 0 ∧ blk.wDelay = 0 ∧ blk.dwClockFrequency = 0 := by
  have hlo8 : lo < 256 := by
    obtain ⟨r, hr, hr2⟩ := List.mem_map.mp hlo.1
    have := (hbytes r hr).1
    omega
  have hhi8 : hi < 256 := by
    obtain ⟨r, hr, hr2⟩ := List.mem_map.mp hhi.1
    have := (hbytes r hr).1
    omega
  have hy : row.video_format = V4L2_PIX_FMT_YUYV →
      get_frame_size row.video_format row.wWidth row.wHeight =
        (row.wWidth * row.wHeight * 2) % 2 ^ 32 := by
    intro h; rw [h, get_frame_size_yuyv]
  have hm : row.video_format = V4L2_PIX_FMT_MJPEG →
      get_frame_size row.video_format row.wWidth row.wHeight =
        (row.wWidth * row.wHeight) % 2 ^ 32 := by
    intro h; rw [h, get_frame_size_mjpeg]
  refine ⟨_, _, fill_spec k s action iformat iframe row hsel, rfl, hy, hm, ?_, rfl, rfl, ?_, ?_,
    ?_, rfl, rfl, rfl, rfl, rfl, rfl⟩
  · intro hfit
    refine ⟨fun h => ?_, fun h => ?_⟩
    · show get_frame_size row.video_format row.wWidth row.wHeight = _
      rw [hy h, Nat.mod_eq_of_lt hfit]
    · show get_frame_size row.video_format row.wWidth row.wHeight = _
      rw [hm h, Nat.mod_eq_of_lt (by omega)]
  · show toUnsigned 8 _ = lo
    rw [format_first_eq _ hbytes.int lo hlo]
    exact toUnsigned_natCast (by omega)
  · show toUnsigned 8 _ = hi
    rw [format_last_eq _ hbytes.int hi hhi]
    exact toUnsigned_natCast (by omega)
  · show toUnsigned 8 _ = hi
    rw [format_last_eq _ hbytes.int hi hhi]
    exact toUnsigned_natCast (by omega)

/-- Witness of C4 on the inventory MJPEG (1,1) 640x480, YUYV (2,1) 1280x720
for the request SET (2, 1). -/
theorem fill_streaming_control_fields_witness :
    ∃ blk s1, uvc_fill_streaming_control { ret := fun _ => 0 }
        { uvc_frame_format :=
            [ { video_format := V4L2_PIX_FMT_MJPEG, bFormatIndex := 1, bFrameIndex := 1,
                wWidth := 640, wHeight := 480 },
              { video_format := V4L2_PIX_FMT_YUYV, bFormatIndex := 2, bFrameIndex := 1,
                wWidth := 1280, wHeight := 720 } ] }
        .STREAM_CONTROL_SET 2 1 = some (blk, s1) ∧
      blk.bmHint = 1 ∧ blk.dwMaxVideoFrameSize = 1280 * 720 * 2 ∧
      blk.dwMaxPayloadTransferSize = 1023 ∧ blk.bmFramingInfo = 3 ∧
      blk.bMinVersion = 1 ∧ blk.bMaxVersion = 2 ∧ blk.bPreferedVersion = 2 := by
  obtain ⟨blk, s1, h, h1, -, -, h4, h5, h6, h7, h8, h9, -⟩ :=
    fill_streaming_control_fields { ret := fun _ => 0 }
      { uvc_frame_format :=
          [ { video_format := V4L2_PIX_FMT_MJPEG, bFormatIndex := 1, bFrameIndex := 1,
              wWidth := 640, wHeight := 480 },
            { video_format := V4L2_PIX_FMT_YUYV, bFormatIndex := 2, bFrameIndex := 1,
              wWidth := 1280, wHeight := 720 } ] }
      .STREAM_CONTROL_SET 2 1
      { video_format := V4L2_PIX_FMT_YUYV, bFormatIndex := 2, bFrameIndex := 1,
        wWidth := 1280, wHeight := 720 }
      1 2 (by decide) (by decide) (by decide) (by decide)
  exact ⟨blk, s1, h, h1, (h4 (by decide)).1 rfl, h5, h6, h7, h8, h9⟩

/-- C5: when the lookup of `uvc_fill_streaming_control` selects the inventory
row `row`, the block's `dwFrameInterval` is the row's
`dwDefaultFrameInterval` if that is at least 100000, and 400000 otherwise. -/
theorem fill_streaming_control_interval (k : Kernel) (s : Bridge)
    (action : stream_control_action) (iformat iframe : Int) (row : uvc_frame_format)
    (hsel : uvc_get_frame_format s.uvc_frame_format
      (toUnsigned 32 (streaming_control_indices s.uvc_frame_format action iformat iframe).1)
      (toUnsigned 32 (streaming_control_indices s.uvc_frame_format action iformat iframe).2)
        = some row) :
    ∃ blk s1, uvc_fill_streaming_control k s action iformat iframe = some (blk, s1) ∧
      (100000 ≤ row.dwDefaultFrameInterval →
        blk.dwFrameInterval = row.dwDefaultFrameInterval) ∧
      (row.dwDefaultFrameInterval < 100000 → blk.dwFrameInterval = 400000) := by
  refine ⟨_, _, fill_spec k s action iformat iframe row hsel, ?_, ?_⟩
  · intro h
    show (if row.dwDefaultFrameInterval ≥ 100000 then row.dwDefaultFrameInterval else 400000) = _
    rw [if_pos h]
  · intro h
    show (if row.dwDefaultFrameInterval ≥ 100000 then row.dwDefaultFrameInterval else 400000) = _
    rw [if_neg (by omega)]

/-- Witness of C5: a row with default interval 333333 keeps it. -/
theorem fill_streaming_control_interval_witness :
    ∃ blk s1, uvc_fill_streaming_control { ret := fun _ => 0 }
        { uvc_frame_format :=
            [ { video_format := V4L2_PIX_FMT_MJPEG, bFormatIndex := 1, bFrameIndex := 1,
                wWidth := 640, wHeight := 480, dwDefaultFrameInterval := 333333 } ] }
        .STREAM_CONTROL_INIT 0 0 = some (blk, s1) ∧
      blk.dwFrameInterval = 333333 := by
  obtain ⟨blk, s1, h, h1, -⟩ :=
    fill_streaming_control_interval { ret := fun _ => 0 }
      { uvc_frame_format :=
          [ { video_format := V4L2_PIX_FMT_MJPEG, bFormatIndex := 1, bFrameIndex := 1,
              wWidth := 640, wHeight := 480, dwDefaultFrameInterval := 333333 } ] }
      .STREAM_CONTROL_INIT 0 0
      { video_format := V4L2_PIX_FMT_MJPEG, bFormatIndex := 1, bFrameIndex := 1,
        wWidth := 640, wHeight := 480, dwDefaultFrameInterval := 333333 }
      (by decide)
  exact ⟨blk, s1, h, h1 (by decide)⟩

theorem indices_of_row (inv : List uvc_frame_format) (action : stream_control_action)
    (row : uvc_frame_format) (hrow : row ∈ inv) (hint : int_indices inv)
    (hmin : action ≠ .STREAM_CONTROL_MIN) (hmax : action ≠ .STREAM_CONTROL_MAX) :
    streaming_control_indices inv action (row.bFormatIndex : Int) (row.bFrameIndex : Int) =
      ((row.bFormatIndex : Int), (row.bFrameIndex : Int)) := by
  have hmemf : row.bFormatIndex ∈ format_indices inv := List.mem_map.mpr ⟨row, hrow, rfl⟩
  have hmemr : row.bFrameIndex ∈ frame_indices_of inv row.bFormatIndex :=
    List.mem_map.mpr ⟨row, List.mem_filter.mpr ⟨hrow, by simp⟩, rfl⟩
  obtain ⟨lo, hlo⟩ := exists_least _ (List.ne_nil_of_mem hmemf)
  obtain ⟨hi, hhi⟩ := exists_greatest _ (List.ne_nil_of_mem hmemf)
  obtain ⟨flo, hflo⟩ := exists_least _ (List.ne_nil_of_mem hmemr)
  obtain ⟨fhi, hfhi⟩ := exists_greatest _ (List.ne_nil_of_mem hmemr)
  have h1 := hlo.2 _ hmemf
  have h2 := hhi.2 _ hmemf
  have h3 := hflo.2 _ hmemr
  have h4 := hfhi.2 _ hmemr
  rw [indices_clamped inv action _ _ lo hi flo fhi row.bFormatIndex hmin hmax hint hlo hhi
    (by omega) hflo hfhi]
  congr 1
  omega

theorem streaming_set_cur (k : Kernel) (s : Bridge) (resp : uvc_request_data) (cs : Nat)
    (hcs : cs = UVC_VS_PROBE_CONTROL ∨ cs = UVC_VS_COMMIT_CONTROL) :
    uvc_events_process_streaming k s UVC_SET_CUR cs resp =
      some ({ s with udev := { s.udev with control := cs } },
        { resp with length := ctrl_length }) := by
  unfold uvc_events_process_streaming
  rw [if_neg (by rcases hcs with h | h <;> simp [h]), if_pos rfl]

theorem streaming_get_cur_probe (k : Kernel) (s : Bridge) (resp : uvc_request_data) :
    uvc_events_process_streaming k s UVC_GET_CUR UVC_VS_PROBE_CONTROL resp =
      some (s, { length := ctrl_length, data := write_bytes resp.data s.udev.probe.bytes }) := by
  unfold uvc_events_process_streaming
  rw [if_neg (by decide), if_neg (by decide), if_neg (by decide), if_pos rfl]
  simp

theorem byte_lt (d : uvc_request_data) (i : Nat) : d.byte i < 256 :=
  Nat.mod_lt _ (by decide)

/-- C1: for every inventory of `int`-sized indices and every payload whose
format and frame index bytes name an inventory row (the first row with these
indices being `row`), SET_CUR on Probe, the DATA stage with that payload and
GET_CUR on Probe all return, and the reply is a block of 34 bytes whose
`bFormatIndex` and `bFrameIndex` are the payload's and whose
`dwMaxVideoFrameSize` is the 32-bit value of `W*H*2` for a YUYV row and of
`W*H` for an MJPEG row (the products themselves when they fit 32 bits). -/
theorem probe_round_trip (k : Kernel) (s : Bridge) (set_cur get_cur : usb_ctrlrequest)
    (resp0 resp1 data : uvc_request_data) (pre post : List uvc_frame_format)
    (row : uvc_frame_format)
    (hinv : s.uvc_frame_format = pre ++ row :: post)
    (hfirst : ∀ x ∈ pre, ¬ (x.bFormatIndex = data.byte 2 ∧ x.bFrameIndex = data.byte 3))
    (hf : row.bFormatIndex = data.byte 2) (hr : row.bFrameIndex = data.byte 3)
    (hint : int_indices s.uvc_frame_format)
    (hset : streaming_setup set_cur UVC_SET_CUR UVC_VS_PROBE_CONTROL)
    (hget : streaming_setup get_cur UVC_GET_CUR UVC_VS_PROBE_CONTROL) :
    ∃ s1 reply1 s2 s3 reply,
      uvc_events_process_setup k s set_cur resp0 = some (s1, reply1) ∧
      uvc_events_process_data k s1 data = some s2 ∧
      uvc_events_process_setup k s2 get_cur resp1 = some (s3, reply) ∧
      reply.length = 34 ∧
      le_field reply.data 2 1 = data.byte 2 ∧ le_field reply.data 3 1 = data.byte 3 ∧
      (row.video_format = V4L2_PIX_FMT_YUYV →
        le_field reply.data 18 4 = (row.wWidth * row.wHeight * 2) % 2 ^ 32) ∧
      (row.video_format = V4L2_PIX_FMT_MJPEG →
        le_field reply.data 18 4 = (row.wWidth * row.wHeight) % 2 ^ 32) ∧
      (row.wWidth * row.wHeight * 2 < 2 ^ 32 →
        (row.video_format = V4L2_PIX_FMT_YUYV →
          le_field reply.data 18 4 = row.wWidth * row.wHeight * 2) ∧
        (row.video_format = V4L2_PIX_FMT_MJPEG →
          le_field reply.data 18 4 = row.wWidth * row.wHeight)) := by
  have hrow : row ∈ s.uvc_frame_format := by rw [hinv]; simp
  have hb2 := byte_lt data 2
  have hb3 := byte_lt data 3
  -- the state after SET_CUR
  let s1 : Bridge :=
    { s.clear_control with udev := { s.clear_control.udev with control := UVC_VS_PROBE_CONTROL } }
  have hs1 : uvc_events_process_setup k s set_cur resp0 =
      some (s1, { resp0 with length := ctrl_length }) := by
    rw [setup_streaming k s set_cur resp0 _ _ hset, streaming_set_cur k _ resp0 _ (Or.inl rfl)]
  have hinv1 : s1.uvc_frame_format = s.uvc_frame_format := rfl
  -- the builder in the DATA stage
  have hidx : streaming_control_indices s1.uvc_frame_format .STREAM_CONTROL_SET
      ((data.byte 2 : Nat) : Int) ((data.byte 3 : Nat) : Int) =
        (((data.byte 2 : Nat) : Int), ((data.byte 3 : Nat) : Int)) := by
    have := indices_of_row s.uvc_frame_format .STREAM_CONTROL_SET row hrow hint
      (by decide) (by decide)
    rw [hf, hr] at this
    exact this
  have hlookup : uvc_get_frame_format s1.uvc_frame_format (data.byte 2) (data.byte 3) =
      some row := by
    rw [hinv1, hinv]
    exact lookup_first pre post row _ _ hfirst hf hr
  obtain ⟨blk, hfill, hbf, hbr, hsize, -⟩ := fill_of_indices k s1 .STREAM_CONTROL_SET
    _ _ (data.byte 2) (data.byte 3) row hidx hb2 hb3 hlookup
  have hctl : ¬ (s1.udev.control = UVC_VS_COMMIT_CONTROL ∧
      stream_control_action.STREAM_CONTROL_SET = stream_control_action.STREAM_CONTROL_SET) := by
    intro h
    have h1 : UVC_VS_PROBE_CONTROL = UVC_VS_COMMIT_CONTROL := h.1
    exact absurd h1 (by decide)
  rw [if_neg hctl] at hfill
  let s2 : Bridge := { s1 with udev := { s1.udev with probe := blk } }
  have hs2 : uvc_events_process_data k s1 data = some s2 := by
    unfold uvc_events_process_data
    rw [if_pos rfl]
    unfold uvc_events_process_data_control
    rw [hfill]
  have hs3 : uvc_events_process_setup k s2 get_cur resp1 =
      some (s2.clear_control,
        { length := ctrl_length, data := write_bytes resp1.data blk.bytes }) := by
    rw [setup_streaming k s2 get_cur resp1 _ _ hget, streaming_get_cur_probe]
    rfl
  have hsz : le_field (write_bytes resp1.data blk.bytes) 18 4 =
      get_frame_size row.video_format row.wWidth row.wHeight := by
    rw [field_dwMaxVideoFrameSize, hsize]
    unfold get_frame_size
    split_ifs <;> exact Nat.mod_mod _ _
  refine ⟨s1, _, s2, _, _, hs1, hs2, hs3, rfl, ?_, ?_, ?_, ?_, ?_⟩
  · show le_field (write_bytes resp1.data blk.bytes) 2 1 = _
    rw [field_bFormatIndex, hbf]
    exact Nat.mod_eq_of_lt hb2
  · show le_field (write_bytes resp1.data blk.bytes) 3 1 = _
    rw [field_bFrameIndex, hbr]
    exact Nat.mod_eq_of_lt hb3
  · intro h
    show le_field (write_bytes resp1.data blk.bytes) 18 4 = _
    rw [hsz, h, get_frame_size_yuyv]
  · intro h
    show le_field (write_bytes resp1.data blk.bytes) 18 4 = _
    rw [hsz, h, get_frame_size_mjpeg]
  · intro hfit
    refine ⟨fun h => ?_, fun h => ?_⟩
    · show le_field (write_bytes resp1.data blk.bytes) 18 4 = _
      rw [hsz, h, get_frame_size_yuyv, Nat.mod_eq_of_lt hfit]
    · show le_field (write_bytes resp1.data blk.bytes) 18 4 = _
      rw [hsz, h, get_frame_size_mjpeg, Nat.mod_eq_of_lt (by omega)]

/-- Witness of C1 on the sample inventory: the payload (2, 1) comes back with
the frame size of YUYV 1280x720. -/
theorem probe_round_trip_witness :
    ∃ s1 reply1 s2 s3 reply,
      uvc_events_process_setup sample_kernel sample_state
        (sample_setup UVC_INTF_STREAMING 0 UVC_SET_CUR UVC_VS_PROBE_CONTROL 34) {}
          = some (s1, reply1) ∧
      uvc_events_process_data sample_kernel s1 (sample_payload 2 1) = some s2 ∧
      uvc_events_process_setup sample_kernel s2
        (sample_setup UVC_INTF_STREAMING 0 UVC_GET_CUR UVC_VS_PROBE_CONTROL 34) {}
          = some (s3, reply) ∧
      reply.length = 34 ∧ le_field reply.data 2 1 = 2 ∧ le_field reply.data 3 1 = 1 ∧
      le_field reply.data 18 4 = 1843200 := by
  obtain ⟨s1, reply1, s2, s3, reply, h1, h2, h3, h4, h5, h6, -, -, h9⟩ :=
    probe_round_trip sample_kernel sample_state
      (sample_setup UVC_INTF_STREAMING 0 UVC_SET_CUR UVC_VS_PROBE_CONTROL 34)
      (sample_setup UVC_INTF_STREAMING 0 UVC_GET_CUR UVC_VS_PROBE_CONTROL 34)
      {} {} (sample_payload 2 1)
      [ { defined := true, video_format := V4L2_PIX_FMT_MJPEG, bFormatIndex := 1,
          bFrameIndex := 1, wWidth := 640, wHeight := 480 } ]
      []
      { defined := true, video_format := V4L2_PIX_FMT_YUYV, bFormatIndex := 2, bFrameIndex := 1,
        wWidth := 1280, wHeight := 720 }
      rfl (by decide) (by decide) (by decide) (by decide) (by decide) (by decide)
  exact ⟨s1, reply1, s2, s3, reply, h1, h2, h3, h4, h5, h6, (h9 (by decide)).1 rfl⟩

theorem setup_control (k : Kernel) (s : Bridge) (ctrl : usb_ctrlrequest)
    (resp : uvc_request_data) (entity req cs : Nat) (hentity : entity = 1 ∨ entity = 2)
    (h : control_setup ctrl entity req cs) :
    uvc_events_process_setup k s ctrl resp =
      some (uvc_interface_control (entity_kind entity) s.clear_control req cs ctrl.length
        resp) := by
  obtain ⟨⟨h1, h2⟩, h3, h4, h5, h6⟩ := h
  unfold uvc_events_process_setup uvc_events_process_class
  simp only [h1, h2, h3, h4, h5, h6, if_true, ne_eq, not_true_eq_false, if_false,
    Bridge.clear_control]
  rcases hentity with rfl | rfl
  · rw [if_neg (by decide), if_pos rfl]; rfl
  · rw [if_neg (by decide), if_neg (by decide), if_pos rfl]; rfl

theorem setup_error_code (k : Kernel) (s : Bridge) (ctrl : usb_ctrlrequest)
    (resp : uvc_request_data) (req : Nat)
    (h : control_setup ctrl 0 req UVC_VC_REQUEST_ERROR_CODE_CONTROL) :
    uvc_events_process_setup k s ctrl resp =
      some (s.clear_control,
        { length := 1, data := write_bytes resp.data [s.udev.request_error_code % 256] }) := by
  obtain ⟨⟨h1, h2⟩, h3, h4, h5, h6⟩ := h
  unfold uvc_events_process_setup uvc_events_process_class
  simp only [h1, h2, h3, h4, h5, h6, if_true, ne_eq, not_true_eq_false, if_false,
    Bridge.clear_control]

theorem find_no_row (mapping : List control_mapping_pair) (kind cs : Nat)
    (h : no_row mapping kind cs) :
    mapping.find? (fun m => decide (m.type = kind ∧ m.uvc = cs)) = none := by
  apply List.find?_eq_none.mpr
  intro x hx
  simpa using h x hx

theorem find_first_row (mapping : List control_mapping_pair) (kind cs : Nat)
    (m : control_mapping_pair) (h : first_row mapping kind cs m) :
    mapping.find? (fun m => decide (m.type = kind ∧ m.uvc = cs)) = some m := by
  obtain ⟨pre, post, rfl, hpre, h1, h2⟩ := h
  induction pre with
  | nil => simp [List.find?, h1, h2]
  | cons x rest ih =>
    have hx := hpre x (List.mem_cons_self _ _)
    rw [List.cons_append, List.find?_cons_of_neg _ (by simpa using hx)]
    exact ih (fun y hy => hpre y (List.mem_cons_of_mem _ hy))

theorem interface_control_no_row (kind : Nat) (s : Bridge) (req cs len : Nat)
    (resp : uvc_request_data) (h : no_row s.control_mapping kind cs) :
    uvc_interface_control kind s req cs len resp =
      ({ s with udev := { s.udev with request_error_code := REQEC_INVALID_CONTROL } },
       { resp with length := -EL2HLT }) := by
  unfold uvc_interface_control
  simp only [find_no_row _ _ _ h]

theorem interface_control_disabled (kind : Nat) (s : Bridge) (req cs len : Nat)
    (resp : uvc_request_data) (m : control_mapping_pair)
    (h : first_row s.control_mapping kind cs m) (hm : m.enabled = false) :
    uvc_interface_control kind s req cs len resp =
      ({ s with udev := { s.udev with request_error_code := REQEC_INVALID_CONTROL } },
       { resp with length := -EL2HLT }) := by
  unfold uvc_interface_control
  simp only [find_first_row _ _ _ _ h, hm, Bool.not_false, if_true]

theorem interface_control_enabled (kind : Nat) (s : Bridge) (req cs len : Nat)
    (resp : uvc_request_data) (m : control_mapping_pair)
    (h : first_row s.control_mapping kind cs m) (hm : m.enabled = true) :
    uvc_interface_control kind s req cs len resp =
      if req = UVC_SET_CUR then
        ({ s with udev := { s.udev with
              control_interface := kind
              control_type := cs
              request_error_code := REQEC_NO_ERROR } },
         { length := len, data := write_bytes resp.data [0x0] })
      else if req = UVC_GET_MIN then
        ({ s with udev := { s.udev with request_error_code := REQEC_NO_ERROR } },
         { length := 4, data := write_bytes resp.data (le_bytes m.minimum 4) })
      else if req = UVC_GET_MAX then
        ({ s with udev := { s.udev with request_error_code := REQEC_NO_ERROR } },
         { length := 4, data := write_bytes resp.data (le_bytes m.maximum 4) })
      else if req = UVC_GET_CUR then
        ({ s with udev := { s.udev with request_error_code := REQEC_NO_ERROR } },
         { length := 4, data := write_bytes resp.data (le_bytes m.value 4) })
      else if req = UVC_GET_INFO then
        ({ s with udev := { s.udev with request_error_code := REQEC_NO_ERROR } },
         { length := 1,
           data := write_bytes resp.data [(UVC_CONTROL_CAP_GET ||| UVC_CONTROL_CAP_SET) % 256] })
      else if req = UVC_GET_DEF then
        ({ s with udev := { s.udev with request_error_code := REQEC_NO_ERROR } },
         { length := 4, data := write_bytes resp.data (le_bytes m.default_value 4) })
      else if req = UVC_GET_RES then
        ({ s with udev := { s.udev with request_error_code := REQEC_NO_ERROR } },
         { length := 4, data := write_bytes resp.data (le_bytes m.step 4) })
      else
        ({ s with udev := { s.udev with request_error_code := REQEC_INVALID_REQUEST } },
         { resp with length := -EL2HLT }) := by
  unfold uvc_interface_control
  simp only [find_first_row _ _ _ _ h, hm, Bool.not_true, Bool.false_eq_true, if_false]

theorem le_field_four (data : List Nat) (n : Nat) :
    le_field (write_bytes data (le_bytes n 4)) 0 4 = n % 2 ^ 32 := by
  rw [le_bytes_four]
  simp only [le_field, write_bytes, List.cons_append, List.drop_zero,
    List.take_succ_cons, List.take_zero, le_value, Nat.mul_zero, Nat.add_zero]
  omega

theorem le_field_one (data : List Nat) (b : Nat) :
    le_field (write_bytes data [b]) 0 1 = b := by
  simp only [le_field, write_bytes, List.cons_append, List.drop_zero,
    List.take_succ_cons, List.take_zero, le_value, Nat.mul_zero, Nat.add_zero]

theorem streaming_get_len (k : Kernel) (s : Bridge) (resp : uvc_request_data) (cs : Nat)
    (hcs : cs = UVC_VS_PROBE_CONTROL ∨ cs = UVC_VS_COMMIT_CONTROL) :
    uvc_events_process_streaming k s UVC_GET_LEN cs resp =
      some (s, { length := 2, data := write_bytes resp.data [0x00, ctrl_length % 256] }) := by
  unfold uvc_events_process_streaming
  rw [if_neg (by rcases hcs with h | h <;> simp [h]), if_neg (by decide), if_neg (by decide),
    if_neg (by decide), if_neg (by decide), if_neg (by decide), if_pos rfl]

/-- C6, the behaviour of the code: a streaming GET_LEN on Probe or Commit
replies 2 bytes, `00` then `22` (34, the block length), so their
little-endian 16-bit value is 8704 and not the block length 34 that SET_CUR
and GET_CUR report. -/
theorem get_len_reply_byte_order (k : Kernel) (s : Bridge) (ctrl : usb_ctrlrequest)
    (resp : uvc_request_data) (cs : Nat)
    (hcs : cs = UVC_VS_PROBE_CONTROL ∨ cs = UVC_VS_COMMIT_CONTROL)
    (hsetup : streaming_setup ctrl UVC_GET_LEN cs) :
    ∃ s1 reply, uvc_events_process_setup k s ctrl resp = some (s1, reply) ∧
      reply.length = 2 ∧ reply.data.take 2 = [0, 34] ∧ le_field reply.data 0 2 = 8704 ∧
      le_field reply.data 0 2 ≠ ctrl_length := by
  rw [setup_streaming k s ctrl resp _ _ hsetup, streaming_get_len k _ resp cs hcs]
  refine ⟨_, _, rfl, rfl, rfl, rfl, ?_⟩
  show (8704 : Nat) ≠ 34
  decide

/-- Witness of C6: GET_LEN on Probe in the sample state. -/
theorem get_len_reply_byte_order_witness :
    ∃ s1 reply,
      uvc_events_process_setup sample_kernel sample_state
        (sample_setup UVC_INTF_STREAMING 0 UVC_GET_LEN UVC_VS_PROBE_CONTROL 2) {}
          = some (s1, reply) ∧
      reply.length = 2 ∧ reply.data.take 2 = [0, 34] ∧ le_field reply.data 0 2 = 8704 ∧
      le_field reply.data 0 2 ≠ ctrl_length :=
  get_len_reply_byte_order sample_kernel sample_state
    (sample_setup UVC_INTF_STREAMING 0 UVC_GET_LEN UVC_VS_PROBE_CONTROL 2) {}
    UVC_VS_PROBE_CONTROL (Or.inl rfl) (by decide)

/-- C7 as stated fails: on a selector without a mapping row the reply length
is `-EL2HLT = -51`, not `-ENOTSUP = -95`. -/
theorem rejected_control_length_counterexample :
    ∃ s1 reply,
      uvc_events_process_setup sample_kernel sample_state
        (sample_setup UVC_INTF_CONTROL 2 UVC_GET_CUR 9 4) {} = some (s1, reply) ∧
      no_row sample_state.control_mapping (entity_kind 2) 9 ∧
      reply.length = -51 ∧ reply.length ≠ -ENOTSUP := by
  refine ⟨_, _, rfl, by decide, by decide, by decide⟩

/-- C7, amended: for a video-control SETUP on entity 1 or 2 with any request
code, if no mapping row has that interface kind and selector, or the first
such row is disabled, the reply length is `-EL2HLT`, `request_error_code`
becomes INVALID_CONTROL, and the mapping rows and the remembered
(interface, selector) target are unchanged. -/
theorem rejected_control (k : Kernel) (s : Bridge) (ctrl : usb_ctrlrequest)
    (resp : uvc_request_data) (entity req cs : Nat) (hentity : entity = 1 ∨ entity = 2)
    (hsetup : control_setup ctrl entity req cs)
    (hrow : no_row s.control_mapping (entity_kind entity) cs ∨
      ∃ m, first_row s.control_mapping (entity_kind entity) cs m ∧ m.enabled = false) :
    ∃ s1 reply, uvc_events_process_setup k s ctrl resp = some (s1, reply) ∧
      reply.length = -EL2HLT ∧
      s1.udev.request_error_code = REQEC_INVALID_CONTROL ∧
      s1.control_mapping = s.control_mapping ∧
      s1.udev.control_interface = s.udev.control_interface ∧
      s1.udev.control_type = s.udev.control_type := by
  rw [setup_control k s ctrl resp entity req cs hentity hsetup]
  rcases hrow with h | ⟨m, h, hm⟩
  · rw [interface_control_no_row _ s.clear_control _ _ _ _ h]
    exact ⟨_, _, rfl, rfl, rfl, rfl, rfl, rfl⟩
  · rw [interface_control_disabled _ s.clear_control _ _ _ _ m h hm]
    exact ⟨_, _, rfl, rfl, rfl, rfl, rfl, rfl⟩

/-- Witness of C7: GET_CUR on the disabled contrast row of the sample mapping. -/
theorem rejected_control_witness :
    ∃ s1 reply,
      uvc_events_process_setup sample_kernel sample_state
        (sample_setup UVC_INTF_CONTROL 2 UVC_GET_CUR 3 4) {} = some (s1, reply) ∧
      reply.length = -EL2HLT ∧
      s1.udev.request_error_code = REQEC_INVALID_CONTROL ∧
      s1.control_mapping = sample_state.control_mapping ∧
      s1.udev.control_interface = sample_state.udev.control_interface ∧
      s1.udev.control_type = sample_state.udev.control_type :=
  rejected_control sample_kernel sample_state
    (sample_setup UVC_INTF_CONTROL 2 UVC_GET_CUR 3 4) {} 2 UVC_GET_CUR 3 (Or.inr rfl)
    (by decide)
    (Or.inr ⟨{ type := UVC_VC_PROCESSING_UNIT, uvc := 3, v4l2 := 0x00980901, enabled := false },
      ⟨[{ type := UVC_VC_PROCESSING_UNIT, uvc := 2, v4l2 := 0x00980900, enabled := true,
          value := 150, length := 2, minimum := 0, maximum := 200, step := 1,
          default_value := 100, v4l2_minimum := -100, v4l2_maximum := 100 }], [], rfl,
        by decide, rfl, rfl⟩, rfl⟩)

/-- C9: after every video-control SETUP on entity 1 or 2, a SETUP GET_CUR on
entity 0 with selector REQUEST_ERROR_CODE_CONTROL replies exactly 1 byte, the
code of the first request's outcome: INVALID_CONTROL when the selector has no
mapping row or its first row is disabled, INVALID_REQUEST for a request that
is not served on an enabled row, NO_ERROR for a served request; and the read
leaves `request_error_code` as it was. -/
theorem error_code_read_back (k : Kernel) (s : Bridge) (ctrl read : usb_ctrlrequest)
    (resp0 resp1 : uvc_request_data) (entity req cs : Nat)
    (hentity : entity = 1 ∨ entity = 2)
    (hsetup : control_setup ctrl entity req cs)
    (hread : control_setup read 0 UVC_GET_CUR UVC_VC_REQUEST_ERROR_CODE_CONTROL) :
    ∃ s1 reply1 s2 reply,
      uvc_events_process_setup k s ctrl resp0 = some (s1, reply1) ∧
      uvc_events_process_setup k s1 read resp1 = some (s2, reply) ∧
      reply.length = 1 ∧
      s2.udev.request_error_code = s1.udev.request_error_code ∧
      ((no_row s.control_mapping (entity_kind entity) cs ∨
          ∃ m, first_row s.control_mapping (entity_kind entity) cs m ∧ m.enabled = false) →
        le_field reply.data 0 1 = REQEC_INVALID_CONTROL) ∧
      ((∃ m, first_row s.control_mapping (entity_kind entity) cs m ∧ m.enabled = true) →
        ¬ served_request req → le_field reply.data 0 1 = REQEC_INVALID_REQUEST) ∧
      ((∃ m, first_row s.control_mapping (entity_kind entity) cs m ∧ m.enabled = true) →
        served_request req → le_field reply.data 0 1 = REQEC_NO_ERROR) := by
  rw [setup_control k s ctrl resp0 entity req cs hentity hsetup]
  generalize hP : uvc_interface_control (entity_kind entity) s.clear_control req cs
    ctrl.length resp0 = P
  refine ⟨P.1, P.2, P.1.clear_control,
    { length := 1, data := write_bytes resp1.data [P.1.udev.request_error_code % 256] },
    rfl, setup_error_code k _ read resp1 _ hread, rfl, rfl, ?_, ?_, ?_⟩
  · intro hrow
    rw [le_field_one]
    rcases hrow with h | ⟨m, h, hm⟩
    · rw [← hP, interface_control_no_row _ s.clear_control _ _ _ _ h]
      rfl
    · rw [← hP, interface_control_disabled _ s.clear_control _ _ _ _ m h hm]
      rfl
  · rintro ⟨m, h, hm⟩ hreq
    unfold served_request at hreq
    simp only [not_or] at hreq
    obtain ⟨h1, h2, h3, h4, h5, h6, h7⟩ := hreq
    rw [le_field_one, ← hP, interface_control_enabled _ s.clear_control _ _ _ _ m h hm,
      if_neg h1, if_neg h2, if_neg h3, if_neg h4, if_neg h5, if_neg h6, if_neg h7]
    rfl
  · rintro ⟨m, h, hm⟩ hreq
    rw [le_field_one, ← hP, interface_control_enabled _ s.clear_control _ _ _ _ m h hm]
    unfold served_request at hreq
    split_ifs with h1 h2 h3 h4 h5 h6 h7
    · rfl
    · rfl
    · rfl
    · rfl
    · rfl
    · rfl
    · rfl
    · exfalso
      rcases hreq with h | h | h | h | h | h | h <;> contradiction

/-- Witness of C9: an unsupported request `0x99` on the enabled brightness row
of the sample mapping reads back as INVALID_REQUEST. -/
theorem error_code_read_back_witness :
    ∃ s1 reply1 s2 reply,
      uvc_events_process_setup sample_kernel sample_state
        (sample_setup UVC_INTF_CONTROL 2 0x99 2 4) {} = some (s1, reply1) ∧
      uvc_events_process_setup sample_kernel s1
        (sample_setup UVC_INTF_CONTROL 0 UVC_GET_CUR UVC_VC_REQUEST_ERROR_CODE_CONTROL 1) {}
          = some (s2, reply) ∧
      reply.length = 1 ∧ s2.udev.request_error_code = s1.udev.request_error_code ∧
      le_field reply.data 0 1 = REQEC_INVALID_REQUEST := by
  obtain ⟨s1, reply1, s2, reply, h1, h2, h3, h4, -, h6, -⟩ :=
    error_code_read_back sample_kernel sample_state
      (sample_setup UVC_INTF_CONTROL 2 0x99 2 4)
      (sample_setup UVC_INTF_CONTROL 0 UVC_GET_CUR UVC_VC_REQUEST_ERROR_CODE_CONTROL 1)
      {} {} 2 0x99 2 (Or.inr rfl) (by decide) (by decide)
  refine ⟨s1, reply1, s2, reply, h1, h2, h3, h4, h6 ?_ (by decide)⟩
  exact
    ⟨{ type := UVC_VC_PROCESSING_UNIT, uvc := 2, v4l2 := 0x00980900, enabled := true,
       value := 150, length := 2, minimum := 0, maximum := 200, step := 1,
       default_value := 100, v4l2_minimum := -100, v4l2_maximum := 100 },
     ⟨[], [{ type := UVC_VC_PROCESSING_UNIT, uvc := 3, v4l2 := 0x00980901,
             enabled := false }], rfl, by simp, rfl, rfl⟩, rfl⟩

theorem apply_format_calls (k : Kernel) (s : Bridge) (dev : device_type) (p w h : Nat) :
    (v4l2_apply_format k s dev p w h).2 =
      { s with calls := s.calls ++
          (Call.v4l2_apply_format dev p w h ::
            format_ioctls k (s.dev dev).is_streaming dev p w h) } := by
  unfold v4l2_apply_format format_ioctls
  have hdev : ({ s with calls := s.calls ++ [Call.v4l2_apply_format dev p w h] } : Bridge).dev dev
      = s.dev dev := by cases dev <;> rfl
  simp only [hdev]
  cases hs : (s.dev dev).is_streaming
  · simp only [Bool.false_eq_true, if_false]
    by_cases h1 : k.ret (Ioctl.VIDIOC_S_FMT dev p w h (get_frame_size p w h)) < 0
    · simp [h1]
    · simp only [h1, if_false]
      split_ifs <;> simp
  · simp

theorem commit_side_effect_calls (k : Kernel) (s : Bridge) (row : uvc_frame_format) :
    commit_side_effect k s row =
      { s with calls := s.calls ++
          (Call.v4l2_apply_format .DEVICE_TYPE_V4L2 row.video_format row.wWidth row.wHeight ::
            format_ioctls k s.vdev.is_streaming .DEVICE_TYPE_V4L2 row.video_format row.wWidth
              row.wHeight) ++
          (Call.v4l2_apply_format .DEVICE_TYPE_UVC row.video_format row.wWidth row.wHeight ::
            format_ioctls k s.udev.is_streaming .DEVICE_TYPE_UVC row.video_format row.wWidth
              row.wHeight) } := by
  unfold commit_side_effect
  rw [apply_format_calls, apply_format_calls]
  rfl

/-- C10: SET_CUR on Commit followed by a DATA stage whose indices select the
inventory row `row` calls `v4l2_apply_format` with exactly the row's pixel
format, width and height on the V4L2 capture endpoint first and on the UVC
output endpoint second (each call sends `VIDIOC_S_FMT` with these values
unless its endpoint is streaming) and leaves `commit.bFormatIndex` and
`commit.bFrameIndex` equal to the selected indices; the same sequence on
Probe adds no call and leaves the commit block unchanged. -/
theorem commit_applies_format (k : Kernel) (s : Bridge) (set_commit set_probe : usb_ctrlrequest)
    (resp0 data : uvc_request_data) (pre post : List uvc_frame_format)
    (row : uvc_frame_format)
    (hinv : s.uvc_frame_format = pre ++ row :: post)
    (hfirst : ∀ x ∈ pre, ¬ (x.bFormatIndex = data.byte 2 ∧ x.bFrameIndex = data.byte 3))
    (hf : row.bFormatIndex = data.byte 2) (hr : row.bFrameIndex = data.byte 3)
    (hint : int_indices s.uvc_frame_format)
    (hcommit : streaming_setup set_commit UVC_SET_CUR UVC_VS_COMMIT_CONTROL)
    (hprobe : streaming_setup set_probe UVC_SET_CUR UVC_VS_PROBE_CONTROL) :
    (∃ s1 reply1 s2,
      uvc_events_process_setup k s set_commit resp0 = some (s1, reply1) ∧
      uvc_events_process_data k s1 data = some s2 ∧
      s2.calls = s.calls ++
        (Call.v4l2_apply_format .DEVICE_TYPE_V4L2 row.video_format row.wWidth row.wHeight ::
          format_ioctls k s.vdev.is_streaming .DEVICE_TYPE_V4L2 row.video_format row.wWidth
            row.wHeight) ++
        (Call.v4l2_apply_format .DEVICE_TYPE_UVC row.video_format row.wWidth row.wHeight ::
          format_ioctls k s.udev.is_streaming .DEVICE_TYPE_UVC row.video_format row.wWidth
            row.wHeight) ∧
      s2.udev.commit.bFormatIndex = data.byte 2 ∧
      s2.udev.commit.bFrameIndex = data.byte 3) ∧
    (∃ s1 reply1 s2,
      uvc_events_process_setup k s set_probe resp0 = some (s1, reply1) ∧
      uvc_events_process_data k s1 data = some s2 ∧
      s2.calls = s.calls ∧ s2.udev.commit = s.udev.commit) := by
  have hrow : row ∈ s.uvc_frame_format := by rw [hinv]; simp
  have hb2 := byte_lt data 2
  have hb3 := byte_lt data 3
  have hidx : streaming_control_indices s.uvc_frame_format .STREAM_CONTROL_SET
      ((data.byte 2 : Nat) : Int) ((data.byte 3 : Nat) : Int) =
        (((data.byte 2 : Nat) : Int), ((data.byte 3 : Nat) : Int)) := by
    have := indices_of_row s.uvc_frame_format .STREAM_CONTROL_SET row hrow hint
      (by decide) (by decide)
    rw [hf, hr] at this
    exact this
  have hlookup : uvc_get_frame_format s.uvc_frame_format (data.byte 2) (data.byte 3) =
      some row := by
    rw [hinv]
    exact lookup_first pre post row _ _ hfirst hf hr
  constructor
  · let s1 : Bridge :=
      { s.clear_control with
        udev := { s.clear_control.udev with control := UVC_VS_COMMIT_CONTROL } }
    have hs1 : uvc_events_process_setup k s set_commit resp0 =
        some (s1, { resp0 with length := ctrl_length }) := by
      rw [setup_streaming k s set_commit resp0 _ _ hcommit,
        streaming_set_cur k _ resp0 _ (Or.inr rfl)]
    obtain ⟨blk, hfill, hbf, hbr, -, -⟩ := fill_of_indices k s1 .STREAM_CONTROL_SET
      _ _ (data.byte 2) (data.byte 3) row hidx hb2 hb3 hlookup
    have hctl : s1.udev.control = UVC_VS_COMMIT_CONTROL ∧
        stream_control_action.STREAM_CONTROL_SET = stream_control_action.STREAM_CONTROL_SET :=
      ⟨rfl, rfl⟩
    rw [if_pos hctl, commit_side_effect_calls] at hfill
    have hnp : ¬ s1.udev.control = UVC_VS_PROBE_CONTROL := by
      show ¬ UVC_VS_COMMIT_CONTROL = UVC_VS_PROBE_CONTROL
      decide
    have hdata : uvc_events_process_data k s1 data =
        some
          { s1 with
            calls := s1.calls ++
              (Call.v4l2_apply_format .DEVICE_TYPE_V4L2 row.video_format row.wWidth
                  row.wHeight ::
                format_ioctls k s1.vdev.is_streaming .DEVICE_TYPE_V4L2 row.video_format
                  row.wWidth row.wHeight) ++
              (Call.v4l2_apply_format .DEVICE_TYPE_UVC row.video_format row.wWidth
                  row.wHeight ::
                format_ioctls k s1.udev.is_streaming .DEVICE_TYPE_UVC row.video_format
                  row.wWidth row.wHeight)
            udev := { s1.udev with commit := blk } } := by
      unfold uvc_events_process_data
      rw [if_neg hnp, if_pos rfl]
      unfold uvc_events_process_data_control
      rw [hfill]
    exact ⟨s1, _, _, hs1, hdata, rfl, hbf, hbr⟩
  · let s1 : Bridge :=
      { s.clear_control with
        udev := { s.clear_control.udev with control := UVC_VS_PROBE_CONTROL } }
    have hs1 : uvc_events_process_setup k s set_probe resp0 =
        some (s1, { resp0 with length := ctrl_length }) := by
      rw [setup_streaming k s set_probe resp0 _ _ hprobe,
        streaming_set_cur k _ resp0 _ (Or.inl rfl)]
    obtain ⟨blk, hfill, -, -, -, -⟩ := fill_of_indices k s1 .STREAM_CONTROL_SET
      _ _ (data.byte 2) (data.byte 3) row hidx hb2 hb3 hlookup
    have hctl : ¬ (s1.udev.control = UVC_VS_COMMIT_CONTROL ∧
        stream_control_action.STREAM_CONTROL_SET = stream_control_action.STREAM_CONTROL_SET) := by
      intro h
      have h1 : UVC_VS_PROBE_CONTROL = UVC_VS_COMMIT_CONTROL := h.1
      exact absurd h1 (by decide)
    rw [if_neg hctl] at hfill
    have hdata : uvc_events_process_data k s1 data =
        some { s1 with udev := { s1.udev with probe := blk } } := by
      unfold uvc_events_process_data
      rw [if_pos rfl]
      unfold uvc_events_process_data_control
      rw [hfill]
    exact ⟨s1, _, _, hs1, hdata, rfl, rfl⟩

/-- Witness of C10 on the sample state (idle endpoints, a kernel in which
every request succeeds): the Commit payload (1, 1) sets MJPEG 640x480 on the
capture endpoint, then on the UVC endpoint. -/
theorem commit_applies_format_witness :
    ∃ s1 reply1 s2,
      uvc_events_process_setup sample_kernel sample_state
        (sample_setup UVC_INTF_STREAMING 0 UVC_SET_CUR UVC_VS_COMMIT_CONTROL 34) {}
          = some (s1, reply1) ∧
      uvc_events_process_data sample_kernel s1 (sample_payload 1 1) = some s2 ∧
      s2.calls =
        [ Call.v4l2_apply_format .DEVICE_TYPE_V4L2 V4L2_PIX_FMT_MJPEG 640 480,
          Call.ioctl (Ioctl.VIDIOC_S_FMT .DEVICE_TYPE_V4L2 V4L2_PIX_FMT_MJPEG 640 480 307200),
          Call.ioctl (Ioctl.VIDIOC_G_FMT .DEVICE_TYPE_V4L2),
          Call.v4l2_apply_format .DEVICE_TYPE_UVC V4L2_PIX_FMT_MJPEG 640 480,
          Call.ioctl (Ioctl.VIDIOC_S_FMT .DEVICE_TYPE_UVC V4L2_PIX_FMT_MJPEG 640 480 307200),
          Call.ioctl (Ioctl.VIDIOC_G_FMT .DEVICE_TYPE_UVC) ] ∧
      s2.udev.commit.bFormatIndex = 1 ∧ s2.udev.commit.bFrameIndex = 1 := by
  obtain ⟨s1, reply1, s2, h1, h2, h3, h4, h5⟩ :=
    (commit_applies_format sample_kernel sample_state
      (sample_setup UVC_INTF_STREAMING 0 UVC_SET_CUR UVC_VS_COMMIT_CONTROL 34)
      (sample_setup UVC_INTF_STREAMING 0 UVC_SET_CUR UVC_VS_PROBE_CONTROL 34)
      {} (sample_payload 1 1) []
      [ { defined := true, video_format := V4L2_PIX_FMT_YUYV, bFormatIndex := 2,
          bFrameIndex := 1, wWidth := 1280, wHeight := 720 } ]
      { defined := true, video_format := V4L2_PIX_FMT_MJPEG, bFormatIndex := 1, bFrameIndex := 1,
        wWidth := 640, wHeight := 480 }
      rfl (by decide) (by decide) (by decide) (by decide) (by decide) (by decide)).1
  refine ⟨s1, reply1, s2, h1, h2, ?_, h4, h5⟩
  rw [h3]
  decide

theorem toUnsigned_eq_emod (w : Nat) (i : Int) :
    ((toUnsigned w i : Nat) : Int) = i % (2 ^ w : Nat) := by
  unfold toUnsigned
  exact Int.toNat_of_nonneg (Int.emod_nonneg _ (by positivity))

theorem toUnsigned_of_range (i : Int) (h0 : 0 ≤ i) (h1 : i < 2 ^ 32) :
    ((toUnsigned 32 i : Nat) : Int) = i := by
  rw [toUnsigned_eq_emod]
  exact Int.emod_eq_of_lt h0 (by exact_mod_cast h1)

/-- C12: for every query result and current value, `v4l2_apply_camera_control`
leaves the row enabled with `minimum = 0`, the queried bounds in
`v4l2_minimum` and `v4l2_maximum`, `control_type` copied, and `maximum`,
`default_value`, `value` and `step` holding the 32-bit values of
`v4l2_max - v4l2_min`, `v4l2_default - v4l2_min`, `v4l2_current - v4l2_min`
and `step`; these are the numbers themselves for values of `__s32` with
`v4l2_min` below the maximum, the default and the current value and a
non-negative step. -/
theorem apply_camera_control_row (mapping : control_mapping_pair) (queryctrl : v4l2_queryctrl)
    (control : v4l2_control) :
    (v4l2_apply_camera_control mapping queryctrl control).enabled = true ∧
    (v4l2_apply_camera_control mapping queryctrl control).minimum = 0 ∧
    (v4l2_apply_camera_control mapping queryctrl control).v4l2_minimum = queryctrl.minimum ∧
    (v4l2_apply_camera_control mapping queryctrl control).v4l2_maximum = queryctrl.maximum ∧
    (v4l2_apply_camera_control mapping queryctrl control).control_type = queryctrl.type ∧
    (((v4l2_apply_camera_control mapping queryctrl control).maximum : Nat) : Int) =
      (queryctrl.maximum - queryctrl.minimum) % 2 ^ 32 ∧
    (((v4l2_apply_camera_control mapping queryctrl control).default_value : Nat) : Int) =
      (queryctrl.default_value - queryctrl.minimum) % 2 ^ 32 ∧
    (((v4l2_apply_camera_control mapping queryctrl control).value : Nat) : Int) =
      (control.value - queryctrl.minimum) % 2 ^ 32 ∧
    (((v4l2_apply_camera_control mapping queryctrl control).step : Nat) : Int) =
      queryctrl.step % 2 ^ 32 ∧
    (int32 queryctrl.minimum → int32 queryctrl.maximum →
      queryctrl.minimum ≤ queryctrl.maximum →
      (((v4l2_apply_camera_control mapping queryctrl control).maximum : Nat) : Int) =
        queryctrl.maximum - queryctrl.minimum) ∧
    (int32 queryctrl.minimum → int32 queryctrl.default_value →
      queryctrl.minimum ≤ queryctrl.default_value →
      (((v4l2_apply_camera_control mapping queryctrl control).default_value : Nat) : Int) =
        queryctrl.default_value - queryctrl.minimum) ∧
    (int32 queryctrl.minimum → int32 control.value →
      queryctrl.minimum ≤ control.value →
      (((v4l2_apply_camera_control mapping queryctrl control).value : Nat) : Int) =
        control.value - queryctrl.minimum) ∧
    (int32 queryctrl.step → 0 ≤ queryctrl.step →
      (((v4l2_apply_camera_control mapping queryctrl control).step : Nat) : Int) =
        queryctrl.step) := by
  have e : ∀ a b : Int, (0 - a) + b = b - a := fun a b => by ring
  refine ⟨rfl, rfl, rfl, rfl, rfl, ?_, ?_, ?_, ?_, ?_, ?_, ?_, ?_⟩
  · show ((toUnsigned 32 _ : Nat) : Int) = _
    rw [toUnsigned_eq_emod, e]; norm_num
  · show ((toUnsigned 32 _ : Nat) : Int) = _
    rw [toUnsigned_eq_emod, e]; norm_num
  · show ((toUnsigned 32 _ : Nat) : Int) = _
    rw [toUnsigned_eq_emod, e]; norm_num
  · show ((toUnsigned 32 _ : Nat) : Int) = _
    rw [toUnsigned_eq_emod]; norm_num
  · intro h1 h2 h3
    unfold int32 at h1 h2
    show ((toUnsigned 32 _ : Nat) : Int) = _
    rw [e]; exact toUnsigned_of_range _ (by omega) (by omega)
  · intro h1 h2 h3
    unfold int32 at h1 h2
    show ((toUnsigned 32 _ : Nat) : Int) = _
    rw [e]; exact toUnsigned_of_range _ (by omega) (by omega)
  · intro h1 h2 h3
    unfold int32 at h1 h2
    show ((toUnsigned 32 _ : Nat) : Int) = _
    rw [e]; exact toUnsigned_of_range _ (by omega) (by omega)
  · intro h1 h2
    unfold int32 at h1
    show ((toUnsigned 32 _ : Nat) : Int) = _
    exact toUnsigned_of_range _ (by omega) (by omega)

/-- Witness of C12: the query result [-100, 100] with step 1, default 0 and
current value 50 gives the UVC range [0, 200], default 100 and value 150. -/
theorem apply_camera_control_row_witness :
    (v4l2_apply_camera_control {}
      { minimum := -100, maximum := 100, step := 1, default_value := 0 }
      { value := 50 }) =
        { enabled := true, minimum := 0, maximum := 200, step := 1, default_value := 100,
          value := 150, v4l2_minimum := -100, v4l2_maximum := 100 } ∧
    (((v4l2_apply_camera_control {}
      { minimum := -100, maximum := 100, step := 1, default_value := 0 }
      { value := 50 }).maximum : Nat) : Int) = 100 - (-100) :=
  ⟨by decide,
   (apply_camera_control_row {}
      { minimum := -100, maximum := 100, step := 1, default_value := 0 }
      { value := 50 }).2.2.2.2.2.2.2.2.2.1 (by decide) (by decide) (by decide)⟩

theorem toInt32_eq_of (n : Nat) (i : Int) (hi : int32 i)
    (h : (n : Int) % 2 ^ 32 = i % 2 ^ 32) : toInt32 n = i := by
  unfold int32 at hi
  unfold toInt32
  norm_num at h hi ⊢
  split_ifs <;> omega

theorem toUnsigned_toInt32 (n : Nat) : toUnsigned 32 (toInt32 n) = n % 2 ^ 32 := by
  have h : ((toUnsigned 32 (toInt32 n) : Nat) : Int) = ((n % 2 ^ 32 : Nat) : Int) := by
    rw [toUnsigned_eq_emod]
    unfold toInt32
    norm_num
    split_ifs <;> omega
  exact_mod_cast h

theorem v4l2_ctrl_value_small (mapping : control_mapping_pair) (q : v4l2_queryctrl)
    (c : v4l2_control) (v : Nat)
    (h1 : int32 q.minimum) (h2 : int32 q.maximum) (h3 : q.minimum < q.maximum)
    (h4 : (q.maximum - q.minimum) * (q.maximum - q.minimum) < 2 ^ 32) :
    v4l2_ctrl_value { v4l2_apply_camera_control mapping q c with value := v } =
      some (min (v : Int) (q.maximum - q.minimum) + q.minimum) := by
  obtain ⟨D, hD⟩ : ∃ D : Nat, (D : Int) = q.maximum - q.minimum :=
    ⟨(q.maximum - q.minimum).toNat, Int.toNat_of_nonneg (by omega)⟩
  have hDpos : 0 < D := by omega
  have hDD : D * D < 2 ^ 32 := by
    rw [← hD] at h4
    exact_mod_cast h4
  have hD32 : D < 2 ^ 32 := by nlinarith
  have hmax : toUnsigned 32 ((0 - q.minimum) + q.maximum) = D := by
    have : ((toUnsigned 32 ((0 - q.minimum) + q.maximum) : Nat) : Int) = (D : Int) := by
      rw [toUnsigned_of_range _ (by omega) (by omega)]; omega
    exact_mod_cast this
  have hcast : toUnsigned 32 (q.maximum - q.minimum) = D := by
    rw [← hD]; exact toUnsigned_natCast hD32
  have hmod : D % 2 ^ 32 = D := Nat.mod_eq_of_lt hD32
  unfold v4l2_ctrl_value v4l2_apply_camera_control
  simp only [hmax, hcast, Nat.cast_zero, sub_zero, toUnsigned_toInt32, toUnsigned_natCast hD32,
    hmod, Nat.not_lt_zero, if_false]
  rw [if_neg (by omega)]
  by_cases hv : v > D
  · rw [if_pos hv, toUnsigned_natCast hD32, Nat.mod_eq_of_lt hDD,
      Nat.mul_div_cancel _ hDpos]
    congr 1
    apply toInt32_eq_of
    · unfold int32 at *
      rw [min_eq_right (by omega)]; omega
    · rw [min_eq_right (by omega), ← hD]
      push_cast
      rw [toUnsigned_eq_emod]
      norm_num
  · have hvD : v ≤ D := by omega
    have hv32 : v < 2 ^ 32 := by omega
    have hvDlt : v * D < 2 ^ 32 := by nlinarith
    rw [if_neg hv, toUnsigned_natCast hv32, Nat.mod_eq_of_lt hvDlt,
      Nat.mul_div_cancel _ hDpos]
    congr 1
    apply toInt32_eq_of
    · unfold int32 at *
      rw [min_eq_left (by omega)]; omega
    · rw [min_eq_left (by omega)]
      push_cast
      rw [toUnsigned_eq_emod]
      norm_num

/-- C13, the behaviour of the code: for a row populated by
`v4l2_apply_camera_control` from a range of `__s32` bounds whose squared
width is below `2^32`, `v4l2_set_ctrl` computes the clamped value plus
`v4l2_min`; for the range [0, 100000] and the received value 100000 the
32-bit product `100000 * 100000` wraps and the computed value is 14100, not
100000, so the forward formula gives back 14100 and not the clamped value. -/
theorem control_mapping_inverse (mapping : control_mapping_pair) (q : v4l2_queryctrl)
    (c : v4l2_control) (v : Nat) :
    (int32 q.minimum → int32 q.maximum → q.minimum < q.maximum →
      (q.maximum - q.minimum) * (q.maximum - q.minimum) < 2 ^ 32 →
      v4l2_ctrl_value { v4l2_apply_camera_control mapping q c with value := v } =
        some (min (v : Int) (q.maximum - q.minimum) + q.minimum)) ∧
    v4l2_ctrl_value
      { v4l2_apply_camera_control mapping { q with minimum := 0, maximum := 100000 } c with
        value := 100000 } = some 14100 ∧
    (14100 : Int) ≠ clamp 100000 0 100000 + 0 ∧ (14100 : Int) - 0 ≠ clamp 100000 0 100000 := by
  refine ⟨v4l2_ctrl_value_small mapping q c v, ?_, by decide, by decide⟩
  have h : v4l2_ctrl_value
      { v4l2_apply_camera_control mapping { q with minimum := 0, maximum := 100000 } c with
        value := 100000 } =
      v4l2_ctrl_value
        { value := 100000, minimum := 0, maximum := 100000, v4l2_minimum := 0,
          v4l2_maximum := 100000 } := rfl
  rw [h]
  decide

/-- Witness of C13: in the range [-100, 100] the received value 250 is
clamped to 200 and mapped to 100. -/
theorem control_mapping_inverse_witness :
    v4l2_ctrl_value
      { v4l2_apply_camera_control {} { minimum := -100, maximum := 100 } {} with
        value := 250 } = some (min ((250 : Nat) : Int) (100 - (-100)) + (-100)) :=
  (control_mapping_inverse {} { minimum := -100, maximum := 100 } {} 250).1
    (by decide) (by decide) (by decide) (by decide)

theorem set_ctrl_value_eq (k : Kernel) (s : Bridge) (dev : device_type)
    (ctrl : control_mapping_pair) (id : Nat) (value : Int) :
    v4l2_set_ctrl_value k s dev ctrl id value =
      { s with calls := s.calls ++ set_ctrl_value_calls k dev ctrl.v4l2 id value } := by
  unfold v4l2_set_ctrl_value set_ctrl_value_calls
  simp only []
  split_ifs <;> simp

theorem set_ctrl_eq (k : Kernel) (s : Bridge) (dev : device_type) (ctrl : control_mapping_pair)
    (value : Int) (h : v4l2_ctrl_value ctrl = some value) :
    v4l2_set_ctrl k s dev ctrl =
      some { s with calls := s.calls ++ set_ctrl_calls k dev ctrl value } := by
  unfold v4l2_set_ctrl set_ctrl_calls
  simp only [h, set_ctrl_value_eq]
  split_ifs <;> simp

theorem set_ctrl_value_calls_available (k : Kernel) (dev : device_type)
    (set_id id : Nat) (value : Int) (h : control_available k dev id) :
    set_ctrl_value_calls k dev set_id id value =
      [Call.ioctl (Ioctl.VIDIOC_QUERYCTRL dev id),
       Call.ioctl (Ioctl.VIDIOC_S_CTRL dev set_id value)] := by
  unfold set_ctrl_value_calls
  rw [if_neg h.1, if_neg (by rw [h.2]; simp)]

/-- C14, the behaviour of the code: with the kernel knowing both balance
controls, `v4l2_set_ctrl` on the row whose V4L2 control is RED_BALANCE queries
RED_BALANCE and BLUE_BALANCE but sends both `VIDIOC_S_CTRL` requests, with the
same computed value, under the id RED_BALANCE; no request sets BLUE_BALANCE.
On any other row it sends one `VIDIOC_S_CTRL`, under the row's own id. -/
theorem red_balance_write (k : Kernel) (s : Bridge) (dev : device_type)
    (ctrl : control_mapping_pair) (value : Int)
    (hvalue : v4l2_ctrl_value ctrl = some value)
    (hown : control_available k dev ctrl.v4l2)
    (hblue : control_available k dev V4L2_CID_BLUE_BALANCE) :
    (ctrl.v4l2 = V4L2_CID_RED_BALANCE →
      v4l2_set_ctrl k s dev ctrl =
        some { s with calls := s.calls ++
          [ Call.ioctl (Ioctl.VIDIOC_QUERYCTRL dev V4L2_CID_RED_BALANCE),
            Call.ioctl (Ioctl.VIDIOC_S_CTRL dev V4L2_CID_RED_BALANCE value),
            Call.ioctl (Ioctl.VIDIOC_QUERYCTRL dev V4L2_CID_BLUE_BALANCE),
            Call.ioctl (Ioctl.VIDIOC_S_CTRL dev V4L2_CID_RED_BALANCE value) ] }) ∧
    (ctrl.v4l2 ≠ V4L2_CID_RED_BALANCE →
      v4l2_set_ctrl k s dev ctrl =
        some { s with calls := s.calls ++
          [ Call.ioctl (Ioctl.VIDIOC_QUERYCTRL dev ctrl.v4l2),
            Call.ioctl (Ioctl.VIDIOC_S_CTRL dev ctrl.v4l2 value) ] }) := by
  constructor
  · intro hred
    rw [set_ctrl_eq k s dev ctrl value hvalue]
    unfold set_ctrl_calls
    rw [if_pos hred, set_ctrl_value_calls_available _ _ _ _ _ hown,
      set_ctrl_value_calls_available _ _ _ _ _ hblue, hred]
    rfl
  · intro hred
    rw [set_ctrl_eq k s dev ctrl value hvalue]
    unfold set_ctrl_calls
    rw [if_neg hred, set_ctrl_value_calls_available _ _ _ _ _ hown]
    simp

/-- Witness of C14: a red-balance row with range [0, 200] and value 100 under
the sample kernel. -/
theorem red_balance_write_witness :
    v4l2_set_ctrl sample_kernel sample_state .DEVICE_TYPE_V4L2
      { v4l2 := V4L2_CID_RED_BALANCE, enabled := true, value := 100, minimum := 0,
        maximum := 200, v4l2_minimum := 0, v4l2_maximum := 200 } =
      some { sample_state with calls := sample_state.calls ++
        [ Call.ioctl (Ioctl.VIDIOC_QUERYCTRL .DEVICE_TYPE_V4L2 V4L2_CID_RED_BALANCE),
          Call.ioctl (Ioctl.VIDIOC_S_CTRL .DEVICE_TYPE_V4L2 V4L2_CID_RED_BALANCE 100),
          Call.ioctl (Ioctl.VIDIOC_QUERYCTRL .DEVICE_TYPE_V4L2 V4L2_CID_BLUE_BALANCE),
          Call.ioctl (Ioctl.VIDIOC_S_CTRL .DEVICE_TYPE_V4L2 V4L2_CID_RED_BALANCE 100) ] } :=
  (red_balance_write sample_kernel sample_state .DEVICE_TYPE_V4L2
    { v4l2 := V4L2_CID_RED_BALANCE, enabled := true, value := 100, minimum := 0,
      maximum := 200, v4l2_minimum := 0, v4l2_maximum := 200 } 100
    (by decide) (by decide) (by decide)).1 rfl

theorem data_rows_spec (k : Kernel) (data : uvc_request_data) :
    ∀ (rest done : List control_mapping_pair) (s : Bridge),
      (∀ m ∈ rest, control_target s.udev m → v4l2_ctrl_value (write_row data m) ≠ none) →
      ∃ s1, uvc_events_process_data_rows k data s done rest = some s1 ∧
        s1.control_mapping =
          done ++ rest.map (fun m => if control_target s.udev m then write_row data m else m) ∧
        s1.calls =
          s.calls ++
            (rest.map (fun m => if control_target s.udev m then row_calls k data m else [])).flatten ∧
        s1.udev = s.udev ∧ s1.vdev = s.vdev ∧ s1.uvc_frame_format = s.uvc_frame_format ∧
        s1.uvc_shutdown_requested = s.uvc_shutdown_requested := by
  intro rest
  induction rest with
  | nil =>
    intro done s _
    exact ⟨_, rfl, by simp, by simp, rfl, rfl, rfl, rfl⟩
  | cons m rest ih =>
    intro done s hdiv
    have hrest : ∀ x ∈ rest, control_target s.udev x →
        v4l2_ctrl_value (write_row data x) ≠ none :=
      fun x hx => hdiv x (List.mem_cons_of_mem _ hx)
    by_cases ht : control_target s.udev m
    · obtain ⟨w, hw⟩ : ∃ w, v4l2_ctrl_value (write_row data m) = some w :=
        Option.ne_none_iff_exists'.mp (hdiv m (List.mem_cons_self _ _) ht)
      have hcond : m.type = s.udev.control_interface ∧ m.uvc = s.udev.control_type ∧
          m.enabled = true := ht
      obtain ⟨s1, h1, h2, h3, h4, h5, h6, h7⟩ := ih (done ++ [write_row data m])
        { s with calls := s.calls ++ set_ctrl_calls k .DEVICE_TYPE_V4L2 (write_row data m) w }
        hrest
      refine ⟨s1, ?_, ?_, ?_, h4, h5, h6, h7⟩
      · rw [uvc_events_process_data_rows, if_pos hcond]
        have hset := set_ctrl_eq k s .DEVICE_TYPE_V4L2 (write_row data m) w hw
        unfold write_row received_value at hset
        simp only [hset]
        exact h1
      · rw [h2]
        simp [ht]
      · rw [h3]
        simp [ht, row_calls, hw]
    · have hcond : ¬ (m.type = s.udev.control_interface ∧ m.uvc = s.udev.control_type ∧
          m.enabled = true) := ht
      obtain ⟨s1, h1, h2, h3, h4, h5, h6, h7⟩ := ih (done ++ [m]) s hrest
      refine ⟨s1, ?_, ?_, ?_, h4, h5, h6, h7⟩
      · rw [uvc_events_process_data_rows, if_neg hcond]
        exact h1
      · rw [h2]
        simp [ht]
      · rw [h3]
        simp [ht]

theorem v4l2_ctrl_value_clamped (m : control_mapping_pair) :
    v4l2_ctrl_value m =
      v4l2_ctrl_value { m with value := min (max m.value m.minimum) m.maximum } := by
  have h : (if (if min (max m.value m.minimum) m.maximum < m.minimum then m.minimum
        else min (max m.value m.minimum) m.maximum) > m.maximum then m.maximum
      else (if min (max m.value m.minimum) m.maximum < m.minimum then m.minimum
        else min (max m.value m.minimum) m.maximum)) =
      (if (if m.value < m.minimum then m.minimum else m.value) > m.maximum then m.maximum
      else (if m.value < m.minimum then m.minimum else m.value)) := by
    split_ifs <;> omega
  unfold v4l2_ctrl_value
  simp only [h]

theorem ctrl_value_some (m : control_mapping_pair) (h : nonzero_divisor m) :
    v4l2_ctrl_value m ≠ none := by
  unfold nonzero_divisor at h
  have hne : ¬ toUnsigned 32 (toInt32 (toUnsigned 32 ((m.maximum : Int) - m.minimum))) = 0 := by
    rw [toUnsigned_toInt32]
    intro h0
    apply h
    have h1 := toUnsigned_eq_emod 32 ((m.maximum : Int) - m.minimum)
    have h2 : toUnsigned 32 ((m.maximum : Int) - m.minimum) < 2 ^ 32 := by
      have : ((toUnsigned 32 ((m.maximum : Int) - m.minimum) : Nat) : Int) < 2 ^ 32 := by
        rw [h1]; exact Int.emod_lt_of_pos _ (by norm_num)
      exact_mod_cast this
    rw [Nat.mod_eq_of_lt h2] at h0
    rw [h0] at h1
    norm_num at h1
    omega
  unfold v4l2_ctrl_value
  simp only [hne, if_false]
  exact Option.some_ne_none _

theorem write_row_divisor (data : uvc_request_data) (m : control_mapping_pair)
    (h : nonzero_divisor m) : nonzero_divisor (write_row data m) := h

/-- C15: for a DATA event arriving while the active control is NONE with
payload length `n`: if `1 ≤ n ≤ 4` (and no target row has a zero divisor in
`v4l2_set_ctrl`), the handler returns and every enabled mapping row with the
remembered interface and selector has `value` equal to the little-endian
integer of the first `n` payload bytes and `length = n`, while every other row
is unchanged; if `n ≤ 0` or `n > 4` the state is unchanged, so no row changes
and no V4L2 control is written. -/
theorem camera_control_write (k : Kernel) (s : Bridge) (data : uvc_request_data)
    (hctl : s.udev.control = UVC_VS_CONTROL_UNDEFINED) :
    (0 < data.length ∧ data.length ≤ 4 →
      (∀ m ∈ s.control_mapping, control_target s.udev m → nonzero_divisor m) →
      ∃ s1, uvc_events_process_data k s data = some s1 ∧
        s1.control_mapping =
          s.control_mapping.map (fun m =>
            if control_target s.udev m then
              { m with value := received_value data, length := data.length.toNat }
            else m)) ∧
    ((∀ b ∈ data.data, b < 256) →
      received_value data = le_field data.data 0 data.length.toNat) ∧
    (data.length ≤ 0 ∨ 4 < data.length → uvc_events_process_data k s data = some s) := by
  have hnp : ¬ s.udev.control = UVC_VS_PROBE_CONTROL := by rw [hctl]; decide
  have hnc : ¬ s.udev.control = UVC_VS_COMMIT_CONTROL := by rw [hctl]; decide
  refine ⟨?_, ?_, ?_⟩
  · intro hlen hdiv
    obtain ⟨s1, h1, h2, -⟩ := data_rows_spec k data s.control_mapping [] s
      (fun m hm ht => ctrl_value_some _ (write_row_divisor data m (hdiv m hm ht)))
    refine ⟨s1, ?_, ?_⟩
    · unfold uvc_events_process_data
      rw [if_neg hnp, if_neg hnc, if_pos hctl, if_pos hlen]
      exact h1
    · rw [h2]
      rfl
  · intro hb
    unfold received_value le_field
    rw [List.drop_zero]
    congr 1
    have hmap : (List.take data.length.toNat data.data).map (· % 256) =
        (List.take data.length.toNat data.data).map id := by
      apply List.map_congr_left
      intro b hb2
      exact Nat.mod_eq_of_lt (hb b (List.mem_of_mem_take hb2))
    rw [hmap, List.map_id]
  · intro hlen
    unfold uvc_events_process_data
    rw [if_neg hnp, if_neg hnc, if_pos hctl, if_neg (by omega)]

/-- Witness of C15: with the brightness row of the sample mapping as the
remembered target, the two payload bytes `fa 00` store 250 with length 2. -/
theorem camera_control_write_witness :
    ∃ s1,
      uvc_events_process_data sample_kernel
        { sample_state with
          udev := { sample_state.udev with control_interface := UVC_VC_PROCESSING_UNIT,
                                           control_type := 2 } }
        { length := 2, data := [250, 0] ++ List.replicate 58 0 } = some s1 ∧
      s1.control_mapping =
        [ { type := UVC_VC_PROCESSING_UNIT, uvc := 2, v4l2 := 0x00980900, enabled := true,
            value := 250, length := 2, minimum := 0, maximum := 200, step := 1,
            default_value := 100, v4l2_minimum := -100, v4l2_maximum := 100 },
          { type := UVC_VC_PROCESSING_UNIT, uvc := 3, v4l2 := 0x00980901, enabled := false } ] := by
  obtain ⟨s1, h1, h2⟩ :=
    (camera_control_write sample_kernel
      { sample_state with
        udev := { sample_state.udev with control_interface := UVC_VC_PROCESSING_UNIT,
                                         control_type := 2 } }
      { length := 2, data := [250, 0] ++ List.replicate 58 0 } rfl).1
      (by decide) (by decide)
  refine ⟨s1, h1, ?_⟩
  rw [h2]
  decide

/-- C11 as stated fails: in the sample state (brightness row with V4L2
range [-100, 100], UVC range [0, 200]) SET_CUR on the brightness control
followed by the DATA bytes `fa 00` (250) writes the V4L2 value 100, but the
row keeps the value 250 and a following GET_CUR replies 250, not 200. -/
theorem control_write_row_value_counterexample :
    ∃ s1 reply1 s2 s3 reply,
      uvc_events_process_setup sample_kernel sample_state
        (sample_setup UVC_INTF_CONTROL 2 UVC_SET_CUR 2 2) {} = some (s1, reply1) ∧
      uvc_events_process_data sample_kernel s1
        { length := 2, data := [250, 0] ++ List.replicate 58 0 } = some s2 ∧
      uvc_events_process_setup sample_kernel s2
        (sample_setup UVC_INTF_CONTROL 2 UVC_GET_CUR 2 4) {} = some (s3, reply) ∧
      s2.calls =
        [ Call.ioctl (Ioctl.VIDIOC_QUERYCTRL .DEVICE_TYPE_V4L2 0x00980900),
          Call.ioctl (Ioctl.VIDIOC_S_CTRL .DEVICE_TYPE_V4L2 0x00980900 100) ] ∧
      s2.control_mapping.map (·.value) = [250, 0] ∧
      le_field reply.data 0 4 = 250 ∧ le_field reply.data 0 4 ≠ 200 := by
  refine ⟨_, _, _, _, _, rfl, rfl, rfl, ?_, ?_, ?_, ?_⟩
  · decide
  · decide
  · decide
  · decide
theorem map_no_target (udev : v4l2_device) (f : control_mapping_pair → control_mapping_pair)
    (l : List control_mapping_pair) (h : ∀ x ∈ l, ¬ control_target udev x) :
    l.map (fun m => if control_target udev m then f m else m) = l := by
  induction l with
  | nil => rfl
  | cons x rest ih =>
    rw [List.map_cons, if_neg (h x (List.mem_cons_self _ _)),
      ih (fun y hy => h y (List.mem_cons_of_mem _ hy))]

theorem join_no_target (udev : v4l2_device) (g : control_mapping_pair → List Call)
    (l : List control_mapping_pair) (h : ∀ x ∈ l, ¬ control_target udev x) :
    (l.map (fun m => if control_target udev m then g m else [])).flatten = [] := by
  induction l with
  | nil => rfl
  | cons x rest ih =>
    rw [List.map_cons, if_neg (h x (List.mem_cons_self _ _)), List.flatten_cons, List.nil_append,
      ih (fun y hy => h y (List.mem_cons_of_mem _ hy))]

/-- C11, amended: when a camera-control DATA stage delivers a value to the
one target row `m`, the handler stores the received value itself in the row,
also when it lies outside the row's UVC range, and the V4L2 value it writes
is the one computed from the value clamped to `[minimum, maximum]`. -/
theorem control_write_clamp (k : Kernel) (s : Bridge) (data : uvc_request_data)
    (pre post : List control_mapping_pair) (m : control_mapping_pair)
    (hctl : s.udev.control = UVC_VS_CONTROL_UNDEFINED)
    (hlen : 0 < data.length ∧ data.length ≤ 4)
    (hmap : s.control_mapping = pre ++ m :: post)
    (hm : control_target s.udev m)
    (hpre : ∀ x ∈ pre, ¬ control_target s.udev x)
    (hpost : ∀ x ∈ post, ¬ control_target s.udev x)
    (hdiv : nonzero_divisor m) :
    ∃ s1 w, uvc_events_process_data k s data = some s1 ∧
      s1.control_mapping =
        pre ++ { m with value := received_value data, length := data.length.toNat } :: post ∧
      v4l2_ctrl_value
        { m with value := min (max (received_value data) m.minimum) m.maximum } = some w ∧
      s1.calls = s.calls ++ set_ctrl_calls k .DEVICE_TYPE_V4L2 m w := by
  have hnp : ¬ s.udev.control = UVC_VS_PROBE_CONTROL := by rw [hctl]; decide
  have hnc : ¬ s.udev.control = UVC_VS_COMMIT_CONTROL := by rw [hctl]; decide
  obtain ⟨w, hw⟩ : ∃ w, v4l2_ctrl_value (write_row data m) = some w :=
    Option.ne_none_iff_exists'.mp (ctrl_value_some _ (write_row_divisor data m hdiv))
  have hdivs : ∀ x ∈ s.control_mapping, control_target s.udev x →
      v4l2_ctrl_value (write_row data x) ≠ none := by
    intro x hx ht
    rw [hmap] at hx
    rcases List.mem_append.mp hx with h | h
    · exact absurd ht (hpre x h)
    · rcases List.mem_cons.mp h with rfl | h
      · rw [hw]; exact Option.some_ne_none _
      · exact absurd ht (hpost x h)
  obtain ⟨s1, h1, h2, h3, -⟩ := data_rows_spec k data s.control_mapping [] s hdivs
  refine ⟨s1, w, ?_, ?_, ?_, ?_⟩
  · unfold uvc_events_process_data
    rw [if_neg hnp, if_neg hnc, if_pos hctl, if_pos hlen]
    exact h1
  · rw [h2, hmap, List.nil_append, List.map_append, List.map_cons, if_pos hm,
      map_no_target _ _ _ hpre, map_no_target _ _ _ hpost]
    rfl
  · have hc := v4l2_ctrl_value_clamped (write_row data m)
    rw [hw] at hc
    exact hc.symm
  · rw [h3, hmap, List.map_append, List.map_cons, if_pos hm, List.flatten_append, List.flatten_cons,
      join_no_target _ _ _ hpre, join_no_target _ _ _ hpost]
    simp only [row_calls, hw, List.nil_append, List.append_nil]
    rfl

/-- Witness of C11: with the brightness row of the sample mapping as target,
the received value 250 is stored as 250 and written to V4L2 as 100, the value
computed from the clamped 200. -/
theorem control_write_clamp_witness :
    ∃ s1 w,
      uvc_events_process_data sample_kernel
        { sample_state with
          udev := { sample_state.udev with control_interface := UVC_VC_PROCESSING_UNIT,
                                           control_type := 2 } }
        { length := 2, data := [250, 0] ++ List.replicate 58 0 } = some s1 ∧
      s1.control_mapping.map (·.value) = [250, 0] ∧
      w = 100 ∧
      s1.calls =
        [ Call.ioctl (Ioctl.VIDIOC_QUERYCTRL .DEVICE_TYPE_V4L2 0x00980900),
          Call.ioctl (Ioctl.VIDIOC_S_CTRL .DEVICE_TYPE_V4L2 0x00980900 w) ] := by
  obtain ⟨s1, w, h1, h2, h3, h4⟩ :=
    control_write_clamp sample_kernel
      { sample_state with
        udev := { sample_state.udev with control_interface := UVC_VC_PROCESSING_UNIT,
                                         control_type := 2 } }
      { length := 2, data := [250, 0] ++ List.replicate 58 0 }
      []
      [{ type := UVC_VC_PROCESSING_UNIT, uvc := 3, v4l2 := 0x00980901, enabled := false }]
      { type := UVC_VC_PROCESSING_UNIT, uvc := 2, v4l2 := 0x00980900, enabled := true,
        value := 150, length := 2, minimum := 0, maximum := 200, step := 1,
        default_value := 100, v4l2_minimum := -100, v4l2_maximum := 100 }
      rfl (by decide) rfl (by decide) (by decide) (by decide) (by decide)
  have hw : w = 100 := by
    have h : (some w : Option Int) = some 100 := by
      rw [← h3]; decide
    exact Option.some.inj h
  refine ⟨s1, w, h1, ?_, hw, ?_⟩
  · rw [h2]; decide
  · rw [h4, hw]; decide

/-- C25, the behaviour of the code: on the inventory MJPEG (1,1), MJPEG (1,2),
YUYV (2,1), whose indices are dense, the action MAX chooses the greatest
format index with the greatest frame index of all rows, the pair (2, 2);
no row has it, `uvc_get_frame_format` fails and the builder, which does not
check the result, is undefined. -/
theorem max_pair_names_no_row :
    streaming_control_indices
      [ { defined := true, video_format := V4L2_PIX_FMT_MJPEG, bFormatIndex := 1,
          bFrameIndex := 1, wWidth := 640, wHeight := 480 },
        { defined := true, video_format := V4L2_PIX_FMT_MJPEG, bFormatIndex := 1,
          bFrameIndex := 2, wWidth := 1280, wHeight := 720 },
        { defined := true, video_format := V4L2_PIX_FMT_YUYV, bFormatIndex := 2,
          bFrameIndex := 1, wWidth := 640, wHeight := 480 } ]
      .STREAM_CONTROL_MAX 0 0 = (2, 2) ∧
    uvc_get_frame_format
      [ { defined := true, video_format := V4L2_PIX_FMT_MJPEG, bFormatIndex := 1,
          bFrameIndex := 1, wWidth := 640, wHeight := 480 },
        { defined := true, video_format := V4L2_PIX_FMT_MJPEG, bFormatIndex := 1,
          bFrameIndex := 2, wWidth := 1280, wHeight := 720 },
        { defined := true, video_format := V4L2_PIX_FMT_YUYV, bFormatIndex := 2,
          bFrameIndex := 1, wWidth := 640, wHeight := 480 } ] 2 2 = none ∧
    (uvc_fill_streaming_control sample_kernel
      { uvc_frame_format :=
          [ { defined := true, video_format := V4L2_PIX_FMT_MJPEG, bFormatIndex := 1,
              bFrameIndex := 1, wWidth := 640, wHeight := 480 },
            { defined := true, video_format := V4L2_PIX_FMT_MJPEG, bFormatIndex := 1,
              bFrameIndex := 2, wWidth := 1280, wHeight := 720 },
            { defined := true, video_format := V4L2_PIX_FMT_YUYV, bFormatIndex := 2,
              bFrameIndex := 1, wWidth := 640, wHeight := 480 } ] }
      .STREAM_CONTROL_MAX 0 0).isNone = true := by
  refine ⟨by decide, by decide, ?_⟩
  rfl

/-- C26, the behaviour of the code: a row populated by
`v4l2_apply_camera_control` from a range with `v4l2_min = v4l2_max` has
`maximum = minimum = 0`, so the divisor of `v4l2_set_ctrl` is zero and the
computed value is undefined for every received value; for `__s32` bounds with
`v4l2_min < v4l2_max` the divisor is not zero. -/
theorem control_write_divisor (mapping : control_mapping_pair) (q : v4l2_queryctrl)
    (c : v4l2_control) (v : Nat) :
    (q.minimum = q.maximum →
      ¬ nonzero_divisor { v4l2_apply_camera_control mapping q c with value := v } ∧
      v4l2_ctrl_value { v4l2_apply_camera_control mapping q c with value := v } = none) ∧
    (int32 q.minimum → int32 q.maximum → q.minimum < q.maximum →
      nonzero_divisor { v4l2_apply_camera_control mapping q c with value := v }) := by
  constructor
  · intro h
    have hmax : toUnsigned 32 ((0 - q.minimum) + q.maximum) = 0 := by
      rw [h]
      have : (0 - q.maximum) + q.maximum = 0 := by ring
      rw [this]
      rfl
    constructor
    · unfold nonzero_divisor v4l2_apply_camera_control
      simp only [hmax]
      decide
    · unfold v4l2_ctrl_value v4l2_apply_camera_control
      simp only [hmax]
      rfl
  · intro h1 h2 h3
    unfold int32 at h1 h2
    have hmax : ((toUnsigned 32 ((0 - q.minimum) + q.maximum) : Nat) : Int) =
        q.maximum - q.minimum := by
      rw [toUnsigned_of_range _ (by omega) (by omega)]; ring
    unfold nonzero_divisor v4l2_apply_camera_control
    simp only [hmax, Nat.cast_zero, sub_zero]
    omega

/-- Witness of C26: the query result with `v4l2_min = v4l2_max = 5` gives a
row on which the control write divides by zero. -/
theorem control_write_divisor_witness :
    ¬ nonzero_divisor
        { v4l2_apply_camera_control {} { minimum := 5, maximum := 5 } {} with value := 3 } ∧
    v4l2_ctrl_value
        { v4l2_apply_camera_control {} { minimum := 5, maximum := 5 } {} with value := 3 } =
      none :=
  (control_write_divisor {} { minimum := 5, maximum := 5 } {} 3).1 rfl

theorem setup_without_effect_state (k : Kernel) (s : Bridge) (ctrl : usb_ctrlrequest)
    (resp : uvc_request_data) (h : setup_without_effect s ctrl) :
    ∃ s1 reply, uvc_events_process_setup k s ctrl resp = some (s1, reply) ∧
      s1.udev.control = UVC_VS_CONTROL_UNDEFINED ∧
      s1.udev.control_interface = s.udev.control_interface ∧
      s1.udev.control_type = s.udev.control_type ∧
      s1.control_mapping = s.control_mapping ∧ s1.calls = s.calls := by
  rcases h with h | h | ⟨req, cs, h, h1, h2⟩ | ⟨entity, req, cs, he, h, hrow⟩
  · refine ⟨s.clear_control, resp, ?_, rfl, rfl, rfl, rfl, rfl⟩
    unfold uvc_events_process_setup
    rw [if_neg h]
    rfl
  · by_cases hc : ctrl.bRequestType &&& USB_TYPE_MASK = USB_TYPE_CLASS
    · refine ⟨s.clear_control, resp, ?_, rfl, rfl, rfl, rfl, rfl⟩
      unfold uvc_events_process_setup uvc_events_process_class
      rw [if_pos hc, if_pos h]
      rfl
    · refine ⟨s.clear_control, resp, ?_, rfl, rfl, rfl, rfl, rfl⟩
      unfold uvc_events_process_setup
      rw [if_neg hc]
      rfl
  · refine ⟨s.clear_control, resp, ?_, rfl, rfl, rfl, rfl, rfl⟩
    rw [setup_streaming k s ctrl resp req cs h]
    unfold uvc_events_process_streaming
    rw [if_pos ⟨h1, h2⟩]
  · rw [setup_control k s ctrl resp entity req cs he h]
    rcases hrow with hr | ⟨m, hr, hm⟩
    · rw [interface_control_no_row _ s.clear_control _ _ _ _ hr]
      exact ⟨_, _, rfl, rfl, rfl, rfl, rfl, rfl⟩
    · rw [interface_control_disabled _ s.clear_control _ _ _ _ m hr hm]
      exact ⟨_, _, rfl, rfl, rfl, rfl, rfl, rfl⟩

/-- C21: `uvc_video_process` changes nothing, and so performs no UVC dequeue,
whenever `shutdown_requested` is false and `dqbuf_count + 1 >= qbuf_count` on
the UVC endpoint; otherwise (a shutdown is in progress or at least two buffers
are outstanding) its first call is the UVC dequeue; and when this dequeue
succeeds and the buffer carries the error flag, `shutdown_requested` becomes
true, the dequeue is the only call made and the capture endpoint is
untouched, so the buffer is not queued on capture. -/
theorem throttle_rule (k : Kernel) (s : Bridge) :
    (s.uvc_shutdown_requested = false → s.udev.dqbuf_count + 1 ≥ s.udev.qbuf_count →
      uvc_video_process k s = s) ∧
    (uvc_dequeue_due s →
      ∃ rest, (uvc_video_process k s).calls =
        s.calls ++ Call.ioctl (.VIDIOC_DQBUF .DEVICE_TYPE_UVC) :: rest) ∧
    (uvc_dequeue_due s → 0 ≤ driver_ret k s (.VIDIOC_DQBUF .DEVICE_TYPE_UVC) →
      k.dqbuf_flags .DEVICE_TYPE_UVC &&& V4L2_BUF_FLAG_ERROR ≠ 0 →
      (uvc_video_process k s).uvc_shutdown_requested = true ∧
      (uvc_video_process k s).calls =
        s.calls ++ [Call.ioctl (.VIDIOC_DQBUF .DEVICE_TYPE_UVC)] ∧
      (uvc_video_process k s).udev.dqbuf_count = s.udev.dqbuf_count + 1 ∧
      (uvc_video_process k s).udev.qbuf_count = s.udev.qbuf_count ∧
      (uvc_video_process k s).vdev = s.vdev) := by
  have hgate : uvc_dequeue_due s →
      ¬ (s.uvc_shutdown_requested = false ∧ s.udev.dqbuf_count + 1 ≥ s.udev.qbuf_count) := by
    intro h hc
    rcases h with h | h
    · rw [h] at hc; exact absurd hc.1 (by decide)
    · omega
  refine ⟨?_, ?_, ?_⟩
  · intro h1 h2
    unfold uvc_video_process
    rw [if_pos ⟨h1, h2⟩]
  · intro h
    unfold uvc_video_process
    rw [if_neg (hgate h)]
    by_cases hd : driver_ret k s (.VIDIOC_DQBUF .DEVICE_TYPE_UVC) < 0
    · refine ⟨[], ?_⟩
      simp only [ioctl, if_pos hd]
    · by_cases hf : k.dqbuf_flags .DEVICE_TYPE_UVC &&& V4L2_BUF_FLAG_ERROR ≠ 0
      · refine ⟨[], ?_⟩
        simp only [ioctl, if_neg hd, if_pos hf, driver_queued, Bridge.set_dev]
      · refine ⟨[Call.ioctl
          (.VIDIOC_QBUF .DEVICE_TYPE_V4L2 (k.dqbuf_index .DEVICE_TYPE_UVC) 0)], ?_⟩
        simp only [ioctl, if_neg hd, if_neg hf, driver_queued, Bridge.set_dev, Bridge.dev]
        split_ifs <;> simp
  · intro h hd hf
    have hd1 : ¬ driver_ret k s (.VIDIOC_DQBUF .DEVICE_TYPE_UVC) < 0 := not_lt.mpr hd
    unfold uvc_video_process
    rw [if_neg (hgate h)]
    simp [ioctl, if_neg hd1, if_pos hf, driver_queued, Bridge.set_dev, Bridge.dev]

/-- Witness of C21: with one buffer outstanding and no shutdown nothing
happens; with three outstanding and a kernel that marks the buffer as
erroneous the flag is raised and only the dequeue is made. -/
theorem throttle_rule_witness :
    uvc_video_process sample_kernel
      { udev := { qbuf_count := 2, dqbuf_count := 1, queued := 1 } } =
      { udev := { qbuf_count := 2, dqbuf_count := 1, queued := 1 } } ∧
    (uvc_video_process { sample_kernel with dqbuf_flags := fun _ => V4L2_BUF_FLAG_ERROR }
      { udev := { qbuf_count := 3, queued := 3 } }).uvc_shutdown_requested = true ∧
    (uvc_video_process { sample_kernel with dqbuf_flags := fun _ => V4L2_BUF_FLAG_ERROR }
      { udev := { qbuf_count := 3, queued := 3 } }).calls =
      [Call.ioctl (.VIDIOC_DQBUF .DEVICE_TYPE_UVC)] :=
  ⟨(throttle_rule sample_kernel
      { udev := { qbuf_count := 2, dqbuf_count := 1, queued := 1 } }).1 rfl (by decide),
   ((throttle_rule { sample_kernel with dqbuf_flags := fun _ => V4L2_BUF_FLAG_ERROR }
      { udev := { qbuf_count := 3, queued := 3 } }).2.2
      (by decide) (by decide) (by decide)).1,
   ((throttle_rule { sample_kernel with dqbuf_flags := fun _ => V4L2_BUF_FLAG_ERROR }
      { udev := { qbuf_count := 3, queued := 3 } }).2.2
      (by decide) (by decide) (by decide)).2.1⟩

theorem ioctl_ret (k : Kernel) (s : Bridge) (req : Ioctl) :
    (ioctl k s req).1 = driver_ret k s req := by
  unfold ioctl
  by_cases h : driver_ret k s req < 0
  · simp only [if_pos h]
  · simp only [if_neg h]

theorem driver_queued_state (s : Bridge) (req : Ioctl) :
    ∃ qu qv, driver_queued s req =
      { s with udev := { s.udev with queued := qu }, vdev := { s.vdev with queued := qv } } := by
  cases req with
  | VIDIOC_QBUF dev _ _ => cases dev <;> exact ⟨_, _, rfl⟩
  | VIDIOC_DQBUF dev => cases dev <;> exact ⟨_, _, rfl⟩
  | VIDIOC_REQBUFS dev _ _ => cases dev <;> exact ⟨_, _, rfl⟩
  | VIDIOC_STREAMOFF dev => cases dev <;> exact ⟨_, _, rfl⟩
  | _ => exact ⟨_, _, rfl⟩

theorem ioctl_state (k : Kernel) (s : Bridge) (req : Ioctl) :
    ∃ qu qv, (ioctl k s req).2 =
      { s with udev := { s.udev with queued := qu }, vdev := { s.vdev with queued := qv },
               calls := s.calls ++ [Call.ioctl req] } := by
  unfold ioctl
  by_cases h : driver_ret k s req < 0
  · simp only [if_pos h]
    exact ⟨_, _, rfl⟩
  · simp only [if_neg h]
    obtain ⟨qu, qv, hq⟩ :=
      driver_queued_state { s with calls := s.calls ++ [Call.ioctl req] } req
    exact ⟨qu, qv, hq⟩

theorem ioctl_calls (k : Kernel) (s : Bridge) (req : Ioctl) :
    (ioctl k s req).2.calls = s.calls ++ [Call.ioctl req] := by
  obtain ⟨qu, qv, h⟩ := ioctl_state k s req
  rw [h]

theorem ioctl_shutdown (k : Kernel) (s : Bridge) (req : Ioctl) :
    (ioctl k s req).2.uvc_shutdown_requested = s.uvc_shutdown_requested := by
  obtain ⟨qu, qv, h⟩ := ioctl_state k s req
  rw [h]

theorem ioctl_vdev (k : Kernel) (s : Bridge) (req : Ioctl) :
    (ioctl k s req).2.vdev = { s.vdev with queued := (ioctl k s req).2.vdev.queued } := by
  obtain ⟨qu, qv, h⟩ := ioctl_state k s req
  rw [h]

theorem ioctl_udev (k : Kernel) (s : Bridge) (req : Ioctl) :
    (ioctl k s req).2.udev = { s.udev with queued := (ioctl k s req).2.udev.queued } := by
  obtain ⟨qu, qv, h⟩ := ioctl_state k s req
  rw [h]

theorem ioctl_udev_streaming (k : Kernel) (s : Bridge) (req : Ioctl) :
    (ioctl k s req).2.udev.is_streaming = s.udev.is_streaming := by
  rw [ioctl_udev]

theorem ioctl_udev_dqbuf (k : Kernel) (s : Bridge) (req : Ioctl) :
    (ioctl k s req).2.udev.dqbuf_count = s.udev.dqbuf_count := by
  rw [ioctl_udev]

theorem ioctl_udev_qbuf (k : Kernel) (s : Bridge) (req : Ioctl) :
    (ioctl k s req).2.udev.qbuf_count = s.udev.qbuf_count := by
  rw [ioctl_udev]

theorem ioctl_vdev_dqbuf (k : Kernel) (s : Bridge) (req : Ioctl) :
    (ioctl k s req).2.vdev.dqbuf_count = s.vdev.dqbuf_count := by
  rw [ioctl_vdev]

theorem ioctl_vdev_qbuf (k : Kernel) (s : Bridge) (req : Ioctl) :
    (ioctl k s req).2.vdev.qbuf_count = s.vdev.qbuf_count := by
  rw [ioctl_vdev]

theorem ioctl_counters_lt (k : Kernel) (s : Bridge) (req : Ioctl)
    (_ : (ioctl k s req).1 < 0) :
    (ioctl k s req).2.udev.dqbuf_count = s.udev.dqbuf_count ∧
    (ioctl k s req).2.udev.qbuf_count = s.udev.qbuf_count ∧
    (ioctl k s req).2.vdev.dqbuf_count = s.vdev.dqbuf_count ∧
    (ioctl k s req).2.vdev.qbuf_count = s.vdev.qbuf_count :=
  ⟨ioctl_udev_dqbuf k s req, ioctl_udev_qbuf k s req, ioctl_vdev_dqbuf k s req,
    ioctl_vdev_qbuf k s req⟩

theorem ioctl_counters_ge (k : Kernel) (s : Bridge) (req : Ioctl)
    (_ : ¬ (ioctl k s req).1 < 0) :
    (ioctl k s req).2.udev.dqbuf_count = s.udev.dqbuf_count ∧
    (ioctl k s req).2.udev.qbuf_count = s.udev.qbuf_count ∧
    (ioctl k s req).2.vdev.dqbuf_count = s.vdev.dqbuf_count ∧
    (ioctl k s req).2.vdev.qbuf_count = s.vdev.qbuf_count :=
  ⟨ioctl_udev_dqbuf k s req, ioctl_udev_qbuf k s req, ioctl_vdev_dqbuf k s req,
    ioctl_vdev_qbuf k s req⟩

theorem ioctl_failed (k : Kernel) (s : Bridge) (req : Ioctl) (h : (ioctl k s req).1 < 0) :
    (ioctl k s req).2.udev.queued = s.udev.queued ∧
    (ioctl k s req).2.vdev.queued = s.vdev.queued := by
  rw [ioctl_ret] at h
  unfold ioctl
  simp only [if_pos h, and_self]

theorem ioctl_dqbuf_uvc (k : Kernel) (s : Bridge)
    (h : ¬ (ioctl k s (.VIDIOC_DQBUF .DEVICE_TYPE_UVC)).1 < 0) :
    (ioctl k s (.VIDIOC_DQBUF .DEVICE_TYPE_UVC)).2.udev.queued + 1 = s.udev.queued ∧
    (ioctl k s (.VIDIOC_DQBUF .DEVICE_TYPE_UVC)).2.vdev.queued = s.vdev.queued := by
  rw [ioctl_ret] at h
  have hq : s.udev.queued ≠ 0 := by
    intro h0
    apply h
    unfold driver_ret
    simp only [Bridge.dev]
    rw [if_pos h0]
    decide
  unfold ioctl
  simp only [if_neg h, driver_queued, Bridge.set_dev, Bridge.dev, and_true]
  omega

theorem ioctl_dqbuf_v4l2 (k : Kernel) (s : Bridge)
    (h : ¬ (ioctl k s (.VIDIOC_DQBUF .DEVICE_TYPE_V4L2)).1 < 0) :
    (ioctl k s (.VIDIOC_DQBUF .DEVICE_TYPE_V4L2)).2.vdev.queued + 1 = s.vdev.queued ∧
    (ioctl k s (.VIDIOC_DQBUF .DEVICE_TYPE_V4L2)).2.udev.queued = s.udev.queued := by
  rw [ioctl_ret] at h
  have hq : s.vdev.queued ≠ 0 := by
    intro h0
    apply h
    unfold driver_ret
    simp only [Bridge.dev]
    rw [if_pos h0]
    decide
  unfold ioctl
  simp only [if_neg h, driver_queued, Bridge.set_dev, Bridge.dev, and_true]
  omega

theorem ioctl_qbuf_uvc (k : Kernel) (s : Bridge) (i b : Nat)
    (h : ¬ (ioctl k s (.VIDIOC_QBUF .DEVICE_TYPE_UVC i b)).1 < 0) :
    (ioctl k s (.VIDIOC_QBUF .DEVICE_TYPE_UVC i b)).2.udev.queued = s.udev.queued + 1 ∧
    (ioctl k s (.VIDIOC_QBUF .DEVICE_TYPE_UVC i b)).2.vdev.queued = s.vdev.queued := by
  rw [ioctl_ret] at h
  unfold ioctl
  simp only [if_neg h, driver_queued, Bridge.set_dev, Bridge.dev, and_self]

theorem ioctl_qbuf_v4l2 (k : Kernel) (s : Bridge) (i b : Nat)
    (h : ¬ (ioctl k s (.VIDIOC_QBUF .DEVICE_TYPE_V4L2 i b)).1 < 0) :
    (ioctl k s (.VIDIOC_QBUF .DEVICE_TYPE_V4L2 i b)).2.vdev.queued = s.vdev.queued + 1 ∧
    (ioctl k s (.VIDIOC_QBUF .DEVICE_TYPE_V4L2 i b)).2.udev.queued = s.udev.queued := by
  rw [ioctl_ret] at h
  unfold ioctl
  simp only [if_neg h, driver_queued, Bridge.set_dev, Bridge.dev, and_self]

theorem ioctl_streamon (k : Kernel) (s : Bridge) (dev : device_type) :
    (ioctl k s (.VIDIOC_STREAMON dev)).2.udev.queued = s.udev.queued ∧
    (ioctl k s (.VIDIOC_STREAMON dev)).2.vdev.queued = s.vdev.queued := by
  unfold ioctl
  split_ifs <;> exact ⟨rfl, rfl⟩

/-- The part of `v4l2_process_data` that follows a capture dequeue, on the
state with the counter already raised. -/
theorem process_data_queue (k : Kernel) (s : Bridge)
    (h : ¬ (s.udev.is_streaming = true ∧ s.vdev.dqbuf_count ≥ s.vdev.qbuf_count))
    (hd : 0 ≤ driver_ret k s (.VIDIOC_DQBUF .DEVICE_TYPE_V4L2))
    (hm : s.vdev.mem.has (k.dqbuf_index .DEVICE_TYPE_V4L2) = true) :
    ∃ s1 : Bridge,
      s1.calls = s.calls ++ [Call.ioctl (.VIDIOC_DQBUF .DEVICE_TYPE_V4L2)] ∧
      s1.vdev.dqbuf_count = s.vdev.dqbuf_count + 1 ∧
      s1.uvc_shutdown_requested = s.uvc_shutdown_requested ∧
      (s1.vdev.qbuf_count = s.vdev.qbuf_count ∧ s1.vdev.queued + 1 = s.vdev.queued ∧
        s1.udev.dqbuf_count = s.udev.dqbuf_count ∧ s1.udev.qbuf_count = s.udev.qbuf_count ∧
        s1.udev.queued = s.udev.queued ∧ s1.udev.is_streaming = s.udev.is_streaming) ∧
      v4l2_process_data k s =
        (let q := Ioctl.VIDIOC_QBUF .DEVICE_TYPE_UVC (k.dqbuf_index .DEVICE_TYPE_V4L2)
          (k.dqbuf_bytesused .DEVICE_TYPE_V4L2)
        let r2 := ioctl k s1 q
        if r2.1 < 0 then
          if k.errno q = ENODEV then some { r2.2 with uvc_shutdown_requested := true }
          else some r2.2
        else
          let s2 : Bridge :=
            { r2.2 with udev := { r2.2.udev with qbuf_count := r2.2.udev.qbuf_count + 1 } }
          if s2.udev.is_streaming then some s2
          else some (v4l2_video_stream k s2 .DEVICE_TYPE_UVC .STREAM_ON).2) := by
  have hd1 : ¬ (ioctl k s (.VIDIOC_DQBUF .DEVICE_TYPE_V4L2)).1 < 0 := by
    rw [ioctl_ret]; exact not_lt.mpr hd
  have hm1 : (ioctl k s (.VIDIOC_DQBUF .DEVICE_TYPE_V4L2)).2.vdev.mem.has
      (k.dqbuf_index .DEVICE_TYPE_V4L2) = true := by
    rw [ioctl_vdev]; exact hm
  refine ⟨{ (ioctl k s (.VIDIOC_DQBUF .DEVICE_TYPE_V4L2)).2 with
    vdev := { (ioctl k s (.VIDIOC_DQBUF .DEVICE_TYPE_V4L2)).2.vdev with
      dqbuf_count := (ioctl k s (.VIDIOC_DQBUF .DEVICE_TYPE_V4L2)).2.vdev.dqbuf_count + 1 } },
    ioctl_calls k s _, ?_, ioctl_shutdown k s _,
    ⟨ioctl_vdev_qbuf k s _, (ioctl_dqbuf_v4l2 k s hd1).1, ioctl_udev_dqbuf k s _,
      ioctl_udev_qbuf k s _, (ioctl_dqbuf_v4l2 k s hd1).2,
      ioctl_udev_streaming k s _⟩, ?_⟩
  · show (ioctl k s (.VIDIOC_DQBUF .DEVICE_TYPE_V4L2)).2.vdev.dqbuf_count + 1 = _
    rw [ioctl_vdev]
  · unfold v4l2_process_data
    rw [if_neg h]
    simp only [if_neg hd1, hm1, if_true]

theorem video_stream_on_calls (k : Kernel) (s : Bridge) (dev : device_type) :
    (v4l2_video_stream k s dev .STREAM_ON).2.calls =
      s.calls ++ [Call.ioctl (.VIDIOC_STREAMON dev)] := by
  unfold v4l2_video_stream
  simp only [if_true]
  split_ifs
  · exact ioctl_calls k s _
  · cases dev <;> exact ioctl_calls k s _

theorem video_stream_on_vdev (k : Kernel) (s : Bridge) :
    (v4l2_video_stream k s .DEVICE_TYPE_UVC .STREAM_ON).2.vdev.dqbuf_count =
      s.vdev.dqbuf_count := by
  unfold v4l2_video_stream
  simp only [if_true]
  split_ifs
  · rw [ioctl_vdev]
  · show (ioctl k s _).2.vdev.dqbuf_count = _
    rw [ioctl_vdev]
theorem set_dev_shutdown (s : Bridge) (dev : device_type) (d : v4l2_device) :
    (s.set_dev dev d).uvc_shutdown_requested = s.uvc_shutdown_requested := by
  cases dev <;> rfl

theorem video_stream_off_shutdown (k : Kernel) (s : Bridge) (dev : device_type) :
    (v4l2_video_stream k s dev .STREAM_OFF).2.uvc_shutdown_requested =
      s.uvc_shutdown_requested := by
  have h0 : ¬ video_stream_action.STREAM_OFF = .STREAM_ON := by decide
  unfold v4l2_video_stream
  simp only [if_neg h0]
  split_ifs
  · exact ioctl_shutdown k s _
  · rw [set_dev_shutdown]; exact ioctl_shutdown k s _
  · rfl

theorem video_stream_on_shutdown (k : Kernel) (s : Bridge) (dev : device_type) :
    (v4l2_video_stream k s dev .STREAM_ON).2.uvc_shutdown_requested =
      (if k.ret (.VIDIOC_STREAMON dev) < 0 then s.uvc_shutdown_requested else false) := by
  have hret : (ioctl k s (.VIDIOC_STREAMON dev)).1 = k.ret (.VIDIOC_STREAMON dev) := by
    rw [ioctl_ret]; rfl
  unfold v4l2_video_stream
  simp only [if_true, hret]
  split_ifs
  · exact ioctl_shutdown k s _
  · rfl

theorem reqbufs_mmap_loop_shutdown (k : Kernel) (dev : device_type) :
    ∀ (n i : Nat) (s : Bridge),
      (v4l2_reqbufs_mmap_loop k dev n i s).2.uvc_shutdown_requested =
        s.uvc_shutdown_requested := by
  intro n
  induction n with
  | zero => intro i s; rfl
  | succ n ih =>
    intro i s
    unfold v4l2_reqbufs_mmap_loop
    simp only []
    split_ifs
    · rw [set_dev_shutdown]; exact ioctl_shutdown k s _
    · rw [set_dev_shutdown]; exact ioctl_shutdown k s _
    · rw [ih]; exact ioctl_shutdown k s _

theorem reqbufs_shutdown (k : Kernel) (s : Bridge) (dev : device_type) (nbufs : Nat) :
    (v4l2_reqbufs k s dev nbufs).2.uvc_shutdown_requested = s.uvc_shutdown_requested := by
  have hinit : ∀ t : Bridge, (v4l2_init_buffers k t dev nbufs).2.2.uvc_shutdown_requested =
      t.uvc_shutdown_requested := by
    intro t
    unfold v4l2_init_buffers
    simp only []
    split_ifs <;> exact ioctl_shutdown k t _
  unfold v4l2_reqbufs v4l2_reqbufs_mmap
  simp only []
  split_ifs <;>
    simp only [set_dev_shutdown, reqbufs_mmap_loop_shutdown, hinit]

theorem qbuf_mmap_loop_shutdown (k : Kernel) (dev : device_type) :
    ∀ (n i : Nat) (s : Bridge) (r : Int × Bridge),
      v4l2_qbuf_mmap_loop k dev n i s = some r →
      r.2.uvc_shutdown_requested = s.uvc_shutdown_requested := by
  intro n
  induction n with
  | zero =>
    intro i s r h
    unfold v4l2_qbuf_mmap_loop at h
    cases h
    rfl
  | succ n ih =>
    intro i s r h
    unfold v4l2_qbuf_mmap_loop at h
    simp only [] at h
    split_ifs at h with h1 h2
    · cases h
      exact ioctl_shutdown k s _
    · rw [ih _ _ _ h, set_dev_shutdown]
      exact ioctl_shutdown k s _

theorem uninit_device_shutdown (k : Kernel) (s s1 : Bridge) (dev : device_type)
    (h : v4l2_uninit_device k s dev = some s1) :
    s1.uvc_shutdown_requested = s.uvc_shutdown_requested := by
  unfold v4l2_uninit_device at h
  split_ifs at h
  · split at h
    · cases h; rfl
    · cases h
    · split at h
      · cases h
      · cases h; rfl
      · cases h; rw [set_dev_shutdown]
  · cases h; rfl

theorem device_stream_off_shutdown (k : Kernel) (s s1 : Bridge) (dev : device_type)
    (h : v4l2_device_stream_off k s dev = some s1) :
    s1.uvc_shutdown_requested = s.uvc_shutdown_requested := by
  unfold v4l2_device_stream_off at h
  simp only [] at h
  split at h
  · cases h
  · rename_i s2 hs2
    cases h
    rw [reqbufs_shutdown, uninit_device_shutdown k _ s2 dev hs2]
    split_ifs
    · exact video_stream_off_shutdown k s dev
    · rfl

theorem streamoff_event_shutdown (k : Kernel) (s s1 : Bridge)
    (h : uvc_handle_streamoff_event k s = some s1) :
    s1.uvc_shutdown_requested = s.uvc_shutdown_requested := by
  unfold uvc_handle_streamoff_event at h
  split at h
  · cases h
  · rename_i s2 hs2
    rw [device_stream_off_shutdown k s2 s1 _ h, device_stream_off_shutdown k s s2 _ hs2]

theorem streamon_event_shutdown (k : Kernel) (s s1 : Bridge)
    (h : uvc_handle_streamon_event k s = some s1) :
    s1.uvc_shutdown_requested =
      s.uvc_shutdown_requested ∨
    (0 ≤ k.ret (.VIDIOC_STREAMON .DEVICE_TYPE_V4L2) ∧ s1.uvc_shutdown_requested = false) := by
  unfold uvc_handle_streamon_event at h
  simp only [] at h
  split_ifs at h with h1 h2
  · cases h
    exact Or.inl (reqbufs_shutdown k s _ _)
  · cases h
    left
    rw [reqbufs_shutdown, reqbufs_shutdown]
  · split at h
    · cases h
    · rename_i r3 hr3
      have hq := qbuf_mmap_loop_shutdown k .DEVICE_TYPE_V4L2 _ _ _ r3 hr3
      rw [reqbufs_shutdown, reqbufs_shutdown] at hq
      split_ifs at h with h3
      · cases h
        exact Or.inl hq
      · cases h
        rw [video_stream_on_shutdown]
        by_cases h4 : k.ret (.VIDIOC_STREAMON .DEVICE_TYPE_V4L2) < 0
        · rw [if_pos h4]; exact Or.inl hq
        · rw [if_neg h4]; exact Or.inr ⟨not_lt.mp h4, rfl⟩

theorem video_process_shutdown (k : Kernel) (s : Bridge)
    (h : s.uvc_shutdown_requested = true) :
    (uvc_video_process k s).uvc_shutdown_requested = true := by
  have a := ioctl_shutdown k s (.VIDIOC_DQBUF .DEVICE_TYPE_UVC)
  unfold uvc_video_process
  simp only []
  split_ifs
  · exact h
  · rw [a]; exact h
  · rfl
  · rw [ioctl_shutdown]; exact a.trans h
  · show (ioctl k _ _).2.uvc_shutdown_requested = true
    rw [ioctl_shutdown]; exact a.trans h
  · show (ioctl k _ _).2.uvc_shutdown_requested = true
    rw [ioctl_shutdown]; exact a.trans h

theorem process_data_shutdown (k : Kernel) (s s1 : Bridge)
    (h : v4l2_process_data k s = some s1) (hf : s.uvc_shutdown_requested = true) :
    s1.uvc_shutdown_requested = true ∨
    (s.udev.is_streaming = false ∧ 0 ≤ k.ret (.VIDIOC_STREAMON .DEVICE_TYPE_UVC) ∧
      ∃ pre, s1.calls = pre ++ [Call.ioctl (.VIDIOC_STREAMON .DEVICE_TYPE_UVC)]) := by
  by_cases h1 : s.udev.is_streaming = true ∧ s.vdev.dqbuf_count ≥ s.vdev.qbuf_count
  · unfold v4l2_process_data at h
    rw [if_pos h1] at h
    cases h
    exact Or.inl hf
  by_cases h2 : (ioctl k s (.VIDIOC_DQBUF .DEVICE_TYPE_V4L2)).1 < 0
  · unfold v4l2_process_data at h
    rw [if_neg h1] at h
    simp only [if_pos h2] at h
    cases h
    exact Or.inl ((ioctl_shutdown k s _).trans hf)
  by_cases h3 : s.vdev.mem.has (k.dqbuf_index .DEVICE_TYPE_V4L2) = true
  · rw [ioctl_ret] at h2
    obtain ⟨t, -, -, hsh, ⟨-, -, -, -, -, htu⟩, heq⟩ :=
      process_data_queue k s h1 (not_lt.mp h2) h3
    rw [heq] at h
    simp only [] at h
    split_ifs at h with h4 h5 h6
    · cases h
      exact Or.inl rfl
    · cases h
      exact Or.inl ((ioctl_shutdown k t _).trans (hsh.trans hf))
    · cases h
      left
      show (ioctl k t _).2.uvc_shutdown_requested = true
      exact (ioctl_shutdown k t _).trans (hsh.trans hf)
    · cases h
      rw [video_stream_on_shutdown]
      by_cases h7 : k.ret (.VIDIOC_STREAMON .DEVICE_TYPE_UVC) < 0
      · rw [if_pos h7]
        left
        show (ioctl k t _).2.uvc_shutdown_requested = true
        exact (ioctl_shutdown k t _).trans (hsh.trans hf)
      · right
        refine ⟨?_, not_lt.mp h7, _, video_stream_on_calls k _ _⟩
        have h8 : (ioctl k t (.VIDIOC_QBUF .DEVICE_TYPE_UVC
            (k.dqbuf_index .DEVICE_TYPE_V4L2)
            (k.dqbuf_bytesused .DEVICE_TYPE_V4L2))).2.udev.is_streaming = false := by
          simpa using h6
        rw [ioctl_udev] at h8
        rw [← htu]
        exact h8
  · unfold v4l2_process_data at h
    rw [if_neg h1] at h
    have h3a : (ioctl k s (.VIDIOC_DQBUF .DEVICE_TYPE_V4L2)).2.vdev.mem.has
        (k.dqbuf_index .DEVICE_TYPE_V4L2) = false := by
      rw [ioctl_vdev]
      exact Bool.eq_false_iff.mpr h3
    simp only [if_neg h2, h3a] at h
    exact absurd h (by simp)

theorem video_stream_on_counts (k : Kernel) (s : Bridge)
    (hu : counts_match s.udev) (hv : counts_match s.vdev) :
    counts_match (v4l2_video_stream k s .DEVICE_TYPE_UVC .STREAM_ON).2.udev ∧
    counts_match (v4l2_video_stream k s .DEVICE_TYPE_UVC .STREAM_ON).2.vdev := by
  unfold counts_match at *
  have h1 := ioctl_streamon k s .DEVICE_TYPE_UVC
  have h2 := ioctl_udev_dqbuf k s (.VIDIOC_STREAMON .DEVICE_TYPE_UVC)
  have h3 := ioctl_udev_qbuf k s (.VIDIOC_STREAMON .DEVICE_TYPE_UVC)
  have h4 := ioctl_vdev_dqbuf k s (.VIDIOC_STREAMON .DEVICE_TYPE_UVC)
  have h5 := ioctl_vdev_qbuf k s (.VIDIOC_STREAMON .DEVICE_TYPE_UVC)
  unfold v4l2_video_stream
  simp only [if_true]
  split_ifs
  · omega
  · simp only [Bridge.set_dev, Bridge.dev]
    omega

theorem process_data_counts (k : Kernel) (s s1 : Bridge)
    (hu : counts_match s.udev) (hv : counts_match s.vdev)
    (h : v4l2_process_data k s = some s1) :
    counts_match s1.udev ∧ counts_match s1.vdev := by
  by_cases h1 : s.udev.is_streaming = true ∧ s.vdev.dqbuf_count ≥ s.vdev.qbuf_count
  · unfold v4l2_process_data at h
    rw [if_pos h1] at h
    cases h
    exact ⟨hu, hv⟩
  by_cases h2 : (ioctl k s (.VIDIOC_DQBUF .DEVICE_TYPE_V4L2)).1 < 0
  · unfold v4l2_process_data at h
    rw [if_neg h1] at h
    simp only [if_pos h2] at h
    cases h
    unfold counts_match at *
    have a := ioctl_failed k s _ h2
    have b1 := ioctl_udev_dqbuf k s (.VIDIOC_DQBUF .DEVICE_TYPE_V4L2)
    have b2 := ioctl_udev_qbuf k s (.VIDIOC_DQBUF .DEVICE_TYPE_V4L2)
    have b3 := ioctl_vdev_dqbuf k s (.VIDIOC_DQBUF .DEVICE_TYPE_V4L2)
    have b4 := ioctl_vdev_qbuf k s (.VIDIOC_DQBUF .DEVICE_TYPE_V4L2)
    omega
  by_cases h3 : s.vdev.mem.has (k.dqbuf_index .DEVICE_TYPE_V4L2) = true
  · rw [ioctl_ret] at h2
    obtain ⟨t, -, hdq, -, ⟨c1, c2, c3, c4, c5, -⟩, heq⟩ :=
      process_data_queue k s h1 (not_lt.mp h2) h3
    rw [heq] at h
    simp only [] at h
    unfold counts_match at hu hv
    have hut : counts_match t.udev := by unfold counts_match; omega
    have hvt : counts_match t.vdev := by unfold counts_match; omega
    have b1 := ioctl_udev_dqbuf k t (.VIDIOC_QBUF .DEVICE_TYPE_UVC
      (k.dqbuf_index .DEVICE_TYPE_V4L2) (k.dqbuf_bytesused .DEVICE_TYPE_V4L2))
    have b2 := ioctl_udev_qbuf k t (.VIDIOC_QBUF .DEVICE_TYPE_UVC
      (k.dqbuf_index .DEVICE_TYPE_V4L2) (k.dqbuf_bytesused .DEVICE_TYPE_V4L2))
    have b3 := ioctl_vdev_dqbuf k t (.VIDIOC_QBUF .DEVICE_TYPE_UVC
      (k.dqbuf_index .DEVICE_TYPE_V4L2) (k.dqbuf_bytesused .DEVICE_TYPE_V4L2))
    have b4 := ioctl_vdev_qbuf k t (.VIDIOC_QBUF .DEVICE_TYPE_UVC
      (k.dqbuf_index .DEVICE_TYPE_V4L2) (k.dqbuf_bytesused .DEVICE_TYPE_V4L2))
    unfold counts_match at hut hvt
    split_ifs at h with h4 h5 h6
    · cases h
      have a := ioctl_failed k t _ h4
      unfold counts_match
      simp only []
      omega
    · cases h
      have a := ioctl_failed k t _ h4
      unfold counts_match
      omega
    · cases h
      have a := ioctl_qbuf_uvc k t _ _ h4
      unfold counts_match
      simp only []
      omega
    · cases h
      have a := ioctl_qbuf_uvc k t _ _ h4
      apply video_stream_on_counts
      · unfold counts_match
        simp only []
        omega
      · unfold counts_match
        simp only []
        omega
  · unfold v4l2_process_data at h
    rw [if_neg h1] at h
    have h3a : (ioctl k s (.VIDIOC_DQBUF .DEVICE_TYPE_V4L2)).2.vdev.mem.has
        (k.dqbuf_index .DEVICE_TYPE_V4L2) = false := by
      rw [ioctl_vdev]
      exact Bool.eq_false_iff.mpr h3
    simp only [if_neg h2, h3a] at h
    exact absurd h (by simp)

theorem video_process_counts (k : Kernel) (s : Bridge)
    (hu : counts_match s.udev) (hv : counts_match s.vdev) :
    counts_match (uvc_video_process k s).udev ∧ counts_match (uvc_video_process k s).vdev := by
  unfold uvc_video_process
  simp only []
  have b1 := ioctl_udev_dqbuf k s (.VIDIOC_DQBUF .DEVICE_TYPE_UVC)
  have b2 := ioctl_udev_qbuf k s (.VIDIOC_DQBUF .DEVICE_TYPE_UVC)
  have b3 := ioctl_vdev_dqbuf k s (.VIDIOC_DQBUF .DEVICE_TYPE_UVC)
  have b4 := ioctl_vdev_qbuf k s (.VIDIOC_DQBUF .DEVICE_TYPE_UVC)
  split_ifs with h1 h2 h3 h4 h5
  · exact ⟨hu, hv⟩
  · have a := ioctl_failed k s _ h2
    unfold counts_match at *
    omega
  · have a := ioctl_dqbuf_uvc k s h2
    unfold counts_match at *
    simp only []
    omega
  · have a := ioctl_dqbuf_uvc k s h2
    have c := ioctl_failed k _ _ h4
    have d := ioctl_counters_lt k _ _ h4
    unfold counts_match at *
    simp only [] at c d
    omega
  · have a := ioctl_dqbuf_uvc k s h2
    have c := ioctl_qbuf_v4l2 k _ _ _ h4
    have d := ioctl_counters_ge k _ _ h4
    unfold counts_match at *
    simp only [] at c d ⊢
    omega
  · have a := ioctl_dqbuf_uvc k s h2
    have c := ioctl_qbuf_v4l2 k _ _ _ h4
    have d := ioctl_counters_ge k _ _ h4
    unfold counts_match at *
    simp only [] at c d ⊢
    omega
/-- C17, the behaviour of the code: the two shuttle functions keep, on each
endpoint, `qbuf_count - dqbuf_count` equal to the number of buffers the driver
holds (so `qbuf_count >= dqbuf_count`); the STREAMON handler does not:
`v4l2_reqbufs` clears both counters before `VIDIOC_REQBUFS` is made, so a
second STREAMON whose request the capture driver refuses leaves the capture
endpoint with `qbuf_count = 0` while its driver still holds four buffers, and
the next `v4l2_process_data` dequeues one: `dqbuf_count = 1 > qbuf_count = 0`. -/
theorem buffer_count_invariant :
    (∀ (k : Kernel) (s : Bridge), counts_match s.udev → counts_match s.vdev →
      (counts_match (uvc_video_process k s).udev ∧
        counts_match (uvc_video_process k s).vdev) ∧
      (∀ s1, v4l2_process_data k s = some s1 →
        counts_match s1.udev ∧ counts_match s1.vdev)) ∧
    (∃ s1 s2 s3,
      uvc_handle_streamon_event sample_kernel sample_idle = some s1 ∧
      (counts_match s1.udev ∧ counts_match s1.vdev ∧ s1.vdev.qbuf_count = 4) ∧
      uvc_handle_streamon_event busy_kernel s1 = some s2 ∧
      (s2.vdev.queued = 4 ∧ s2.vdev.qbuf_count = 0 ∧ s2.vdev.dqbuf_count = 0) ∧
      v4l2_process_data sample_kernel s2 = some s3 ∧
      s3.vdev.dqbuf_count = 1 ∧ s3.vdev.qbuf_count = 0 ∧
      ¬ (s3.vdev.qbuf_count ≥ s3.vdev.dqbuf_count)) := by
  refine ⟨fun k s hu hv =>
    ⟨video_process_counts k s hu hv, fun s1 h => process_data_counts k s s1 hu hv h⟩, ?_⟩
  refine ⟨_, _, _, rfl, ?_, rfl, ?_, rfl, ?_, ?_, ?_⟩
  · decide
  · decide
  · decide
  · decide
  · decide

/-- Witness of C17: in a state with two buffers on the UVC node and two on the
capture node, one run of `uvc_video_process` keeps the counters of both
endpoints in step with their drivers. -/
theorem buffer_count_invariant_witness :
    counts_match (uvc_video_process sample_kernel
      { udev := { qbuf_count := 3, dqbuf_count := 1, queued := 2 },
        vdev := { qbuf_count := 4, dqbuf_count := 2, queued := 2 } }).udev ∧
    counts_match (uvc_video_process sample_kernel
      { udev := { qbuf_count := 3, dqbuf_count := 1, queued := 2 },
        vdev := { qbuf_count := 4, dqbuf_count := 2, queued := 2 } }).vdev :=
  (buffer_count_invariant.1 sample_kernel
    { udev := { qbuf_count := 3, dqbuf_count := 1, queued := 2 },
      vdev := { qbuf_count := 4, dqbuf_count := 2, queued := 2 } }
    (by decide) (by decide)).1

theorem ioctl_querybuf (k : Kernel) (s : Bridge) (dev : device_type) (i : Nat)
    (h : 0 ≤ k.ret (.VIDIOC_QUERYBUF dev i)) :
    ioctl k s (.VIDIOC_QUERYBUF dev i) =
      (k.ret (.VIDIOC_QUERYBUF dev i),
        { s with calls := s.calls ++ [Call.ioctl (.VIDIOC_QUERYBUF dev i)] }) := by
  have h1 : ¬ driver_ret k s (.VIDIOC_QUERYBUF dev i) < 0 := not_lt.mpr h
  unfold ioctl
  simp only [if_neg h1]
  rfl

theorem ioctl_qbuf_capture (k : Kernel) (s : Bridge) (i b : Nat)
    (h : 0 ≤ k.ret (.VIDIOC_QBUF .DEVICE_TYPE_V4L2 i b)) :
    ioctl k s (.VIDIOC_QBUF .DEVICE_TYPE_V4L2 i b) =
      (k.ret (.VIDIOC_QBUF .DEVICE_TYPE_V4L2 i b),
        { s with vdev := { s.vdev with queued := s.vdev.queued + 1 },
                 calls := s.calls ++ [Call.ioctl (.VIDIOC_QBUF .DEVICE_TYPE_V4L2 i b)] }) := by
  have h1 : ¬ driver_ret k s (.VIDIOC_QBUF .DEVICE_TYPE_V4L2 i b) < 0 := not_lt.mpr h
  unfold ioctl
  simp only [if_neg h1]
  rfl

theorem reqbufs_mmap_loop_ok (k : Kernel) (dev : device_type) (hk : kernel_succeeds k) :
    ∀ (n i : Nat) (s : Bridge),
      ∃ c, v4l2_reqbufs_mmap_loop k dev n i s = (0, { s with calls := c }) := by
  intro n
  induction n with
  | zero => intro i s; exact ⟨s.calls, rfl⟩
  | succ n ih =>
    intro i s
    have h1 : ¬ k.ret (.VIDIOC_QUERYBUF dev i) < 0 := not_lt.mpr (hk.1 _)
    obtain ⟨c, hc⟩ := ih (i + 1)
      { s with calls := s.calls ++ [Call.ioctl (.VIDIOC_QUERYBUF dev i)] }
    refine ⟨c, ?_⟩
    unfold v4l2_reqbufs_mmap_loop
    simp only [ioctl_querybuf k s dev i (hk.1 _), if_neg h1, hk.2.1 dev i,
      Bool.false_eq_true, if_false]
    exact hc

theorem qbuf_mmap_loop_ok (k : Kernel) (hk : kernel_succeeds k) (m : Nat) :
    ∀ (n i : Nat) (s : Bridge), s.vdev.mem = .mapped m → i + n ≤ m →
      ∃ c, v4l2_qbuf_mmap_loop k .DEVICE_TYPE_V4L2 n i s =
        some (0, { s with vdev := { s.vdev with qbuf_count := s.vdev.qbuf_count + n,
                                                queued := s.vdev.queued + n },
                          calls := c }) := by
  intro n
  induction n with
  | zero => intro i s _ _; exact ⟨s.calls, rfl⟩
  | succ n ih =>
    intro i s hm hi
    have h1 : ¬ k.ret (.VIDIOC_QBUF .DEVICE_TYPE_V4L2 i 0) < 0 := not_lt.mpr (hk.1 _)
    have hhas : (s.dev .DEVICE_TYPE_V4L2).mem.has i = true := by
      show s.vdev.mem.has i = true
      rw [hm]
      unfold buffer_array.has
      exact decide_eq_true (by omega)
    obtain ⟨c, hc⟩ := ih (i + 1)
      { s with vdev := { s.vdev with queued := s.vdev.queued + 1,
                                     qbuf_count := s.vdev.qbuf_count + 1 },
               calls := s.calls ++ [Call.ioctl (.VIDIOC_QBUF .DEVICE_TYPE_V4L2 i 0)] }
      hm (by omega)
    refine ⟨c, ?_⟩
    unfold v4l2_qbuf_mmap_loop
    rw [if_pos hhas]
    simp only [ioctl_qbuf_capture k s i 0 (hk.1 _), if_neg h1]
    have e1 : s.vdev.qbuf_count + (n + 1) = s.vdev.qbuf_count + 1 + n := by omega
    have e2 : s.vdev.queued + (n + 1) = s.vdev.queued + 1 + n := by omega
    rw [e1, e2]
    exact hc

theorem uninit_device_loop_ok (k : Kernel) (dev : device_type) (hk : kernel_succeeds k)
    (m : Nat) :
    ∀ (n i : Nat), i + n ≤ m →
      v4l2_uninit_device_loop k dev (.mapped m) n i = some true := by
  intro n
  induction n with
  | zero => intro i _; rfl
  | succ n ih =>
    intro i hi
    have h1 : ¬ k.munmap dev i < 0 := not_lt.mpr (hk.2.2 dev i)
    have hhas : (buffer_array.mapped m).has i = true := by
      unfold buffer_array.has
      exact decide_eq_true (by omega)
    unfold v4l2_uninit_device_loop
    rw [if_pos hhas, if_neg h1]
    exact ih (i + 1) (by omega)
theorem ioctl_reqbufs_capture (k : Kernel) (s : Bridge) (n m : Nat)
    (h : 0 ≤ k.ret (.VIDIOC_REQBUFS .DEVICE_TYPE_V4L2 n m)) :
    ioctl k s (.VIDIOC_REQBUFS .DEVICE_TYPE_V4L2 n m) =
      (k.ret (.VIDIOC_REQBUFS .DEVICE_TYPE_V4L2 n m),
        { s with vdev := { s.vdev with queued := 0 },
                 calls := s.calls ++ [Call.ioctl (.VIDIOC_REQBUFS .DEVICE_TYPE_V4L2 n m)] }) := by
  have h1 : ¬ driver_ret k s (.VIDIOC_REQBUFS .DEVICE_TYPE_V4L2 n m) < 0 := not_lt.mpr h
  unfold ioctl
  simp only [if_neg h1]
  rfl

theorem ioctl_reqbufs_uvc (k : Kernel) (s : Bridge) (n m : Nat)
    (h : 0 ≤ k.ret (.VIDIOC_REQBUFS .DEVICE_TYPE_UVC n m)) :
    ioctl k s (.VIDIOC_REQBUFS .DEVICE_TYPE_UVC n m) =
      (k.ret (.VIDIOC_REQBUFS .DEVICE_TYPE_UVC n m),
        { s with udev := { s.udev with queued := 0 },
                 calls := s.calls ++ [Call.ioctl (.VIDIOC_REQBUFS .DEVICE_TYPE_UVC n m)] }) := by
  have h1 : ¬ driver_ret k s (.VIDIOC_REQBUFS .DEVICE_TYPE_UVC n m) < 0 := not_lt.mpr h
  unfold ioctl
  simp only [if_neg h1]
  rfl

theorem init_buffers_capture (k : Kernel) (s : Bridge) (n : Nat) (hk : kernel_succeeds k) :
    v4l2_init_buffers k s .DEVICE_TYPE_V4L2 n =
      (toInt32 n, k.reqbufs_count .DEVICE_TYPE_V4L2 n,
        { s with vdev := { s.vdev with queued := 0 },
                 calls := s.calls ++
                   [Call.ioctl (.VIDIOC_REQBUFS .DEVICE_TYPE_V4L2 n s.vdev.memory_type)] }) := by
  have h1 : ¬ k.ret (.VIDIOC_REQBUFS .DEVICE_TYPE_V4L2 n s.vdev.memory_type) < 0 :=
    not_lt.mpr (hk.1 _)
  unfold v4l2_init_buffers
  simp only [Bridge.dev, ioctl_reqbufs_capture k s n _ (hk.1 _), if_neg h1]

theorem init_buffers_uvc (k : Kernel) (s : Bridge) (n : Nat) (hk : kernel_succeeds k) :
    v4l2_init_buffers k s .DEVICE_TYPE_UVC n =
      (toInt32 n, k.reqbufs_count .DEVICE_TYPE_UVC n,
        { s with udev := { s.udev with queued := 0 },
                 calls := s.calls ++
                   [Call.ioctl (.VIDIOC_REQBUFS .DEVICE_TYPE_UVC n s.udev.memory_type)] }) := by
  have h1 : ¬ k.ret (.VIDIOC_REQBUFS .DEVICE_TYPE_UVC n s.udev.memory_type) < 0 :=
    not_lt.mpr (hk.1 _)
  unfold v4l2_init_buffers
  simp only [Bridge.dev, ioctl_reqbufs_uvc k s n _ (hk.1 _), if_neg h1]

theorem reqbufs_capture_ok (k : Kernel) (s : Bridge) (n : Nat) (hk : kernel_succeeds k)
    (hm : s.vdev.memory_type = V4L2_MEMORY_MMAP) (hn : 0 < n ∧ n < 2 ^ 31)
    (hg : 2 ≤ k.reqbufs_count .DEVICE_TYPE_V4L2 n) :
    ∃ c, v4l2_reqbufs k s .DEVICE_TYPE_V4L2 n =
      (0, { s with vdev := { s.vdev with dqbuf_count := 0, qbuf_count := 0, queued := 0,
                                         mem := .mapped (k.reqbufs_count .DEVICE_TYPE_V4L2 n),
                                         nbufs := k.reqbufs_count .DEVICE_TYPE_V4L2 n },
                    calls := c }) := by
  have h2 : ¬ toInt32 n < 1 := by
    rw [toInt32_of_lt hn.2]; omega
  have h3 : ¬ k.reqbufs_count .DEVICE_TYPE_V4L2 n = 0 := by omega
  have h4 : ¬ k.reqbufs_count .DEVICE_TYPE_V4L2 n < 2 := by omega
  obtain ⟨c, hc⟩ := reqbufs_mmap_loop_ok k .DEVICE_TYPE_V4L2 hk
    (k.reqbufs_count .DEVICE_TYPE_V4L2 n) 0
    { s with vdev := { s.vdev with dqbuf_count := 0, qbuf_count := 0, queued := 0,
                                   mem := .mapped (k.reqbufs_count .DEVICE_TYPE_V4L2 n) },
             calls := s.calls ++
               [Call.ioctl (.VIDIOC_REQBUFS .DEVICE_TYPE_V4L2 n s.vdev.memory_type)] }
  refine ⟨c, ?_⟩
  unfold v4l2_reqbufs
  simp only [Bridge.set_dev, Bridge.dev, fun t => init_buffers_capture k t n hk,
    if_neg h2, if_neg h3, hm, if_true, if_neg h4, v4l2_reqbufs_mmap] at hc ⊢
  rw [hc]
  simp only [lt_self_iff_false, if_false]
theorem reqbufs_uvc_ok (k : Kernel) (s : Bridge) (n : Nat) (hk : kernel_succeeds k)
    (hm : s.udev.memory_type = V4L2_MEMORY_USERPTR) (hn : n < 2 ^ 31) :
    ∃ r nb c, 0 ≤ r ∧ v4l2_reqbufs k s .DEVICE_TYPE_UVC n =
      (r, { s with udev := { s.udev with dqbuf_count := 0, qbuf_count := 0, queued := 0,
                                         nbufs := nb },
                   calls := c }) := by
  have hne : ¬ V4L2_MEMORY_USERPTR = V4L2_MEMORY_MMAP := by decide
  have hr : 0 ≤ toInt32 n := by rw [toInt32_of_lt hn]; omega
  unfold v4l2_reqbufs
  simp only [Bridge.set_dev, Bridge.dev, fun t => init_buffers_uvc k t n hk, hm, if_neg hne]
  split_ifs with h1 h2
  · exact ⟨toInt32 n, s.udev.nbufs, _, hr, rfl⟩
  · exact ⟨0, s.udev.nbufs, _, le_refl 0, rfl⟩
  · exact ⟨toInt32 n, k.reqbufs_count .DEVICE_TYPE_UVC n, _, hr, rfl⟩

theorem reqbufs_zero_capture (k : Kernel) (s : Bridge) (hk : kernel_succeeds k) :
    ∃ c, (v4l2_reqbufs k s .DEVICE_TYPE_V4L2 0).2 =
      { s with vdev := { s.vdev with dqbuf_count := 0, qbuf_count := 0, queued := 0 },
               calls := c } := by
  have h1 : toInt32 0 < 1 := by decide
  unfold v4l2_reqbufs
  simp only [Bridge.set_dev, Bridge.dev, fun t => init_buffers_capture k t 0 hk, if_pos h1]
  exact ⟨_, rfl⟩

theorem reqbufs_zero_uvc (k : Kernel) (s : Bridge) (hk : kernel_succeeds k) :
    ∃ c, (v4l2_reqbufs k s .DEVICE_TYPE_UVC 0).2 =
      { s with udev := { s.udev with dqbuf_count := 0, qbuf_count := 0, queued := 0 },
               calls := c } := by
  have h1 : toInt32 0 < 1 := by decide
  unfold v4l2_reqbufs
  simp only [Bridge.set_dev, Bridge.dev, fun t => init_buffers_uvc k t 0 hk, if_pos h1]
  exact ⟨_, rfl⟩

theorem video_stream_on_capture (k : Kernel) (s : Bridge) (hk : kernel_succeeds k) :
    v4l2_video_stream k s .DEVICE_TYPE_V4L2 .STREAM_ON =
      (0, { s with vdev := { s.vdev with is_streaming := true },
                   uvc_shutdown_requested := false,
                   calls := s.calls ++ [Call.ioctl (.VIDIOC_STREAMON .DEVICE_TYPE_V4L2)] }) := by
  have h1 : ¬ driver_ret k s (.VIDIOC_STREAMON .DEVICE_TYPE_V4L2) < 0 :=
    not_lt.mpr (hk.1 _)
  unfold v4l2_video_stream ioctl
  simp only [if_true, if_neg h1]
  rfl

theorem video_stream_off_capture (k : Kernel) (s : Bridge) (hk : kernel_succeeds k)
    (hs : s.vdev.is_streaming = true) :
    v4l2_video_stream k s .DEVICE_TYPE_V4L2 .STREAM_OFF =
      (0, { s with vdev := { s.vdev with is_streaming := false, queued := 0 },
                   calls := s.calls ++ [Call.ioctl (.VIDIOC_STREAMOFF .DEVICE_TYPE_V4L2)] }) := by
  have h1 : ¬ driver_ret k s (.VIDIOC_STREAMOFF .DEVICE_TYPE_V4L2) < 0 :=
    not_lt.mpr (hk.1 _)
  have h0 : ¬ video_stream_action.STREAM_OFF = .STREAM_ON := by decide
  have hs1 : (s.dev .DEVICE_TYPE_V4L2).is_streaming = true := hs
  unfold v4l2_video_stream ioctl
  simp only [if_neg h0, hs1, if_true, if_neg h1]
  rfl

theorem streamon_event_ok (k : Kernel) (s : Bridge) (hk : kernel_succeeds k)
    (hmv : s.vdev.memory_type = V4L2_MEMORY_MMAP)
    (hmu : s.udev.memory_type = V4L2_MEMORY_USERPTR)
    (hnv : 0 < s.vdev.nbufs ∧ s.vdev.nbufs < 2 ^ 31) (hnu : s.udev.nbufs < 2 ^ 31)
    (hg : 2 ≤ k.reqbufs_count .DEVICE_TYPE_V4L2 s.vdev.nbufs) :
    ∃ nb c, uvc_handle_streamon_event k s = some
      { s with
        vdev := { s.vdev with
          is_streaming := true, dqbuf_count := 0,
          qbuf_count := k.reqbufs_count .DEVICE_TYPE_V4L2 s.vdev.nbufs,
          queued := k.reqbufs_count .DEVICE_TYPE_V4L2 s.vdev.nbufs,
          mem := .mapped (k.reqbufs_count .DEVICE_TYPE_V4L2 s.vdev.nbufs),
          nbufs := k.reqbufs_count .DEVICE_TYPE_V4L2 s.vdev.nbufs },
        udev := { s.udev with dqbuf_count := 0, qbuf_count := 0, queued := 0, nbufs := nb },
        uvc_shutdown_requested := false,
        calls := c } := by
  obtain ⟨c1, h1⟩ := reqbufs_capture_ok k s s.vdev.nbufs hk hmv hnv hg
  obtain ⟨r, nb, c2, hr, h2⟩ := reqbufs_uvc_ok k
    { s with vdev := { s.vdev with dqbuf_count := 0, qbuf_count := 0, queued := 0,
                                   mem := .mapped (k.reqbufs_count .DEVICE_TYPE_V4L2 s.vdev.nbufs),
                                   nbufs := k.reqbufs_count .DEVICE_TYPE_V4L2 s.vdev.nbufs },
             calls := c1 }
    s.udev.nbufs hk hmu hnu
  obtain ⟨c3, h3⟩ := qbuf_mmap_loop_ok k hk (k.reqbufs_count .DEVICE_TYPE_V4L2 s.vdev.nbufs)
    (k.reqbufs_count .DEVICE_TYPE_V4L2 s.vdev.nbufs) 0
    { s with vdev := { s.vdev with dqbuf_count := 0, qbuf_count := 0, queued := 0,
                                   mem := .mapped (k.reqbufs_count .DEVICE_TYPE_V4L2 s.vdev.nbufs),
                                   nbufs := k.reqbufs_count .DEVICE_TYPE_V4L2 s.vdev.nbufs },
             udev := { s.udev with dqbuf_count := 0, qbuf_count := 0, queued := 0, nbufs := nb },
             calls := c2 }
    rfl (by omega)
  have hr1 : ¬ r < 0 := not_lt.mpr hr
  refine ⟨nb, c3 ++ [Call.ioctl (.VIDIOC_STREAMON .DEVICE_TYPE_V4L2)], ?_⟩
  unfold uvc_handle_streamon_event
  simp only [h1, lt_self_iff_false, if_false]
  simp only [] at h2
  simp only [h2, if_neg hr1]
  unfold v4l2_qbuf_mmap
  simp only [Bridge.dev] at h3 ⊢
  rw [h3]
  simp only [lt_self_iff_false, if_false, fun t => video_stream_on_capture k t hk, Nat.zero_add]
theorem device_stream_off_capture (k : Kernel) (s : Bridge) (hk : kernel_succeeds k) (m : Nat)
    (hs : s.vdev.is_streaming = true) (hm : s.vdev.memory_type = V4L2_MEMORY_MMAP)
    (hmem : s.vdev.mem = .mapped m) (hn : s.vdev.nbufs ≤ m) :
    ∃ c, v4l2_device_stream_off k s .DEVICE_TYPE_V4L2 = some
      { s with vdev := { s.vdev with is_streaming := false, dqbuf_count := 0, qbuf_count := 0,
                                     queued := 0, mem := .freed },
               calls := c } := by
  have hl := uninit_device_loop_ok k .DEVICE_TYPE_V4L2 hk m s.vdev.nbufs 0 (by omega)
  obtain ⟨c, hc⟩ := reqbufs_zero_capture k
    { s with vdev := { s.vdev with is_streaming := false, queued := 0, mem := .freed },
             calls := s.calls ++ [Call.ioctl (.VIDIOC_STREAMOFF .DEVICE_TYPE_V4L2)] } hk
  refine ⟨c, ?_⟩
  have hs1 : (s.dev .DEVICE_TYPE_V4L2).is_streaming = true := hs
  unfold v4l2_device_stream_off
  simp only [hs1, if_true, video_stream_off_capture k s hk hs]
  unfold v4l2_uninit_device
  simp only [Bridge.dev, Bridge.set_dev, hm, if_true, hmem, hl] at hc ⊢
  rw [hc]

theorem device_stream_off_uvc (k : Kernel) (s : Bridge) (hk : kernel_succeeds k)
    (hs : s.udev.is_streaming = false) (hm : s.udev.memory_type = V4L2_MEMORY_USERPTR) :
    ∃ c, v4l2_device_stream_off k s .DEVICE_TYPE_UVC = some
      { s with udev := { s.udev with dqbuf_count := 0, qbuf_count := 0, queued := 0 },
               calls := c } := by
  obtain ⟨c, hc⟩ := reqbufs_zero_uvc k s hk
  refine ⟨c, ?_⟩
  have hne : ¬ V4L2_MEMORY_USERPTR = V4L2_MEMORY_MMAP := by decide
  unfold v4l2_device_stream_off v4l2_uninit_device
  simp only [hs, Bool.false_eq_true, if_false, Bridge.dev, hm, if_neg hne] at hc ⊢
  rw [hc]

/-- C18: from the endpoints as `init` sets them up (capture in MMAP mode,
UVC in USERPTR mode and not streaming, buffer counts below `2^31`, at least
one capture buffer requested and at least two granted; the capture endpoint
may be idle or not) and with every kernel call succeeding,
the STREAMON handler returns with the capture endpoint streaming,
`dqbuf_count = 0` and `qbuf_count = nbufs` (the granted count) and the UVC
endpoint not streaming; the STREAMOFF handler that follows returns with
`qbuf_count = dqbuf_count` and `is_streaming = false` on both endpoints. -/
theorem stream_lifecycle (k : Kernel) (s : Bridge) (hk : kernel_succeeds k)
    (hu : s.udev.is_streaming = false)
    (hmv : s.vdev.memory_type = V4L2_MEMORY_MMAP)
    (hmu : s.udev.memory_type = V4L2_MEMORY_USERPTR)
    (hnv : 0 < s.vdev.nbufs ∧ s.vdev.nbufs < 2 ^ 31) (hnu : s.udev.nbufs < 2 ^ 31)
    (hg : 2 ≤ k.reqbufs_count .DEVICE_TYPE_V4L2 s.vdev.nbufs) :
    ∃ s1 s2,
      uvc_handle_streamon_event k s = some s1 ∧
      s1.vdev.is_streaming = true ∧ s1.vdev.qbuf_count = s1.vdev.nbufs ∧
      s1.vdev.nbufs = k.reqbufs_count .DEVICE_TYPE_V4L2 s.vdev.nbufs ∧
      s1.vdev.dqbuf_count = 0 ∧ s1.udev.is_streaming = false ∧
      s1.udev.qbuf_count = 0 ∧ s1.udev.dqbuf_count = 0 ∧
      uvc_handle_streamoff_event k s1 = some s2 ∧
      s2.vdev.qbuf_count = s2.vdev.dqbuf_count ∧ s2.udev.qbuf_count = s2.udev.dqbuf_count ∧
      s2.vdev.is_streaming = false ∧ s2.udev.is_streaming = false := by
  obtain ⟨nb, c1, h1⟩ := streamon_event_ok k s hk hmv hmu hnv hnu hg
  obtain ⟨c2, h2⟩ := device_stream_off_capture k
    { s with
      vdev := { s.vdev with
        is_streaming := true, dqbuf_count := 0,
        qbuf_count := k.reqbufs_count .DEVICE_TYPE_V4L2 s.vdev.nbufs,
        queued := k.reqbufs_count .DEVICE_TYPE_V4L2 s.vdev.nbufs,
        mem := .mapped (k.reqbufs_count .DEVICE_TYPE_V4L2 s.vdev.nbufs),
        nbufs := k.reqbufs_count .DEVICE_TYPE_V4L2 s.vdev.nbufs },
      udev := { s.udev with dqbuf_count := 0, qbuf_count := 0, queued := 0, nbufs := nb },
      uvc_shutdown_requested := false,
      calls := c1 }
    hk (k.reqbufs_count .DEVICE_TYPE_V4L2 s.vdev.nbufs) rfl hmv rfl (le_refl _)
  obtain ⟨c3, h3⟩ := device_stream_off_uvc k
    { s with
      vdev := { s.vdev with
        is_streaming := false, dqbuf_count := 0, qbuf_count := 0, queued := 0,
        mem := .freed,
        nbufs := k.reqbufs_count .DEVICE_TYPE_V4L2 s.vdev.nbufs },
      udev := { s.udev with dqbuf_count := 0, qbuf_count := 0, queued := 0, nbufs := nb },
      uvc_shutdown_requested := false,
      calls := c2 }
    hk hu hmu
  have hoff : uvc_handle_streamoff_event k
      { s with
        vdev := { s.vdev with
          is_streaming := true, dqbuf_count := 0,
          qbuf_count := k.reqbufs_count .DEVICE_TYPE_V4L2 s.vdev.nbufs,
          queued := k.reqbufs_count .DEVICE_TYPE_V4L2 s.vdev.nbufs,
          mem := .mapped (k.reqbufs_count .DEVICE_TYPE_V4L2 s.vdev.nbufs),
          nbufs := k.reqbufs_count .DEVICE_TYPE_V4L2 s.vdev.nbufs },
        udev := { s.udev with dqbuf_count := 0, qbuf_count := 0, queued := 0, nbufs := nb },
        uvc_shutdown_requested := false,
        calls := c1 } = some
      { s with
        vdev := { s.vdev with
          is_streaming := false, dqbuf_count := 0, qbuf_count := 0, queued := 0,
          mem := .freed,
          nbufs := k.reqbufs_count .DEVICE_TYPE_V4L2 s.vdev.nbufs },
        udev := { s.udev with dqbuf_count := 0, qbuf_count := 0, queued := 0, nbufs := nb },
        uvc_shutdown_requested := false,
        calls := c3 } := by
    unfold uvc_handle_streamoff_event
    simp only [] at h2 h3
    rw [h2]
    simp only []
    exact h3
  exact ⟨_, _, h1, rfl, rfl, rfl, rfl, hu, rfl, rfl, hoff, rfl, rfl, rfl, hu⟩

/-- Witness of C18: the sample endpoints with four buffers and the kernel that
answers every call with success. -/
theorem stream_lifecycle_witness :
    ∃ s1 s2,
      uvc_handle_streamon_event sample_kernel sample_idle = some s1 ∧
      s1.vdev.is_streaming = true ∧ s1.vdev.qbuf_count = s1.vdev.nbufs ∧
      s1.vdev.nbufs = 4 ∧
      s1.vdev.dqbuf_count = 0 ∧ s1.udev.is_streaming = false ∧
      s1.udev.qbuf_count = 0 ∧ s1.udev.dqbuf_count = 0 ∧
      uvc_handle_streamoff_event sample_kernel s1 = some s2 ∧
      s2.vdev.qbuf_count = s2.vdev.dqbuf_count ∧ s2.udev.qbuf_count = s2.udev.dqbuf_count ∧
      s2.vdev.is_streaming = false ∧ s2.udev.is_streaming = false :=
  stream_lifecycle sample_kernel sample_idle
    ⟨fun _ => le_refl 0, fun _ _ => rfl, fun _ _ => le_refl 0⟩
    rfl rfl rfl (by decide) (by decide) (by decide)

/-- C20, the behaviour of the code: in the capture role `v4l2_open` returns a
handle exactly when the node opens, `VIDIOC_QUERYCAP` succeeds and the bitset
has both `V4L2_CAP_VIDEO_CAPTURE` and `V4L2_CAP_STREAMING`; in the UVC role it
returns a handle exactly when the node opens, the query succeeds and the
bitset has `V4L2_CAP_VIDEO_OUTPUT`: the streaming capability is not looked at,
and the bitset with the output capability alone is accepted. -/
theorem open_capability_check (fd querycap : Int) (capabilities : Nat) :
    ((v4l2_open fd querycap capabilities .DEVICE_TYPE_V4L2).isSome = true ↔
      fd ≠ -1 ∧ 0 ≤ querycap ∧ capabilities &&& V4L2_CAP_VIDEO_CAPTURE ≠ 0 ∧
        capabilities &&& V4L2_CAP_STREAMING ≠ 0) ∧
    ((v4l2_open fd querycap capabilities .DEVICE_TYPE_UVC).isSome = true ↔
      fd ≠ -1 ∧ 0 ≤ querycap ∧ capabilities &&& V4L2_CAP_VIDEO_OUTPUT ≠ 0) ∧
    V4L2_CAP_VIDEO_OUTPUT &&& V4L2_CAP_STREAMING = 0 ∧
    v4l2_open 3 0 V4L2_CAP_VIDEO_OUTPUT .DEVICE_TYPE_UVC =
      some { buffer_type := V4L2_BUF_TYPE_VIDEO_OUTPUT } := by
  refine ⟨?_, ?_, by decide, by decide⟩
  · unfold v4l2_open
    by_cases h1 : fd = -1
    · simp [h1]
    · by_cases h2 : querycap < 0
      · simp [h1, h2]
      · by_cases h3 : capabilities &&& V4L2_CAP_VIDEO_CAPTURE = 0
        · simp [h1, h2, h3]
        · by_cases h4 : capabilities &&& V4L2_CAP_STREAMING = 0
          · simp [h1, h2, h3, h4]
          · simp [h1, h2, h3, h4, not_lt.mp h2]
  · unfold v4l2_open
    by_cases h1 : fd = -1
    · simp [h1]
    · by_cases h2 : querycap < 0
      · simp [h1, h2]
      · by_cases h3 : capabilities &&& V4L2_CAP_VIDEO_OUTPUT = 0
        · simp [h1, h2, h3]
        · simp [h1, h2, h3, not_lt.mp h2]

/-- C19, the behaviour of the code: when the walk delivers the frame files of
the group before the `bFormatIndex` file of its format, the inventory is the
one row of scenario 1; when it delivers the `bFormatIndex` file first, no row
of the pair exists yet, `set_uvc_format_index` writes nothing and the row that
the frame files create keeps format index 0; and the paths as the spec writes
them have the header name where the code reads the format, so none of them
defines a row. -/
theorem format_index_file_order :
    (configfs_walk {}
      [ ⟨"fs/h/m/1/bFrameIndex", some "1\n"⟩, ⟨"fs/h/m/1/wWidth", some "640\n"⟩,
        ⟨"fs/h/m/1/wHeight", some "480\n"⟩,
        ⟨"fs/h/m/1/dwDefaultFrameInterval", some "333333\n"⟩,
        ⟨"fs/h/m/bFormatIndex", some "1\n"⟩ ]).map format_table.inventory =
      some [ { defined := true, usb_speed := USB_SPEED_FULL,
               video_format := V4L2_PIX_FMT_MJPEG, format_name := "1", bFormatIndex := 1,
               bFrameIndex := 1, dwDefaultFrameInterval := 333333, wHeight := 480,
               wWidth := 640 } ] ∧
    (configfs_walk {}
      [ ⟨"fs/h/m/bFormatIndex", some "1\n"⟩,
        ⟨"fs/h/m/1/bFrameIndex", some "1\n"⟩, ⟨"fs/h/m/1/wWidth", some "640\n"⟩,
        ⟨"fs/h/m/1/wHeight", some "480\n"⟩,
        ⟨"fs/h/m/1/dwDefaultFrameInterval", some "333333\n"⟩ ]).map format_table.inventory =
      some [ { defined := true, usb_speed := USB_SPEED_FULL,
               video_format := V4L2_PIX_FMT_MJPEG, format_name := "1", bFormatIndex := 0,
               bFrameIndex := 1, dwDefaultFrameInterval := 333333, wHeight := 480,
               wWidth := 640 } ] ∧
    (configfs_walk {}
      [ ⟨"fs/header/h/m/1/bFormatIndex", some "1\n"⟩,
        ⟨"fs/header/h/m/1/f/1/bFrameIndex", some "1\n"⟩,
        ⟨"fs/header/h/m/1/f/1/wWidth", some "640\n"⟩,
        ⟨"fs/header/h/m/1/f/1/wHeight", some "480\n"⟩,
        ⟨"fs/header/h/m/1/f/1/dwDefaultFrameInterval", some "333333\n"⟩ ]).map
        format_table.inventory = some [{}] := by
  refine ⟨by decide, by decide, by decide⟩

/-- C22, the behaviour of the code: the files of the group `720`, walked after
those of the group `720p` of the same speed and format, are written into the
row of `720p`, because the stored name is compared over the length of the new
name only; the inventory then holds one row where two groups were seen. Two
groups of which the second name is no prefix of the first get a row each. -/
theorem group_name_prefix_shares_row :
    (configfs_walk {}
      [ ⟨"fs/h/m/720p/wWidth", some "1280\n"⟩, ⟨"fs/h/m/720p/wHeight", some "720\n"⟩,
        ⟨"fs/h/m/720/wWidth", some "960\n"⟩, ⟨"fs/h/m/720/wHeight", some "540\n"⟩ ]).map
        format_table.inventory =
      some [ { defined := true, usb_speed := USB_SPEED_FULL,
               video_format := V4L2_PIX_FMT_MJPEG, format_name := "720p", wHeight := 540,
               wWidth := 960 } ] ∧
    (configfs_walk {}
      [ ⟨"fs/h/m/720p/wWidth", some "1280\n"⟩, ⟨"fs/h/m/720p/wHeight", some "720\n"⟩,
        ⟨"fs/h/m/540p/wWidth", some "960\n"⟩, ⟨"fs/h/m/540p/wHeight", some "540\n"⟩ ]).map
        format_table.inventory =
      some [ { defined := true, usb_speed := USB_SPEED_FULL,
               video_format := V4L2_PIX_FMT_MJPEG, format_name := "720p", wHeight := 720,
               wWidth := 1280 },
             { defined := true, usb_speed := USB_SPEED_FULL,
               video_format := V4L2_PIX_FMT_MJPEG, format_name := "540p", wHeight := 540,
               wWidth := 960 } ] := by
  refine ⟨by decide, by decide⟩

/-- C23, the behaviour of the code: a file that cannot be opened or whose
content is longer than 10 characters leaves the table unchanged; but a
content without a number (`abc`, or nothing at all) is read as 0 by `strtol`,
which is not negative, so the file creates the row of its group and writes 0:
here it replaces the width 640 that was read before. -/
theorem unparsable_file_written (t : format_table) (part content : List Char) :
    ((strtok [] part).length ≤ 10 → 10 < content.length →
      configfs_fill_formats t (some content) part = some t) ∧
    ((strtok [] part).length ≤ 10 → configfs_fill_formats t none part = some t) ∧
    (configfs_walk {} [⟨"fs/h/m/1/wWidth", some "abc\n"⟩]).map format_table.inventory =
      some [ { defined := true, usb_speed := USB_SPEED_FULL,
               video_format := V4L2_PIX_FMT_MJPEG, format_name := "1", wWidth := 0 } ] ∧
    (configfs_walk {}
      [⟨"fs/h/m/1/wWidth", some "640\n"⟩, ⟨"fs/h/m/1/wWidth", some ""⟩]).map
        format_table.inventory =
      some [ { defined := true, usb_speed := USB_SPEED_FULL,
               video_format := V4L2_PIX_FMT_MJPEG, format_name := "1", wWidth := 0 } ] := by
  refine ⟨?_, ?_, by decide, by decide⟩
  · intro h1 h2
    have hv : configfs_read_value (some content) < 0 := by
      unfold configfs_read_value
      have : min content.length 20 > 10 := by
        rw [gt_iff_lt, lt_min_iff]; exact ⟨h2, by decide⟩
      simp only [if_pos this]
      decide
    unfold configfs_fill_formats
    simp only [if_neg (not_lt.mpr h1), if_pos hv]
    split_ifs <;> rfl
  · intro h1
    have hv : configfs_read_value none < 0 := by decide
    unfold configfs_fill_formats
    simp only [if_neg (not_lt.mpr h1), if_pos hv]
    split_ifs <;> rfl

/-- Witness of C23: the file `wWidth` with the eleven characters
`12345678901` leaves the sample table unchanged. -/
theorem unparsable_file_written_witness :
    configfs_fill_formats {} (some "12345678901".data) "fs/h/m/1/wWidth".data = some {} :=
  (unparsable_file_written {} "fs/h/m/1/wWidth".data "12345678901".data).1
    (by decide) (by decide)

/-- C24, the behaviour of the code: the walk over the `wWidth` files of thirty
groups fills the table; the first file of a thirty-first group raises
`last_format_index` to 30 before the bound is tested and leaves it there; the
next file of the walk then reads row 30, which is outside the table. -/
theorem capacity_overrun :
    configfs_walk {} ((List.range 30).map sample_group_file) = some full_table ∧
    configfs_fill_formats full_table (some "640\n".data) "fs/h/m/x/wWidth".data =
      some { full_table with last_format_index := 30 } ∧
    configfs_fill_formats { full_table with last_format_index := 30 } (some "480\n".data)
      "fs/h/m/x/wHeight".data = none ∧
    set_uvc_format_index { full_table with last_format_index := 30 } USB_SPEED_FULL
      V4L2_PIX_FMT_MJPEG 1 = none := by
  refine ⟨by decide, by decide, by decide, by decide⟩

end UvcGadget
